import Mathlib

/-!
# Work Graphs Mesh Node Sample: render module, shader compiler, camera

A shallow embedding of `meshNodeSample/workgraphrendermodule.{h,cpp}`,
`meshNodeSample/shadercompiler.cpp` and `meshNodeSample/samplecameracomponent.cpp`.

* Machine integers are `Nat` with an explicit `% 2 ^ 32`.
* `double` values are finite IEEE-754 binary64 numbers `(-1)^sign * mant * 2^exp`;
  the product `deltaTime * 1000.0` is rounded to nearest, ties to even.
* The `float` speed of the camera is a finite IEEE-754 binary32 number; its
  product with the wheel factor is rounded to nearest, ties to even.
* Calls into Cauldron, D3D12 and DXC are inputs of the model: every such call
  reads its outcome from an environment record.
* Commands recorded into the command list are collected in a list, in order.
-/

namespace MeshNodeSample

/-! ## Machine numbers -/

/-- Reduction of a natural number to the range of `uint32_t`. -/
def wrap32 (n : Nat) : Nat := n % 2 ^ 32

/-- A Windows `HRESULT`: negative values are failures. -/
abbrev HRESULT := Int

/-- The `FAILED` test on an `HRESULT`. -/
def FAILED (hr : HRESULT) : Bool := decide (hr < 0)

/-- The `SUCCEEDED` test on an `HRESULT`. -/
def SUCCEEDED (hr : HRESULT) : Bool := decide (0 ≤ hr)

/-- A finite binary64 value `(-1)^sign * mant * 2^exp`. -/
structure F64 where
  sign : Bool
  mant : Nat
  exp : Int
deriving DecidableEq, Repr

namespace F64

/-- The representable range: 53 bits of significand, exponents of the
subnormal and normal binades. -/
def wf (x : F64) : Prop := x.mant < 2 ^ 53 ∧ -1074 ≤ x.exp ∧ x.exp ≤ 971

instance (x : F64) : Decidable x.wf := by unfold wf; infer_instance

/-- The rational number a finite double stands for. -/
def toRat (x : F64) : ℚ := (if x.sign then -1 else 1) * (x.mant : ℚ) * (2 : ℚ) ^ x.exp

/-- The magnitude truncated to an integer: `mant * 2^exp` rounded toward zero. -/
def truncMag (x : F64) : Nat :=
  if 0 ≤ x.exp then x.mant * 2 ^ x.exp.toNat else x.mant / 2 ^ (-x.exp).toNat

/-- Truncation toward zero, the first step of a conversion to an integer type. -/
def trunc (x : F64) : Int := if x.sign then -(x.truncMag : Int) else (x.truncMag : Int)

/-- The number of bits of a significand below `2^106` (the product of two
53-bit significands): the least `n` with `m < 2^n`. -/
def bitLength (m : Nat) : Nat := (List.range 107).countP (fun n => decide (2 ^ n ≤ m))

/-- The quotient `m / 2^s` rounded to nearest, ties to even. -/
def roundNearestEven (m s : Nat) : Nat :=
  let q := m / 2 ^ s
  let r := m % 2 ^ s
  if 2 * r > 2 ^ s then q + 1
  else if 2 * r = 2 ^ s then q + q % 2
  else q

/-- The double product `x * y` in round-to-nearest-even; `none` stands for an
overflow to infinity. -/
def mul (x y : F64) : Option F64 :=
  let m := x.mant * y.mant
  let e := x.exp + y.exp
  let s := max (bitLength m - 53) (-1074 - e).toNat
  let m1 := roundNearestEven m s
  let e1 := e + s
  let r : F64 := if m1 = 2 ^ 53 then ⟨xor x.sign y.sign, 2 ^ 52, e1 + 1⟩ else ⟨xor x.sign y.sign, m1, e1⟩
  if r.exp ≤ 971 then some r
  else if r.mant * 2 ^ (r.exp - 971).toNat < 2 ^ 53 then
    some ⟨r.sign, r.mant * 2 ^ (r.exp - 971).toNat, 971⟩
  else none

/-- The literal `1000.0`. -/
def thousand : F64 := ⟨false, 125, 3⟩

/-- The conversion `static_cast<uint32_t>(x)` of a double product. For a
truncated value in the range of `uint32_t` the result is that value. Outside
that range C++ leaves the conversion undefined; there the model follows the
x86-64 code of the conversion: the value is truncated to a 64-bit integer
(`cvttsd2si`) and the low 32 bits are kept, and for a magnitude from `2^63` on,
or an infinite product, that instruction gives the integer whose low 32 bits
are 0. -/
def toUInt32 : Option F64 → Nat
  | some x => if x.truncMag < 2 ^ 63 then (x.trunc % 2 ^ 32).toNat else 0
  | none => 0

end F64

/-- A finite binary32 value `(-1)^sign * mant * 2^exp`. -/
structure F32 where
  sign : Bool
  mant : Nat
  exp : Int
deriving DecidableEq, Repr

namespace F32

/-- The representable range: 24 bits of significand, exponents of the
subnormal and normal binades. -/
def wf (x : F32) : Prop := x.mant < 2 ^ 24 ∧ -149 ≤ x.exp ∧ x.exp ≤ 104

instance (x : F32) : Decidable x.wf := by unfold wf; infer_instance

/-- The rational number a finite float stands for. -/
def toRat (x : F32) : ℚ := (if x.sign then -1 else 1) * (x.mant : ℚ) * (2 : ℚ) ^ x.exp

/-- The float product `x * y` in round-to-nearest-even; `none` stands for an
overflow to infinity. -/
def mul (x y : F32) : Option F32 :=
  let m := x.mant * y.mant
  let e := x.exp + y.exp
  let s := max (F64.bitLength m - 24) (-149 - e).toNat
  let m1 := F64.roundNearestEven m s
  let e1 := e + s
  let r : F32 := if m1 = 2 ^ 24 then ⟨xor x.sign y.sign, 2 ^ 23, e1 + 1⟩ else ⟨xor x.sign y.sign, m1, e1⟩
  if r.exp ≤ 104 then some r
  else if r.mant * 2 ^ (r.exp - 104).toNat < 2 ^ 24 then
    some ⟨r.sign, r.mant * 2 ^ (r.exp - 104).toNat, 104⟩
  else none

/-- The function `std::max(a, b)` on floats: `(a < b) ? b : a`. -/
def max (a b : F32) : F32 := if a.toRat < b.toRat then b else a

/-- The function `std::min(a, b)` on floats: `(b < a) ? b : a`. -/
def min (a b : F32) : F32 := if b.toRat < a.toRat then b else a

/-- The literal `50.f`. -/
def fifty : F32 := ⟨false, 25, 1⟩

/-- The literal `1.5f`. -/
def oneAndHalf : F32 := ⟨false, 3, -1⟩

/-- The value of the constant expression `1.f / 1.5f`, the float nearest to
2/3: `11184811 * 2^-24`, which lies `2^-24 / 3` above 2/3. -/
def oneOverOneAndHalf : F32 := ⟨false, 11184811, -24⟩

/-- The literal `1.f`. -/
def one : F32 := ⟨false, 1, 0⟩

/-- The literal `200.f`. -/
def twoHundred : F32 := ⟨false, 25, 3⟩

end F32

/-! ## Failures -/

/-- Modelled from the spec: the macros `CauldronCritical` and
`CauldronThrowOnFail` of `misc/assert.h` (not among the sources) end the running
function with a fatal failure. A member access through a null pointer ends it
as well; it is kept apart from the two fatal failures. -/
inductive Failure where
  | critical (format : String) (arguments : List String)
  | throwOnFail (hr : HRESULT)
  | nullDereference
deriving DecidableEq, Repr

/-- The call `CauldronThrowOnFail(hr)`. -/
def CauldronThrowOnFail (hr : HRESULT) : Except Failure Unit :=
  if FAILED hr then .error (.throwOnFail hr) else .ok ()

/-- The call `CauldronCritical(format, arguments...)`. -/
def CauldronCritical {α : Type} (format : String) (arguments : List String) : Except Failure α :=
  .error (.critical format arguments)

/-! ## Cauldron and D3D12 data -/

/-- Handle of a `cauldron::Texture`. -/
abbrev Texture := Nat
/-- Handle of a `cauldron::RasterView`. -/
abbrev RasterView := Nat
/-- Handle of a `cauldron::GPUResource`. -/
abbrev GPUResource := Nat
/-- Handle of a resource view. -/
abbrev ResourceView := Nat
/-- Handle of a root signature, parameter set or pipeline object. -/
abbrev Handle := Nat
/-- A texture format of Cauldron or DXGI. -/
abbrev Format := Nat

/-- The names of `cauldron::ResourceState` used by the module; `or` is the
operator `|` on states. -/
inductive ResourceState where
  | NonPixelShaderResource
  | PixelShaderResource
  | RenderTargetResource
  | DepthWrite
  | UnorderedAccess
  | or (a b : ResourceState)
deriving DecidableEq, Repr

/-- The state `NonPixelShaderResource | PixelShaderResource`. -/
def ResourceState.shaderRead : ResourceState :=
  .or .NonPixelShaderResource .PixelShaderResource

/-- A transition barrier, as `Barrier::Transition` builds it. -/
structure Barrier where
  pResource : GPUResource
  SourceState : ResourceState
  DestState : ResourceState
deriving DecidableEq, Repr

/-- The constructor `Barrier::Transition(resource, source, dest)`. -/
def Barrier.Transition (r : GPUResource) (src dst : ResourceState) : Barrier := ⟨r, src, dst⟩

/-- The effect of `std::swap(barrier.DestState, barrier.SourceState)`. -/
def Barrier.swapStates (b : Barrier) : Barrier := { b with SourceState := b.DestState, DestState := b.SourceState }

/-- The enumeration `cauldron::UpscalerState`. -/
inductive UpscalerState where
  | None
  | PreUpscale
  | PostUpscale
deriving DecidableEq, Repr

/-- The fields of `cauldron::ResolutionInfo` read by the module. -/
structure ResolutionInfo where
  RenderWidth : Nat
  RenderHeight : Nat
  DisplayWidth : Nat
  DisplayHeight : Nat
deriving DecidableEq, Repr

/-- Matrices are kept as the expressions the module builds from camera values. -/
inductive Mat4 where
  | value (id : Nat)
  | mul (a b : Mat4)
  | InverseMatrix (a : Mat4)
deriving DecidableEq, Repr

/-- Vectors are kept as the expressions the module builds from camera values. -/
inductive Vec4 where
  | value (id : Nat)
  | getCol3 (m : Mat4)
deriving DecidableEq, Repr

/-- The camera values read in one frame. -/
structure Camera where
  ProjectionJittered : Mat4
  View : Mat4
  PrevProjectionJittered : Mat4
  PreviousView : Mat4
  CameraTranslation : Vec4
deriving DecidableEq, Repr

/-- The constant buffer `WorkGraphCBData` of `shaders/workgraphcommon.h`. -/
structure WorkGraphCBData where
  ViewProjection : Mat4
  PreviousViewProjection : Mat4
  InverseViewProjection : Mat4
  CameraPosition : Vec4
  PreviousCameraPosition : Vec4
  ShaderTime : Nat
  PreviousShaderTime : Nat
  WindStrength : ℚ
  WindDirection : ℚ
deriving DecidableEq, Repr

/-- The constant buffer `ShadingCBData` of `shaders/shadingcommon.h`. -/
structure ShadingCBData where
  InverseViewProjection : Mat4
  CameraPosition : Vec4
deriving DecidableEq, Repr

/-- Thread group width of the shading pass (`shaders/shadingcommon.h`). -/
def s_shadingThreadGroupSizeX : Nat := 8
/-- Thread group height of the shading pass (`shaders/shadingcommon.h`). -/
def s_shadingThreadGroupSizeY : Nat := 8

/-- The value `D3D12_SET_WORK_GRAPH_FLAG_INITIALIZE` of `d3d12.h`. -/
def D3D12_SET_WORK_GRAPH_FLAG_INITIALIZE : Nat := 0x1

/-- The operator `~` on a 32-bit flag word. -/
def not32 (f : Nat) : Nat := (2 ^ 32 - 1) ^^^ f

/-- The structure `D3D12_GPU_VIRTUAL_ADDRESS_RANGE`. -/
structure D3D12_GPU_VIRTUAL_ADDRESS_RANGE where
  StartAddress : Nat := 0
  SizeInBytes : Nat := 0
deriving DecidableEq, Repr

/-- The program identifier token of a state object program. -/
abbrev D3D12_PROGRAM_IDENTIFIER := Nat

/-- The structure `D3D12_SET_WORK_GRAPH_DESC`. -/
structure D3D12_SET_WORK_GRAPH_DESC where
  ProgramIdentifier : D3D12_PROGRAM_IDENTIFIER := 0
  Flags : Nat := 0
  BackingMemory : D3D12_GPU_VIRTUAL_ADDRESS_RANGE := {}
deriving DecidableEq, Repr

/-- The enumeration `D3D12_PROGRAM_TYPE`; a value-initialised descriptor holds
the zero value, which names no program type used here. -/
inductive D3D12_PROGRAM_TYPE where
  | zero
  | WORK_GRAPH
deriving DecidableEq, Repr

/-- The structure `D3D12_SET_PROGRAM_DESC`. -/
structure D3D12_SET_PROGRAM_DESC where
  Type_ : D3D12_PROGRAM_TYPE := .zero
  WorkGraph : D3D12_SET_WORK_GRAPH_DESC := {}
deriving DecidableEq, Repr

/-- The enumeration `D3D12_DISPATCH_MODE`, as far as the module uses it. -/
inductive D3D12_DISPATCH_MODE where
  | NODE_CPU_INPUT
deriving DecidableEq, Repr

/-- The structure `D3D12_NODE_CPU_INPUT`; `pRecords` is `none` for a null
pointer. -/
structure D3D12_NODE_CPU_INPUT where
  EntrypointIndex : Nat
  NumRecords : Nat
  pRecords : Option Nat
  RecordStrideInBytes : Nat
deriving DecidableEq, Repr

/-- The structure `D3D12_DISPATCH_GRAPH_DESC`. -/
structure D3D12_DISPATCH_GRAPH_DESC where
  Mode : D3D12_DISPATCH_MODE
  NodeCPUInput : D3D12_NODE_CPU_INPUT
deriving DecidableEq, Repr

/-- The structure `cauldron::BufferAddressInfo` of a buffer: its GPU address
and its size. -/
structure BufferAddressInfo where
  GPUBufferView : Nat
  SizeInBytes : Nat
deriving DecidableEq, Repr

/-- The resource flags passed to `BufferDesc::Data`. -/
inductive ResourceFlags where
  | None
  | AllowUnorderedAccess
deriving DecidableEq, Repr

/-- The arguments of `BufferDesc::Data`. -/
structure BufferDesc where
  Name : String
  Size : Nat
  Stride : Nat
  Alignment : Nat
  Flags : ResourceFlags
deriving DecidableEq, Repr

/-- A `cauldron::Buffer` made by `Buffer::CreateBufferResource`: the
description and initial state it was asked for, and the address information
`GetAddressInfo` reports for it. -/
structure Buffer where
  desc : BufferDesc
  initialState : ResourceState
  addressInfo : BufferAddressInfo
deriving DecidableEq, Repr

/-- The three raster views of `m_pGBufferRasterViews`. -/
structure RasterViews where
  v0 : RasterView := 0
  v1 : RasterView := 0
  v2 : RasterView := 0
deriving DecidableEq, Repr

/-- The elements of the array in index order. -/
def RasterViews.toList (a : RasterViews) : List RasterView := [a.v0, a.v1, a.v2]

/-- What the parameter set uploads at a root constant buffer slot. -/
inductive ConstantData where
  | workGraph (data : WorkGraphCBData)
  | upscaler (info : Nat)
  | shading (data : ShadingCBData)
deriving DecidableEq, Repr

/-- The commands `Execute` records, in the order of the calls. The two
`GPUScopedProfileCapture` objects only label the passes for the profiler and
are not recorded. -/
inductive Command where
  | ResourceBarrier (count : Nat) (barriers : List Barrier)
  | ClearRenderTarget (view : ResourceView) (clearColor : List ℚ)
  | ClearDepthStencil (view : ResourceView) (stencilValue : Nat)
  | BeginRaster (count : Nat) (views : List RasterView) (depth : RasterView)
  | SetViewportScissorRect (left top width height : Nat) (nearDist farDist : ℚ)
  | UpdateRootConstantBuffer (parameterSet : Handle) (data : ConstantData) (slot : Nat)
  | Bind (parameterSet : Handle) (pipeline : Option Handle)
  | SetProgram (desc : D3D12_SET_PROGRAM_DESC)
  | DispatchGraph (desc : D3D12_DISPATCH_GRAPH_DESC)
  | EndRaster
  | SetPipelineState (pipeline : Handle)
  | Dispatch (x y z : Nat)
deriving DecidableEq, Repr

/-! ## The render module -/

/-- The data members of `WorkGraphRenderModule` with their default member
initialisers (`workgraphrendermodule.h`). -/
structure WorkGraphRenderModule where
  m_shaderTime : Nat := 0
  m_WindStrength : ℚ := 1
  m_WindDirection : ℚ := 0
  m_pGBufferDepthOutput : Texture := 0
  m_pGBufferDepthRasterView : RasterView := 0
  m_pGBufferColorOutput : Texture := 0
  m_pGBufferNormalOutput : Texture := 0
  m_pGBufferMotionOutput : Texture := 0
  m_pGBufferRasterViews : RasterViews := {}
  m_pWorkGraphRootSignature : Handle := 0
  m_pWorkGraphParameterSet : Handle := 0
  m_pWorkGraphStateObject : Handle := 0
  m_pWorkGraphBackingMemoryBuffer : Option Buffer := none
  m_WorkGraphProgramDesc : D3D12_SET_PROGRAM_DESC := {}
  m_WorkGraphEntryPointIndex : Nat := 0
  m_pShadingOutput : Texture := 0
  m_pShadingRootSignature : Handle := 0
  m_pShadingParameterSet : Handle := 0
  m_pShadingPipeline : Handle := 0
deriving DecidableEq, Repr

/-- The Cauldron services `Execute` calls that do not depend on the frame. -/
structure Framework where
  /-- The method `Texture::GetResource`. -/
  GetResource : Texture → GPUResource
  /-- The method `RasterView::GetResourceView`. -/
  GetResourceView : RasterView → ResourceView
  /-- The macro `DEG_TO_RAD` of `misc/math.h`. -/
  DEG_TO_RAD : ℚ → ℚ

/-- What the framework, the scene and the command list hand to one call of
`Execute`. -/
structure FrameInput where
  deltaTime : F64
  upscaleState : UpscalerState
  resInfo : ResolutionInfo
  camera : Camera
  /-- The scene's `UpscalerInfo.FullScreenScaleRatio` block. -/
  upscalerInfo : Nat
  /-- Result of `QueryInterface` for `ID3D12GraphicsCommandList10`. -/
  queryCommandList10 : HRESULT

/-- Modelled from the spec: the helper `DivideRoundingUp` of Cauldron (not
among the sources) gives the quotient `a / b` rounded up. -/
def DivideRoundingUp (a b : Nat) : Nat := (a + b - 1) / b

/-- What one call of `Execute` leaves behind: the module, the commands recorded
so far and, when the call ended in a failure, that failure. -/
structure ExecuteResult where
  module : WorkGraphRenderModule
  commands : List Command
  failure : Option Failure
deriving DecidableEq, Repr

namespace WorkGraphRenderModule

/-- The resolution `Execute` selects from the upscaler state. -/
def selectResolution (upscaleState : UpscalerState) (resInfo : ResolutionInfo) : Nat × Nat :=
  if upscaleState = UpscalerState.None ∨ upscaleState = UpscalerState.PostUpscale then
    (resInfo.DisplayWidth, resInfo.DisplayHeight)
  else
    (resInfo.RenderWidth, resInfo.RenderHeight)

/-- The four barriers `Execute` pushes before the raster pass. -/
def forwardBarriers (fw : Framework) (self : WorkGraphRenderModule) : List Barrier :=
  [ Barrier.Transition (fw.GetResource self.m_pGBufferColorOutput)
      (.or .NonPixelShaderResource .PixelShaderResource) .RenderTargetResource,
    Barrier.Transition (fw.GetResource self.m_pGBufferNormalOutput)
      (.or .NonPixelShaderResource .PixelShaderResource) .RenderTargetResource,
    Barrier.Transition (fw.GetResource self.m_pGBufferMotionOutput)
      (.or .NonPixelShaderResource .PixelShaderResource) .RenderTargetResource,
    Barrier.Transition (fw.GetResource self.m_pGBufferDepthOutput)
      (.or .NonPixelShaderResource .PixelShaderResource) .DepthWrite ]

/-- The constant buffer `Execute` fills for the work graph. -/
def workGraphData (fw : Framework) (self : WorkGraphRenderModule) (previousShaderTime : Nat)
    (currentCamera : Camera) : WorkGraphCBData :=
  let ViewProjection := Mat4.mul currentCamera.ProjectionJittered currentCamera.View
  { ViewProjection := ViewProjection
    PreviousViewProjection := Mat4.mul currentCamera.PrevProjectionJittered currentCamera.PreviousView
    InverseViewProjection := Mat4.InverseMatrix ViewProjection
    CameraPosition := currentCamera.CameraTranslation
    PreviousCameraPosition := Vec4.getCol3 (Mat4.InverseMatrix currentCamera.PreviousView)
    ShaderTime := self.m_shaderTime
    PreviousShaderTime := previousShaderTime
    WindStrength := self.m_WindStrength
    WindDirection := fw.DEG_TO_RAD self.m_WindDirection }

/-- The dispatch description `Execute` fills. -/
def dispatchDesc (self : WorkGraphRenderModule) : D3D12_DISPATCH_GRAPH_DESC :=
  { Mode := .NODE_CPU_INPUT
    NodeCPUInput :=
      { EntrypointIndex := self.m_WorkGraphEntryPointIndex
        NumRecords := 1
        RecordStrideInBytes := 0
        pRecords := none } }

/-- The second block of `Execute`: the deferred shading pass. -/
def shadingCommands (fw : Framework) (self : WorkGraphRenderModule) (frame : FrameInput)
    (width height : Nat) : List Command :=
  let shadingData : ShadingCBData :=
    { InverseViewProjection :=
        Mat4.InverseMatrix (Mat4.mul frame.camera.ProjectionJittered frame.camera.View)
      CameraPosition := frame.camera.CameraTranslation }
  let numGroupX := DivideRoundingUp width s_shadingThreadGroupSizeX
  let numGroupY := DivideRoundingUp height s_shadingThreadGroupSizeY
  let shadingOutput := fw.GetResource self.m_pShadingOutput
  [ Command.ResourceBarrier 1
      [Barrier.Transition shadingOutput (.or .NonPixelShaderResource .PixelShaderResource) .UnorderedAccess],
    Command.UpdateRootConstantBuffer self.m_pShadingParameterSet (.upscaler frame.upscalerInfo) 0,
    Command.UpdateRootConstantBuffer self.m_pShadingParameterSet (.shading shadingData) 1,
    Command.Bind self.m_pShadingParameterSet (some self.m_pShadingPipeline),
    Command.SetPipelineState self.m_pShadingPipeline,
    Command.Dispatch numGroupX numGroupY 1,
    Command.ResourceBarrier 1
      [Barrier.Transition shadingOutput .UnorderedAccess (.or .NonPixelShaderResource .PixelShaderResource)] ]

/-- The commands of `Execute` between the forward barriers and the query for
the command list interface: clears, raster begin, viewport, constants and
parameter binding. -/
def rasterSetupCommands (fw : Framework) (self : WorkGraphRenderModule) (previousShaderTime : Nat)
    (frame : FrameInput) (width height : Nat) : List Command :=
  -- Clear color targets
  self.m_pGBufferRasterViews.toList.map
      (fun rasterView => Command.ClearRenderTarget (fw.GetResourceView rasterView) [0, 0, 0, 0])
  -- Clear depth target
  ++ [ Command.ClearDepthStencil (fw.GetResourceView self.m_pGBufferDepthRasterView) 0,
       -- Begin raster with render targets
       Command.BeginRaster self.m_pGBufferRasterViews.toList.length
         self.m_pGBufferRasterViews.toList self.m_pGBufferDepthRasterView,
       Command.SetViewportScissorRect 0 0 width height 0 1,
       Command.UpdateRootConstantBuffer self.m_pWorkGraphParameterSet
         (.workGraph (workGraphData fw self previousShaderTime frame.camera)) 0,
       -- Bind all the parameters
       Command.Bind self.m_pWorkGraphParameterSet none ]

/-- The module after the statement that clears the initialization flag. -/
def clearInitializeFlag (self : WorkGraphRenderModule) : WorkGraphRenderModule :=
  { self with
    m_WorkGraphProgramDesc := { self.m_WorkGraphProgramDesc with
      WorkGraph := { self.m_WorkGraphProgramDesc.WorkGraph with
        Flags := self.m_WorkGraphProgramDesc.WorkGraph.Flags
                   &&& not32 D3D12_SET_WORK_GRAPH_FLAG_INITIALIZE } } }

/-- The method `WorkGraphRenderModule::Execute(deltaTime, pCmdList)`: the
module it leaves and the commands it records into `pCmdList`. -/
def Execute (fw : Framework) (self : WorkGraphRenderModule) (frame : FrameInput) : ExecuteResult :=
  let previousShaderTime := self.m_shaderTime
  -- Increment shader time
  let self := { self with
    m_shaderTime := wrap32 (self.m_shaderTime + F64.toUInt32 (F64.mul frame.deltaTime F64.thousand)) }
  -- Get render resolution based on upscaler state
  let size := selectResolution frame.upscaleState frame.resInfo
  let width := size.1
  let height := size.2
  let barriers := forwardBarriers fw self
  let recorded : List Command :=
    Command.ResourceBarrier barriers.length barriers
      :: rasterSetupCommands fw self previousShaderTime frame width height
  -- Get ID3D12GraphicsCommandList10 from Cauldron command list
  match CauldronThrowOnFail frame.queryCommandList10 with
  | .error failure => { module := self, commands := recorded, failure := some failure }
  | .ok _ =>
    -- Dispatch the work graph
    let graph : List Command :=
      [ Command.SetProgram self.m_WorkGraphProgramDesc,
        Command.DispatchGraph (dispatchDesc self) ]
    -- Clear backing memory initialization flag, as the graph has run at least once now
    let self := clearInitializeFlag self
    -- Transition render targets back to readable state
    let barriers := barriers.map Barrier.swapStates
    { module := self
      commands := recorded ++ graph
        ++ Command.EndRaster :: Command.ResourceBarrier barriers.length barriers
        :: shadingCommands fw self frame width height
      failure := none }

/-- A run of `Execute` calls on one module instance, one per frame input: the
results in order. A call that ends in a failure is the last one. -/
def ExecuteFrames (fw : Framework) (self : WorkGraphRenderModule) : List FrameInput → List ExecuteResult
  | [] => []
  | frame :: frames =>
    let r := Execute fw self frame
    r :: (if r.failure.isSome then [] else ExecuteFrames fw r.module frames)

end WorkGraphRenderModule

/-! ## The shader compiler -/

/-- The arguments of one call of `ShaderCompiler::CompileShader`; `entryPoint`
is `none` for a null pointer. -/
structure ShaderRequest where
  shaderFilePath : String
  target : String
  entryPoint : Option String
deriving DecidableEq, Repr

/-- The outcomes of the DXC calls made while one shader is compiled. A pointer
that the code tests against null is an `Option`; `Compile`, `GetStatus` and
`GetResult` follow the COM contract: a failure code, or the object asked for. -/
structure DxcCalls where
  /-- The call `m_pUtils->LoadFile`: result code and source blob. -/
  LoadFile : HRESULT × Option Handle
  /-- The call `m_pCompiler->Compile`: failure code, or the operation result. -/
  Compile : Except HRESULT Handle
  /-- The call `result->GetStatus`: failure code, or the compile status. -/
  GetStatus : Except HRESULT HRESULT
  /-- The call `result->GetErrorBuffer`: result code and error blob. -/
  GetErrorBuffer : HRESULT × Option Handle
  /-- The call `m_pUtils->GetBlobAsUtf16`: the converted blob with its text, or
  `none` when the conversion leaves the pointer null (its result code is not
  read). -/
  GetBlobAsUtf16 : Option (Handle × String)
  /-- The call `result->GetResult`: failure code, or the output blob. -/
  GetResult : Except HRESULT Handle

/-- What `CompileShader` leaves: the returned blob pointer or the failure that
ended the call, and the objects released on the way, in order. -/
structure CompileResult where
  result : Except Failure (Option Handle)
  released : List Handle
deriving Repr

/-- The helper `SafeRelease`: releases a non-null pointer. -/
def SafeRelease (p : Option Handle) : List Handle := p.toList

namespace ShaderCompiler

/-- The block of `CompileShader` that tries to read the error string of the
DXC result: the string, or a null dereference, and the objects released. -/
def errorString (dxc : DxcCalls) : Except Failure String × List Handle :=
  match dxc.GetErrorBuffer with
  | (hr, some errorStringBlob) =>
    if SUCCEEDED hr then
      match dxc.GetBlobAsUtf16 with
      | none => (.error .nullDereference, [])
      | some (errorStringBlob16, text) =>
        (.ok text, SafeRelease (some errorStringBlob16) ++ SafeRelease (some errorStringBlob))
    else (.ok "", SafeRelease (some errorStringBlob))
  | (_, none) => (.ok "", SafeRelease none)

/-- The method `ShaderCompiler::CompileShader(shaderFilePath, target,
entryPoint)`. -/
def CompileShader (dxc : DxcCalls) (request : ShaderRequest) : CompileResult :=
  match dxc.LoadFile with
  | (_, none) => ⟨CauldronCritical "Failed to load %s" [request.shaderFilePath], []⟩
  | (hrLoad, some source) =>
    if FAILED hrLoad then ⟨CauldronCritical "Failed to load %s" [request.shaderFilePath], []⟩
    else
      -- release source blob
      let released := SafeRelease (some source)
      match dxc.Compile with
      | .error _ =>
        ⟨CauldronCritical "Failed to compile shader %s" [request.shaderFilePath],
          released ++ SafeRelease none⟩
      | .ok result =>
        match dxc.GetStatus with
        | .error _ =>
          ⟨CauldronCritical "Failed to get compilation status for shader %s" [request.shaderFilePath],
            released ++ SafeRelease (some result)⟩
        | .ok compileStatus =>
          -- try get error string from DXC result
          match errorString dxc with
          | (.error failure, releasedBlobs) => ⟨.error failure, released ++ releasedBlobs⟩
          | (.ok errorString, releasedBlobs) =>
            let released := released ++ releasedBlobs
            if FAILED compileStatus then
              ⟨CauldronCritical "Failed to compile shader %s\n%s" [request.shaderFilePath, errorString],
                released ++ SafeRelease (some result)⟩
            else
              match dxc.GetResult with
              | .error _ =>
                ⟨CauldronCritical "Failed to get binary shader blob for shader %s"
                    [request.shaderFilePath],
                  released ++ SafeRelease (some result)⟩
              | .ok outputBlob => ⟨.ok (some outputBlob), released ++ SafeRelease (some result)⟩

end ShaderCompiler

/-! ## Building the work graph program -/

/-- Name for the work graph program inside the state object. -/
def WorkGraphProgramName : String := "WorkGraph"

/-- The value `D3D12_WORK_GRAPHS_TIER_1_1` of `d3d12.h`. -/
def D3D12_WORK_GRAPHS_TIER_1_1 : Nat := 11

/-- The value `D3D12_WORK_GRAPHS_BACKING_MEMORY_ALIGNMENT_IN_BYTES` of
`d3d12.h`. -/
def D3D12_WORK_GRAPHS_BACKING_MEMORY_ALIGNMENT_IN_BYTES : Nat := 8

/-- The pipeline type of a root signature description. -/
inductive PipelineType where
  | Compute
  | Graphics
deriving DecidableEq, Repr

/-- The shader stage a binding is visible to. -/
inductive ShaderBindStage where
  | Compute
deriving DecidableEq, Repr

/-- A `cauldron::RootSignatureDesc`: the constant buffer views added (binding
index, stage, count) and the pipeline type. -/
structure RootSignatureDesc where
  constantBufferViews : List (Nat × ShaderBindStage × Nat)
  m_PipelineType : PipelineType
deriving DecidableEq, Repr

/-- Cull modes of the rasterizer subobject. -/
inductive D3D12_CULL_MODE where
  | NONE
  | BACK
deriving DecidableEq, Repr

/-- Fill modes of the rasterizer subobject. -/
inductive D3D12_FILL_MODE where
  | SOLID
deriving DecidableEq, Repr

/-- Primitive topology types. -/
inductive D3D12_PRIMITIVE_TOPOLOGY_TYPE where
  | TRIANGLE
deriving DecidableEq, Repr

/-- State object flags set by the module. -/
inductive D3D12_STATE_OBJECT_FLAGS where
  | WORK_GRAPHS_USE_GRAPHICS_STATE_FOR_GLOBAL_ROOT_SIGNATURE
deriving DecidableEq, Repr

/-- The subobjects of the state object description, with the values their
setters were given. A generic program refers to other subobjects by their
position in the description. -/
inductive Subobject where
  | config (flags : D3D12_STATE_OBJECT_FLAGS)
  | globalRootSignature (rootSignature : Handle)
  | workGraph (includeAllAvailableNodes : Bool) (programName : String)
  | rasterizer (frontCounterClockwise : Bool) (fillMode : D3D12_FILL_MODE) (cullMode : D3D12_CULL_MODE)
  | primitiveTopology (type : D3D12_PRIMITIVE_TOPOLOGY_TYPE)
  | depthStencilFormat (format : Format)
  | renderTargetFormats (numRenderTargets : Nat) (formats : List Format)
  | dxilLibrary (shaderBlob : Handle)
  | genericProgram (exports : List String) (subobjects : List Nat)
deriving DecidableEq, Repr

/-- The device-side calls of the program construction, in call order. A
`CompileShader` call is listed with the blob it returned (`none` when it ended
in a failure) and the objects it released itself. -/
inductive InitEvent where
  | CompileShader (request : ShaderRequest) (blob : Option Handle) (released : List Handle)
  | CreateStateObject (desc : List Subobject)
  | Release (shader : Handle)
  | SetMaximumInputRecords (workGraphIndex maxRecords maxNodeInputs : Nat)
  | GetWorkGraphMemoryRequirements (workGraphIndex : Nat)
  | CreateBufferResource (desc : BufferDesc) (initialState : ResourceState)
deriving DecidableEq, Repr

/-- The Cauldron, D3D12 and DXC services `InitWorkGraphProgram` calls. -/
structure Device where
  /-- The call `RootSignature::CreateRootSignature(name, desc)`. -/
  CreateRootSignature : String → RootSignatureDesc → Handle
  /-- The call `ParameterSet::CreateParameterSet(rootSignature)`. -/
  CreateParameterSet : Handle → Handle
  /-- Result of `QueryInterface` for `ID3D12Device9`. -/
  queryDevice9 : HRESULT
  /-- Result of `CheckFeatureSupport(D3D12_FEATURE_D3D12_OPTIONS21)`. -/
  checkFeatureSupport : HRESULT
  /-- The field `options.WorkGraphsTier` it fills. -/
  WorkGraphsTier : Nat
  /-- The method `Texture::GetFormat`. -/
  GetFormat : Texture → Format
  /-- The function `GetDXGIFormat`. -/
  GetDXGIFormat : Format → Format
  /-- The DXC calls made for each compiled shader. -/
  dxc : ShaderRequest → DxcCalls
  /-- The call `CreateStateObject(desc)`: failure code, or the state object. -/
  CreateStateObject : List Subobject → Except HRESULT Handle
  /-- Result of `QueryInterface` for `ID3D12StateObjectProperties1`. -/
  queryStateObjectProperties1 : Handle → HRESULT
  /-- Result of `QueryInterface` for `ID3D12WorkGraphProperties1`. -/
  queryWorkGraphProperties1 : Handle → HRESULT
  /-- The method `GetWorkGraphIndex(programName)` of a state object. -/
  GetWorkGraphIndex : Handle → String → Nat
  /-- The field `MaxSizeInBytes` (a `UINT64`) that
  `GetWorkGraphMemoryRequirements(workGraphIndex)` fills. -/
  MaxSizeInBytes : Handle → Nat → Nat
  /-- The method `GetProgramIdentifier(programName)` of a state object. -/
  GetProgramIdentifier : Handle → String → D3D12_PROGRAM_IDENTIFIER
  /-- The method `GetEntrypointIndex(workGraphIndex, {name, arrayIndex})`. -/
  GetEntrypointIndex : Handle → Nat → String × Nat → Nat
  /-- The address information of a buffer created from a description. -/
  GetAddressInfo : BufferDesc → BufferAddressInfo

/-- The objects the lambdas of `InitWorkGraphProgram` capture by reference: the
state object description, the list of compiled shaders, and the calls made. -/
structure Builder where
  stateObjectDesc : List Subobject
  compiledShaders : List (Option Handle)
  trace : List InitEvent
deriving DecidableEq, Repr

/-- The calls of the three lambdas between the comment "Add shader libraries
and mesh nodes" and the creation of the state object. -/
inductive BuildStep where
  | AddShaderLibrary (shaderFileName : String)
  | AddPixelShader (shaderFileName entryPoint : String)
  | AddMeshNode (meshShaderExportName pixelShaderExportName : String) (backfaceCulling : Bool)
deriving DecidableEq, Repr

/-- Positions of the graphics state subobjects in the description: they are
created, in this order, right after the config, root signature and work graph
subobjects. -/
def rasterizerNoCullingSubobject : Nat := 3
/-- Position of the rasterizer subobject with backface culling. -/
def rasterizerBackfaceCullingSubobject : Nat := 4
/-- Position of the primitive topology subobject. -/
def primitiveTopologySubobject : Nat := 5
/-- Position of the depth stencil format subobject. -/
def depthStencilFormatSubobject : Nat := 6
/-- Position of the render target formats subobject. -/
def renderTargetFormatSubobject : Nat := 7

namespace WorkGraphRenderModule

/-- The common body of the lambdas `AddShaderLibrary` and `AddPixelShader`:
compile, add the blob as a DXIL library, keep the blob to be released later. -/
def addCompiledShader (dev : Device) (b : Builder) (request : ShaderRequest) :
    Builder × Option Failure :=
  let compiled := ShaderCompiler.CompileShader (dev.dxc request) request
  let returned : Option Handle := match compiled.result with
    | .ok blob => blob
    | .error _ => none
  let b := { b with
    trace := b.trace ++ [InitEvent.CompileShader request returned compiled.released] }
  match compiled.result with
  | .error failure => (b, some failure)
  | .ok none => (b, some .nullDereference)
  | .ok (some blob) =>
    ({ b with
        stateObjectDesc := b.stateObjectDesc ++ [Subobject.dxilLibrary blob]
        compiledShaders := b.compiledShaders ++ [some blob] }, none)

/-- The lambda `AddShaderLibrary`. -/
def AddShaderLibrary (dev : Device) (b : Builder) (shaderFileName : String) :
    Builder × Option Failure :=
  addCompiledShader dev b ⟨shaderFileName, "lib_6_9", none⟩

/-- The lambda `AddPixelShader`. -/
def AddPixelShader (dev : Device) (b : Builder) (shaderFileName entryPoint : String) :
    Builder × Option Failure :=
  addCompiledShader dev b ⟨shaderFileName, "ps_6_9", some entryPoint⟩

/-- The lambda `AddMeshNode`. -/
def AddMeshNode (b : Builder) (meshShaderExportName pixelShaderExportName : String)
    (backfaceCulling : Bool) : Builder :=
  { b with
    stateObjectDesc := b.stateObjectDesc ++
      [ Subobject.genericProgram [meshShaderExportName, pixelShaderExportName]
          [ if backfaceCulling then rasterizerBackfaceCullingSubobject
            else rasterizerNoCullingSubobject,
            primitiveTopologySubobject,
            depthStencilFormatSubobject,
            renderTargetFormatSubobject ] ] }

/-- The lambda calls of `InitWorkGraphProgram`, in source order. -/
def buildSteps : List BuildStep :=
  [ -- Shader libraries for procedural world generation
    .AddShaderLibrary "world.hlsl",
    .AddShaderLibrary "biomes.hlsl",
    .AddShaderLibrary "tree.hlsl",
    .AddShaderLibrary "rock.hlsl",
    -- Terrain Mesh Node
    .AddShaderLibrary "terrainrenderer.hlsl",
    .AddPixelShader "terrainrenderer.hlsl" "TerrainPixelShader",
    .AddMeshNode "TerrainMeshShader" "TerrainPixelShader" true,
    -- Spline Mesh Node for trees & rocks
    .AddShaderLibrary "splinerenderer.hlsl",
    .AddPixelShader "splinerenderer.hlsl" "SplinePixelShader",
    .AddMeshNode "SplineMeshShader" "SplinePixelShader" true,
    -- Grass Nodes
    .AddShaderLibrary "densegrassmeshshader.hlsl",
    .AddShaderLibrary "sparsegrassmeshshader.hlsl",
    .AddPixelShader "grasspixelshader.hlsl" "GrassPixelShader",
    .AddMeshNode "DenseGrassMeshShader" "GrassPixelShader" false,
    .AddMeshNode "SparseGrassMeshShader" "GrassPixelShader" false,
    -- Flowers, Insects & Mushroom Nodes
    .AddShaderLibrary "beemeshshader.hlsl",
    .AddShaderLibrary "butterflymeshshader.hlsl",
    .AddShaderLibrary "flowermeshshader.hlsl",
    .AddShaderLibrary "mushroommeshshader.hlsl",
    .AddPixelShader "insectpixelshader.hlsl" "InsectPixelShader",
    .AddMeshNode "BeeMeshShader" "InsectPixelShader" false,
    .AddMeshNode "ButterflyMeshShader" "InsectPixelShader" false,
    .AddMeshNode "FlowerMeshShader" "InsectPixelShader" false,
    .AddMeshNode "SparseFlowerMeshShader" "InsectPixelShader" false,
    .AddMeshNode "MushroomMeshShader" "InsectPixelShader" false ]

/-- One lambda call. -/
def applyStep (dev : Device) (b : Builder) : BuildStep → Builder × Option Failure
  | .AddShaderLibrary shaderFileName => AddShaderLibrary dev b shaderFileName
  | .AddPixelShader shaderFileName entryPoint => AddPixelShader dev b shaderFileName entryPoint
  | .AddMeshNode mesh pixel backfaceCulling => (AddMeshNode b mesh pixel backfaceCulling, none)

/-- The lambda calls one after the other; the first failure ends the run. -/
def runSteps (dev : Device) : Builder → List BuildStep → Builder × Option Failure
  | b, [] => (b, none)
  | b, step :: steps =>
    match applyStep dev b step with
    | (b, some failure) => (b, some failure)
    | (b, none) => runSteps dev b steps

/-- The subobjects created before the first shader is compiled. -/
def initialSubobjects (dev : Device) (self : WorkGraphRenderModule) : List Subobject :=
  [ -- configure draw nodes to use graphics root signature
    .config .WORK_GRAPHS_USE_GRAPHICS_STATE_FOR_GLOBAL_ROOT_SIGNATURE,
    -- set root signature for work graph
    .globalRootSignature self.m_pWorkGraphRootSignature,
    .workGraph true WorkGraphProgramName,
    -- Rasterizer state configuration without culling
    .rasterizer true .SOLID .NONE,
    -- Rasterizer state configuration with backface culling
    .rasterizer true .SOLID .BACK,
    -- Primitive topology configuration
    .primitiveTopology .TRIANGLE,
    -- Depth stencil format configuration
    .depthStencilFormat (dev.GetDXGIFormat (dev.GetFormat self.m_pGBufferDepthOutput)),
    -- Render target format configuration
    .renderTargetFormats 3
      [ dev.GetDXGIFormat (dev.GetFormat self.m_pGBufferColorOutput),
        dev.GetDXGIFormat (dev.GetFormat self.m_pGBufferNormalOutput),
        dev.GetDXGIFormat (dev.GetFormat self.m_pGBufferMotionOutput) ] ]

/-- What `InitWorkGraphProgram` leaves: the module, or the failure that ended
it, and the device-side calls made up to then. -/
structure InitResult where
  result : Except Failure WorkGraphRenderModule
  trace : List InitEvent
deriving Repr

/-- The last part of `InitWorkGraphProgram`, from "Get work graph properties"
on, for a created state object. -/
def finishProgram (dev : Device) (self : WorkGraphRenderModule) (trace : List InitEvent) :
    InitResult :=
  let stateObject := self.m_pWorkGraphStateObject
  match CauldronThrowOnFail (dev.queryStateObjectProperties1 stateObject) with
  | .error failure => ⟨.error failure, trace⟩
  | .ok _ =>
  match CauldronThrowOnFail (dev.queryWorkGraphProperties1 stateObject) with
  | .error failure => ⟨.error failure, trace⟩
  | .ok _ =>
  -- Get the index of our work graph inside the state object
  let workGraphIndex := dev.GetWorkGraphIndex stateObject WorkGraphProgramName
  -- Set the input record limit. This is required for work graphs with mesh nodes.
  let trace := trace ++ [InitEvent.SetMaximumInputRecords workGraphIndex 1 1]
  -- Create backing memory buffer
  let MaxSizeInBytes := dev.MaxSizeInBytes stateObject workGraphIndex
  let trace := trace ++ [InitEvent.GetWorkGraphMemoryRequirements workGraphIndex]
  let created : Option Buffer × List InitEvent :=
    if MaxSizeInBytes > 0 then
      let bufferDesc : BufferDesc :=
        { Name := "MeshNodeSample_WorkGraphBackingMemory"
          Size := wrap32 MaxSizeInBytes
          Stride := 1
          Alignment := D3D12_WORK_GRAPHS_BACKING_MEMORY_ALIGNMENT_IN_BYTES
          Flags := .AllowUnorderedAccess }
      (some ⟨bufferDesc, .UnorderedAccess, dev.GetAddressInfo bufferDesc⟩,
        [InitEvent.CreateBufferResource bufferDesc .UnorderedAccess])
    else (self.m_pWorkGraphBackingMemoryBuffer, [])
  let self := { self with m_pWorkGraphBackingMemoryBuffer := created.1 }
  let trace := trace ++ created.2
  -- Prepare work graph desc
  let workGraph : D3D12_SET_WORK_GRAPH_DESC :=
    { self.m_WorkGraphProgramDesc.WorkGraph with
      ProgramIdentifier := dev.GetProgramIdentifier stateObject WorkGraphProgramName
      -- Set flag to initialize backing memory.
      Flags := D3D12_SET_WORK_GRAPH_FLAG_INITIALIZE }
  -- Set backing memory
  let workGraph : D3D12_SET_WORK_GRAPH_DESC :=
    match self.m_pWorkGraphBackingMemoryBuffer with
    | some buffer =>
      { workGraph with
        BackingMemory :=
          { StartAddress := buffer.addressInfo.GPUBufferView
            SizeInBytes := buffer.addressInfo.SizeInBytes } }
    | none => workGraph
  let self := { self with
    m_WorkGraphProgramDesc := { Type_ := .WORK_GRAPH, WorkGraph := workGraph }
    -- Query entry point index
    m_WorkGraphEntryPointIndex := dev.GetEntrypointIndex stateObject workGraphIndex ("World", 0) }
  ⟨.ok self, trace⟩

/-- The method `WorkGraphRenderModule::InitWorkGraphProgram()`. -/
def InitWorkGraphProgram (dev : Device) (self : WorkGraphRenderModule) : InitResult :=
  -- Create root signature for work graph
  let workGraphRootSigDesc : RootSignatureDesc :=
    { constantBufferViews := [(0, ShaderBindStage.Compute, 1)]
      -- Work graphs with mesh nodes use graphics root signature
      m_PipelineType := .Graphics }
  let rootSignature :=
    dev.CreateRootSignature "MeshNodeSample_WorkGraphRootSignature" workGraphRootSigDesc
  let self := { self with
    m_pWorkGraphRootSignature := rootSignature
    -- Create parameter set for root signature
    m_pWorkGraphParameterSet := dev.CreateParameterSet rootSignature }
  -- Get D3D12 device
  match CauldronThrowOnFail dev.queryDevice9 with
  | .error failure => ⟨.error failure, []⟩
  | .ok _ =>
  -- Check if mesh nodes are supported
  match CauldronThrowOnFail dev.checkFeatureSupport with
  | .error failure => ⟨.error failure, []⟩
  | .ok _ =>
  if dev.WorkGraphsTier < D3D12_WORK_GRAPHS_TIER_1_1 then
    ⟨CauldronCritical "Work graphs tier 1.1 (mesh nodes) are not supported on the current device." [],
      []⟩
  else
  -- Create work graph
  let b : Builder :=
    { stateObjectDesc := initialSubobjects dev self, compiledShaders := [], trace := [] }
  -- Add shader libraries and mesh nodes
  match runSteps dev b buildSteps with
  | (b, some failure) => ⟨.error failure, b.trace⟩
  | (b, none) =>
  -- Create work graph state object
  let trace := b.trace ++ [InitEvent.CreateStateObject b.stateObjectDesc]
  match dev.CreateStateObject b.stateObjectDesc with
  | .error hr => ⟨.error (.throwOnFail hr), trace⟩
  | .ok stateObject =>
  let self := { self with m_pWorkGraphStateObject := stateObject }
  -- release all compiled shaders
  let trace := trace ++ (b.compiledShaders.filterMap id).map InitEvent.Release
  finishProgram dev self trace

end WorkGraphRenderModule

/-- The compiled shader blobs obtained by the calls of a trace. -/
def obtainedShaders : List InitEvent → List Handle
  | [] => []
  | InitEvent.CompileShader _ (some blob) _ :: es => blob :: obtainedShaders es
  | _ :: es => obtainedShaders es

/-- The compiled shader blobs released by the calls of a trace. -/
def releasedShaders : List InitEvent → List Handle
  | [] => []
  | InitEvent.Release blob :: es => blob :: releasedShaders es
  | _ :: es => releasedShaders es

/-- The shader compilations requested by the calls of a trace. -/
def compileRequests : List InitEvent → List ShaderRequest
  | [] => []
  | InitEvent.CompileShader request _ _ :: es => request :: compileRequests es
  | _ :: es => compileRequests es

/-- The buffers requested by the calls of a trace. -/
def createdBuffers : List InitEvent → List (BufferDesc × ResourceState)
  | [] => []
  | InitEvent.CreateBufferResource desc state :: es => (desc, state) :: createdBuffers es
  | _ :: es => createdBuffers es

/-- The shader compilation a lambda call asks for, if any. -/
def BuildStep.request? : BuildStep → Option ShaderRequest
  | .AddShaderLibrary shaderFileName => some ⟨shaderFileName, "lib_6_9", none⟩
  | .AddPixelShader shaderFileName entryPoint => some ⟨shaderFileName, "ps_6_9", some entryPoint⟩
  | .AddMeshNode _ _ _ => none

/-- The sixteen shader compilations of `InitWorkGraphProgram`, in call order. -/
def shaderRequests : List ShaderRequest :=
  WorkGraphRenderModule.buildSteps.filterMap BuildStep.request?

/-- The frame constants uploaded for the work graph among recorded commands. -/
def frameConstants : List Command → List WorkGraphCBData
  | [] => []
  | Command.UpdateRootConstantBuffer _ (.workGraph data) _ :: cs => data :: frameConstants cs
  | _ :: cs => frameConstants cs

/-- The program descriptors passed to `SetProgram` among recorded commands. -/
def setProgramDescs : List Command → List D3D12_SET_PROGRAM_DESC
  | [] => []
  | Command.SetProgram desc :: cs => desc :: setProgramDescs cs
  | _ :: cs => setProgramDescs cs

/-- The barrier lists submitted by `ResourceBarrier` among recorded commands. -/
def barrierLists : List Command → List (List Barrier)
  | [] => []
  | Command.ResourceBarrier _ bs :: cs => bs :: barrierLists cs
  | _ :: cs => barrierLists cs

/-- The viewport rectangles set among recorded commands, as (width, height). -/
def viewportSizes : List Command → List (Nat × Nat)
  | [] => []
  | Command.SetViewportScissorRect _ _ w h _ _ :: cs => (w, h) :: viewportSizes cs
  | _ :: cs => viewportSizes cs

/-- Whether a flag word has the graph-initialize bit. -/
def hasInitializeFlag (flags : Nat) : Bool := flags &&& D3D12_SET_WORK_GRAPH_FLAG_INITIALIZE != 0

/-! ## Sample inputs -/

/-- A framework for examples: handles are offset, degrees are scaled. -/
def sampleFramework : Framework :=
  { GetResource := fun texture => texture + 100
    GetResourceView := fun view => view + 200
    DEG_TO_RAD := fun degrees => degrees * (314159265 / 100000000) / 180 }

/-- A camera for examples. -/
def sampleCamera : Camera :=
  { ProjectionJittered := .value 0, View := .value 1, PrevProjectionJittered := .value 2,
    PreviousView := .value 3, CameraTranslation := .value 0 }

/-- The double nearest to 0.016, a frame of 16 ms. -/
def sixteenMilliseconds : F64 := ⟨false, 4611686018427388, -58⟩

/-- A frame input for examples: 16 ms, no upscaler, display 1920x1080, render
1280x720. -/
def sampleFrame : FrameInput :=
  { deltaTime := sixteenMilliseconds
    upscaleState := .None
    resInfo := { RenderWidth := 1280, RenderHeight := 720, DisplayWidth := 1920, DisplayHeight := 1080 }
    camera := sampleCamera
    upscalerInfo := 0
    queryCommandList10 := 0 }

/-- A module for examples: the constructed module with four distinct G-buffer
textures, as `InitTextures` leaves it. -/
def sampleModule : WorkGraphRenderModule :=
  { m_pGBufferColorOutput := 1, m_pGBufferNormalOutput := 2, m_pGBufferMotionOutput := 3,
    m_pGBufferDepthOutput := 4, m_pGBufferRasterViews := ⟨11, 12, 13⟩,
    m_pGBufferDepthRasterView := 14, m_pShadingOutput := 5 }

/-- DXC calls for examples: everything succeeds, the compiler leaves an error
buffer (warnings) that converts to text, and the output blob is `blob`. -/
def sampleDxc (blob : Handle) : DxcCalls :=
  { LoadFile := (0, some 1)
    Compile := .ok 2
    GetStatus := .ok 0
    GetErrorBuffer := (0, some 3)
    GetBlobAsUtf16 := some (4, "")
    GetResult := .ok blob }

/-- A device for examples: tier 1.1, every call succeeds, the k-th shader
request (from 0) compiles to blob `1000 + k`, the state object is 50 and asks
for 65536 bytes of backing memory at address 4096. -/
def sampleDevice : Device :=
  { CreateRootSignature := fun _ _ => 20
    CreateParameterSet := fun _ => 21
    queryDevice9 := 0
    checkFeatureSupport := 0
    WorkGraphsTier := 11
    GetFormat := fun texture => texture + 300
    GetDXGIFormat := fun format => format + 400
    dxc := fun request => sampleDxc (1000 + shaderRequests.indexOf request)
    CreateStateObject := fun _ => .ok 50
    queryStateObjectProperties1 := fun _ => 0
    queryWorkGraphProperties1 := fun _ => 0
    GetWorkGraphIndex := fun _ _ => 0
    MaxSizeInBytes := fun _ _ => 65536
    GetProgramIdentifier := fun _ _ => 77
    GetEntrypointIndex := fun _ _ _ => 2
    GetAddressInfo := fun desc => ⟨4096, desc.Size⟩ }

/-! ## Predicates used by the theorems -/

/-- What the trace and the list of compiled shaders of a builder have in
common while the lambdas run: the blobs obtained are the blobs kept, and no
blob has been released, no state object or buffer created. -/
def BuilderInvariant (b : Builder) : Prop :=
  obtainedShaders b.trace = b.compiledShaders.filterMap id
    ∧ releasedShaders b.trace = []
    ∧ createdBuffers b.trace = []
    ∧ ∀ desc, InitEvent.CreateStateObject desc ∉ b.trace

/-- A shader request compiles on a device: `CompileShader` returns a blob. -/
def Compiles (dev : Device) (request : ShaderRequest) : Prop :=
  ∃ blob, (ShaderCompiler.CompileShader (dev.dxc request) request).result = .ok (some blob)

/-- The builder `InitWorkGraphProgram` starts the lambda calls with. -/
def WorkGraphRenderModule.initialBuilder (dev : Device) (self : WorkGraphRenderModule) : Builder :=
  { stateObjectDesc := WorkGraphRenderModule.initialSubobjects dev
      { self with
        m_pWorkGraphRootSignature :=
          dev.CreateRootSignature "MeshNodeSample_WorkGraphRootSignature"
            { constantBufferViews := [(0, ShaderBindStage.Compute, 1)], m_PipelineType := .Graphics } }
    compiledShaders := []
    trace := [] }

/-- The backing memory size, in bytes, that the work graph of a state object
reports. -/
def reportedMaxSize (dev : Device) (stateObject : Handle) : Nat :=
  dev.MaxSizeInBytes stateObject (dev.GetWorkGraphIndex stateObject WorkGraphProgramName)

/-- The module `InitWorkGraphProgram` builds on the sample device from the
sample module. -/
def sampleProgram : WorkGraphRenderModule :=
  { sampleModule with
    m_pWorkGraphRootSignature := 20
    m_pWorkGraphParameterSet := 21
    m_pWorkGraphStateObject := 50
    m_pWorkGraphBackingMemoryBuffer :=
      some { desc := { Name := "MeshNodeSample_WorkGraphBackingMemory", Size := 65536, Stride := 1,
                       Alignment := 8, Flags := .AllowUnorderedAccess }
             initialState := .UnorderedAccess
             addressInfo := { GPUBufferView := 4096, SizeInBytes := 65536 } }
    m_WorkGraphProgramDesc :=
      { Type_ := .WORK_GRAPH
        WorkGraph := { ProgramIdentifier := 77, Flags := 1,
                       BackingMemory := { StartAddress := 4096, SizeInBytes := 65536 } } }
    m_WorkGraphEntryPointIndex := 2 }

/-- The sample device with a work graph that asks for 4 GiB (`2^32` bytes) of
backing memory. -/
def fourGiBDevice : Device :=
  { sampleDevice with MaxSizeInBytes := fun _ _ => 2 ^ 32 }

/-- The sample device with a work graph that asks for no backing memory. -/
def noBackingMemoryDevice : Device :=
  { sampleDevice with MaxSizeInBytes := fun _ _ => 0 }

/-- The value `E_FAIL`. -/
def E_FAIL : HRESULT := -2147467259

/-- The sample device on which the creation of the state object fails. -/
def failingCreateDevice : Device :=
  { sampleDevice with CreateStateObject := fun _ => .error E_FAIL }

/-- DXC calls in which everything succeeds but the conversion of the error
buffer to UTF-16, which leaves its output pointer null. -/
def conversionFailsDxc : DxcCalls :=
  { sampleDxc 9 with GetBlobAsUtf16 := none }

/-- DXC calls for a shader with compile errors: the status is `E_FAIL` and the
error buffer holds the compiler's message. -/
def compileErrorDxc : DxcCalls :=
  { sampleDxc 9 with GetStatus := .ok E_FAIL, GetBlobAsUtf16 := some (4, "error: undeclared identifier") }

/-- A shader request for examples. -/
def sampleRequest : ShaderRequest := ⟨"world.hlsl", "lib_6_9", none⟩

/-- The five conditions under which a compilation yields `blob`: the source
file loads, the `Compile` call succeeds, the status query succeeds, the compile
status is a success, and the result blob is fetched. -/
def DxcCalls.Succeeds (dxc : DxcCalls) (blob : Handle) : Prop :=
  (∃ source, dxc.LoadFile.2 = some source) ∧ FAILED dxc.LoadFile.1 = false
    ∧ (∃ result, dxc.Compile = .ok result)
    ∧ (∃ status, dxc.GetStatus = .ok status ∧ FAILED status = false)
    ∧ dxc.GetResult = .ok blob

/-! ## Observers of the recorded commands -/

/-- The thread group counts of the `Dispatch` calls among recorded commands. -/
def dispatches : List Command → List (Nat × Nat × Nat)
  | [] => []
  | Command.Dispatch x y z :: cs => (x, y, z) :: dispatches cs
  | _ :: cs => dispatches cs

/-- The descriptions passed to `DispatchGraph` among recorded commands. -/
def dispatchGraphDescs : List Command → List D3D12_DISPATCH_GRAPH_DESC
  | [] => []
  | Command.DispatchGraph desc :: cs => desc :: dispatchGraphDescs cs
  | _ :: cs => dispatchGraphDescs cs

/-- A command that writes a G-buffer target or opens or closes the raster pass
on them: a clear, `BeginRaster`, the graph dispatch, `EndRaster`. -/
def Command.writesGBuffer : Command → Bool
  | .ClearRenderTarget _ _ => true
  | .ClearDepthStencil _ _ => true
  | .BeginRaster _ _ _ => true
  | .DispatchGraph _ => true
  | .EndRaster => true
  | _ => false

/-- A compute dispatch (the shading pass). -/
def Command.isDispatch : Command → Bool
  | .Dispatch _ _ _ => true
  | _ => false

/-- A resource barrier command. -/
def Command.isResourceBarrier : Command → Bool
  | .ResourceBarrier _ _ => true
  | _ => false

/-! ## Tracking resource states -/

/-- The state each resource is known to be in. -/
abbrev ResourceStates := GPUResource → ResourceState

/-- One transition barrier applied to tracked states: its source state has to
be the tracked state of its resource, which then becomes the destination
state; `none` when the source state does not match. -/
def applyBarrier (states : ResourceStates) (b : Barrier) : Option ResourceStates :=
  if states b.pResource = b.SourceState then
    some (fun r => if r = b.pResource then b.DestState else states r)
  else none

/-- The barriers of one `ResourceBarrier` call applied in order. -/
def applyBarriers : ResourceStates → List Barrier → Option ResourceStates
  | states, [] => some states
  | states, b :: bs =>
    match applyBarrier states b with
    | some states => applyBarriers states bs
    | none => none

/-- The barriers of all `ResourceBarrier` calls among recorded commands applied
in order. -/
def trackCommands : ResourceStates → List Command → Option ResourceStates
  | states, [] => some states
  | states, Command.ResourceBarrier _ bs :: cs =>
    match applyBarriers states bs with
    | some states => trackCommands states cs
    | none => none
  | states, _ :: cs => trackCommands states cs

/-- Tracked states for examples: every resource in the shader-read state. -/
def allShaderRead : ResourceStates := fun _ => ResourceState.shaderRead

/-! ## Degrees to radians -/

/-- Modelled from the spec: the macro `DEG_TO_RAD` of Cauldron (not among the
sources) converts degrees to radians, `degrees * pi / 180`, for the constant
`pi` the framework uses for π. -/
def DEG_TO_RAD (pi degrees : ℚ) : ℚ := degrees * pi / 180

/-! ## The sliders `Init` registers -/

/-- The float members of the module `Init` hands to the UI by address. -/
inductive FloatMember where
  | m_WindStrength
  | m_WindDirection
deriving DecidableEq, Repr

/-- The arguments of one `UISection::AddFloatSlider` call: name, variable,
minimum, maximum and, when given, the display format. -/
structure UIFloatSlider where
  name : String
  pFloatData : FloatMember
  minValue : ℚ
  maxValue : ℚ
  format : Option String := none
deriving DecidableEq, Repr

/-- A `cauldron::UISection` as `Init` fills it. -/
structure UISection where
  SectionName : String := ""
  sliders : List UIFloatSlider := []
deriving DecidableEq, Repr

/-- The section `WorkGraphRenderModule::Init` registers with the UI manager. -/
def WorkGraphRenderModule.uiSection : UISection :=
  { SectionName := "Procedural Generation"
    sliders :=
      [ { name := "Wind Strength", pFloatData := .m_WindStrength, minValue := 0, maxValue := 5 / 2 },
        { name := "Wind Direction", pFloatData := .m_WindDirection, minValue := 0, maxValue := 360,
          format := some "%.1f" } ] }

/-- A store through the address `Init` handed out. -/
def FloatMember.write (member : FloatMember) (value : ℚ) (self : WorkGraphRenderModule) :
    WorkGraphRenderModule :=
  match member with
  | .m_WindStrength => { self with m_WindStrength := value }
  | .m_WindDirection => { self with m_WindDirection := value }

/-- Modelled from the spec: a float slider of the UI overlay (Cauldron, not
among the sources) stores the value the user picks in its variable, and the
values it offers are those from its minimum to its maximum, both ends included
("wind strength 0–2.5, wind direction degrees 0–360"); any other value leaves
the variable as it is. -/
def UIFloatSlider.set (slider : UIFloatSlider) (value : ℚ) (self : WorkGraphRenderModule) :
    WorkGraphRenderModule :=
  if slider.minValue ≤ value ∧ value ≤ slider.maxValue then slider.pFloatData.write value self
  else self

/-- What happens to a module between frames and at a frame: the user moves
the slider at a position of the registered section, or the framework calls
`Execute`. -/
inductive UIAction where
  | moveSlider (position : Nat) (value : ℚ)
  | frame (input : FrameInput)

/-- A run of slider moves and `Execute` calls on one module instance: the
results of the `Execute` calls in order. A call that ends in a failure is the
last one. -/
def WorkGraphRenderModule.runUI (fw : Framework) :
    WorkGraphRenderModule → List UIAction → List ExecuteResult
  | _, [] => []
  | self, .moveSlider position value :: actions =>
    match WorkGraphRenderModule.uiSection.sliders.get? position with
    | some slider => runUI fw (slider.set value self) actions
    | none => runUI fw self actions
  | self, .frame input :: actions =>
    let r := Execute fw self input
    r :: (if r.failure.isSome then [] else runUI fw r.module actions)

/-! ## Observers of the state object description -/

/-- The descriptions handed to `CreateStateObject` by the calls of a trace. -/
def stateObjectDescs : List InitEvent → List (List Subobject)
  | [] => []
  | InitEvent.CreateStateObject desc :: es => desc :: stateObjectDescs es
  | _ :: es => stateObjectDescs es

/-- The generic programs (mesh nodes) of a description, in order: the exports
of each and the positions of the subobjects it refers to. -/
def genericPrograms : List Subobject → List (List String × List Nat)
  | [] => []
  | Subobject.genericProgram exports subobjects :: rest =>
    (exports, subobjects) :: genericPrograms rest
  | _ :: rest => genericPrograms rest

/-- The blob `CompileShader` returns for a request on a device (0 when it
returns none). -/
def compiledBlob (dev : Device) (request : ShaderRequest) : Handle :=
  match (ShaderCompiler.CompileShader (dev.dxc request) request).result with
  | .ok (some blob) => blob
  | _ => 0

/-- A call on `ID3D12WorkGraphProperties1` that configures or queries the work
graph: `SetMaximumInputRecords` or `GetWorkGraphMemoryRequirements`. -/
def InitEvent.isWorkGraphProperty : InitEvent → Bool
  | .SetMaximumInputRecords _ _ _ => true
  | .GetWorkGraphMemoryRequirements _ => true
  | _ => false

/-! ## The textures of the module -/

/-- The view dimension passed to the raster view allocator. -/
inductive ViewDimension where
  | Texture2D
deriving DecidableEq, Repr

/-- The Cauldron services `InitTextures` calls. -/
structure TextureServices where
  /-- The call `GetFramework()->GetColorTargetForCallback(name)`; `none` is a
  null pointer. -/
  GetColorTargetForCallback : String → Option Texture
  /-- The call `GetFramework()->GetRenderTexture(name)`. -/
  GetRenderTexture : String → Texture
  /-- The call `GetRasterViewAllocator()->RequestRasterView(texture, dimension)`. -/
  RequestRasterView : Texture → ViewDimension → RasterView

/-- The name the constructor gives the render module, `GetName()`. -/
def WorkGraphRenderModule.GetName : String := "WorkGraphRenderModule"

/-- The method `WorkGraphRenderModule::InitTextures()`. The macro
`CauldronAssert(ASSERT_CRITICAL, ...)` of Cauldron (not among the sources) ends
the method with a fatal failure when its condition does not hold. -/
def WorkGraphRenderModule.InitTextures (services : TextureServices)
    (self : WorkGraphRenderModule) : Except Failure WorkGraphRenderModule :=
  match services.GetColorTargetForCallback WorkGraphRenderModule.GetName with
  | none =>
    CauldronCritical "Couldn't find or create the render target of WorkGraphRenderModule." []
  | some shadingOutput =>
    let self := { self with m_pShadingOutput := shadingOutput }
    let self := { self with
      m_pGBufferColorOutput := services.GetRenderTexture "GBufferColorTarget"
      m_pGBufferNormalOutput := services.GetRenderTexture "GBufferNormalTarget"
      m_pGBufferMotionOutput := services.GetRenderTexture "GBufferMotionVectorTarget"
      m_pGBufferDepthOutput := services.GetRenderTexture "GBufferDepthTarget" }
    let self := { self with
      m_pGBufferRasterViews :=
        { v0 := services.RequestRasterView self.m_pGBufferColorOutput .Texture2D
          v1 := services.RequestRasterView self.m_pGBufferNormalOutput .Texture2D
          v2 := services.RequestRasterView self.m_pGBufferMotionOutput .Texture2D } }
    .ok { self with
      m_pGBufferDepthRasterView :=
        services.RequestRasterView self.m_pGBufferDepthOutput .Texture2D }

/-- The render targets bound by the `BeginRaster` calls among recorded
commands: the count, the color views in slot order and the depth view. -/
def beginRasters : List Command → List (Nat × List RasterView × RasterView)
  | [] => []
  | Command.BeginRaster count views depth :: cs => (count, views, depth) :: beginRasters cs
  | _ :: cs => beginRasters cs

/-- Texture services for examples: the shading output is texture 5, the
G-buffer textures are 1 to 4, and the raster view of texture `t` is `10 + t`. -/
def sampleTextureServices : TextureServices :=
  { GetColorTargetForCallback := fun _ => some 5
    GetRenderTexture := fun name =>
      if name = "GBufferColorTarget" then 1
      else if name = "GBufferNormalTarget" then 2
      else if name = "GBufferMotionVectorTarget" then 3
      else 4
    RequestRasterView := fun texture _ => 10 + texture }

/-! ## The camera component

`meshNodeSample/samplecameracomponent.cpp`. The speed `m_Speed` is a finite
`float` with the rounded single-precision product of the wheel block: the
constructor and the wheel block, the only statements of the file that write it,
leave a finite value. The other `float` members and inputs are rational numbers
and their arithmetic is exact. The methods of the base class
`cauldron::CameraComponent` and the vector library are inputs of the model. -/

namespace Vectormath

/-- A vector of two floats. -/
structure Vec2 where
  x : ℚ := 0
  y : ℚ := 0
deriving DecidableEq, Repr

/-- A vector of four floats. -/
structure Vec4 where
  x : ℚ := 0
  y : ℚ := 0
  z : ℚ := 0
  w : ℚ := 0
deriving DecidableEq, Repr

/-- The sum of two vectors. -/
def Vec4.add (a b : Vec4) : Vec4 := ⟨a.x + b.x, a.y + b.y, a.z + b.z, a.w + b.w⟩

/-- The difference of two vectors. -/
def Vec4.sub (a b : Vec4) : Vec4 := ⟨a.x - b.x, a.y - b.y, a.z - b.z, a.w - b.w⟩

/-- A vector times a scalar. -/
def Vec4.scale (a : Vec4) (s : ℚ) : Vec4 := ⟨a.x * s, a.y * s, a.z * s, a.w * s⟩

/-- The dot product of the first three components, `dot(a.getXYZ(), b.getXYZ())`. -/
def Vec4.dotXYZ (a b : Vec4) : ℚ := a.x * b.x + a.y * b.y + a.z * b.z

/-- A matrix of four columns. -/
structure Mat4 where
  col0 : Vec4 := {}
  col1 : Vec4 := {}
  col2 : Vec4 := {}
  col3 : Vec4 := {}
deriving DecidableEq, Repr

/-- The method `getCol3`. -/
def Mat4.getCol3 (m : Mat4) : Vec4 := m.col3

/-- The expression `Vec4(m.getTranslation(), 0.f)`: the first three components
of the last column. -/
def Mat4.getTranslation0 (m : Mat4) : Vec4 := ⟨m.col3.x, m.col3.y, m.col3.z, 0⟩

/-- The product of a matrix and a vector. -/
def Mat4.mulVec (m : Mat4) (v : Vec4) : Vec4 :=
  ((m.col0.scale v.x).add (m.col1.scale v.y)).add ((m.col2.scale v.z).add (m.col3.scale v.w))

end Vectormath

/-- The values of `cauldron::InputState` that `Update` reads. -/
structure InputState where
  Mouse_Wheel : ℚ := 0
  Mouse_XAxis : ℚ := 0
  Mouse_YAxis : ℚ := 0
  Mouse_LButton : Bool := false
  Pad_RightThumbX : ℚ := 0
  Pad_RightThumbY : ℚ := 0
  Pad_LeftThumbX : ℚ := 0
  Pad_LeftThumbY : ℚ := 0
  Pad_LTrigger : ℚ := 0
  Pad_RTrigger : ℚ := 0
  Pad_Back : Bool := false
  Key_R : Bool := false
  Key_A : Bool := false
  Key_D : Bool := false
  Key_Q : Bool := false
  Key_E : Bool := false
  Key_W : Bool := false
  Key_S : Bool := false
deriving DecidableEq, Repr

/-- The members of `MeshNodeSampleCameraComponent` (inherited from
`cauldron::CameraComponent`) that `Update` and the constructor name. -/
structure MeshNodeSampleCameraComponent where
  m_Speed : F32 := ⟨false, 0, 0⟩
  m_ArcBallMode : Bool := false
  m_Yaw : ℚ := 0
  m_Pitch : ℚ := 0
  m_ViewMatrix : Vectormath.Mat4 := {}
  m_ViewProjectionMatrix : Vectormath.Mat4 := {}
  m_ProjJittered : Vectormath.Mat4 := {}
  m_InvViewMatrix : Vectormath.Mat4 := {}
  m_PrevViewMatrix : Vectormath.Mat4 := {}
  m_PrevViewProjectionMatrix : Vectormath.Mat4 := {}
  m_PrevProjJittered : Vectormath.Mat4 := {}
  m_jitterValues : Vectormath.Vec2 := {}
  m_Dirty : Bool := false
deriving DecidableEq, Repr

/-- What one call of `Update` takes from the scene, the input manager and the
base class. -/
structure CameraServices where
  /-- Whether `GetScene()->GetCurrentCamera() == this`. -/
  isCurrentCamera : Bool
  /-- The value of `GetInputManager()->GetInputState()`. -/
  inputState : InputState
  /-- The method `CameraComponent::ResetCamera`. -/
  ResetCamera : MeshNodeSampleCameraComponent → MeshNodeSampleCameraComponent
  /-- The method `CameraComponent::UpdateMatrices`. -/
  UpdateMatrices : MeshNodeSampleCameraComponent → MeshNodeSampleCameraComponent
  /-- The method `CameraComponent::LookAt(eyePos, lookAt)`. -/
  LookAt : Vectormath.Vec4 → Vectormath.Vec4 →
    MeshNodeSampleCameraComponent → MeshNodeSampleCameraComponent
  /-- The function `PolarToVector(yaw, pitch)`. -/
  PolarToVector : ℚ → ℚ → Vectormath.Vec4
  /-- The callback `CameraComponent::s_pSetJitterCallback`, when set: the
  jitter values it leaves in its argument. -/
  s_pSetJitterCallback : Option (Vectormath.Vec2 → Vectormath.Vec2)

namespace MeshNodeSampleCameraComponent

/-- The constructor, on the component the base class constructor has built. -/
def new (base : MeshNodeSampleCameraComponent) : MeshNodeSampleCameraComponent :=
  { base with m_Speed := F32.fifty, m_ArcBallMode := false }

/-- The first three statements of `Update`: "Always update temporal
information". -/
def updateTemporalInformation (self : MeshNodeSampleCameraComponent) :
    MeshNodeSampleCameraComponent :=
  { self with
    m_PrevViewMatrix := self.m_ViewMatrix
    m_PrevViewProjectionMatrix := self.m_ViewProjectionMatrix
    m_PrevProjJittered := self.m_ProjJittered }

/-- The block "Scale speed with mouse wheel rotation". The product is a float
product. When it overflows, the speed is an infinity with the sign of the old
speed for the two clamp statements: `std::max` with `1.f` turns the negative
one into `1.f` and `std::min` with `200.f` the positive one into `200.f`. -/
def scaleSpeed (inputState : InputState) (self : MeshNodeSampleCameraComponent) :
    MeshNodeSampleCameraComponent :=
  if inputState.Mouse_Wheel ≠ 0 then
    match F32.mul self.m_Speed
        (if inputState.Mouse_Wheel > 0 then F32.oneAndHalf else F32.oneOverOneAndHalf) with
    | some product =>
      let self := { self with m_Speed := product }
      -- clamp speed
      let self := { self with m_Speed := F32.max self.m_Speed F32.one }
      { self with m_Speed := F32.min self.m_Speed F32.twoHundred }
    | none => { self with m_Speed := if self.m_Speed.sign then F32.one else F32.twoHundred }
  else self

/-- The block that pitches and yaws the camera from the right game pad stick
or, with the left mouse button down, from the mouse; the flag `hasRotation`. -/
def rotate (inputState : InputState) (self : MeshNodeSampleCameraComponent) :
    MeshNodeSampleCameraComponent × Bool :=
  if inputState.Pad_RightThumbX ≠ 0 ∨ inputState.Pad_RightThumbY ≠ 0 then
    -- All rotations (per frame) are of 0.005 radians
    ({ self with
        m_Yaw := self.m_Yaw - inputState.Pad_RightThumbX / 200
        m_Pitch := self.m_Pitch + inputState.Pad_RightThumbY / 200 }, true)
  else if inputState.Mouse_LButton then
    -- All rotations (per frame) are of 0.002 radians
    ({ self with
        m_Yaw := self.m_Yaw - inputState.Mouse_XAxis / 500
        m_Pitch := self.m_Pitch + inputState.Mouse_YAxis / 500 }, true)
  else (self, false)

/-- The vector `movement` built from the keys WASDQE and the game pad. -/
def movement (inputState : InputState) : Vectormath.Vec4 :=
  let x : ℚ := 0
  let y : ℚ := 0
  let z : ℚ := 0
  let x := x - (if inputState.Key_A then 1 else 0)
  let x := x + (if inputState.Key_D then 1 else 0)
  let y := y - (if inputState.Key_Q then 1 else 0)
  let y := y + (if inputState.Key_E then 1 else 0)
  let z := z - (if inputState.Key_W then 1 else 0)
  let z := z + (if inputState.Key_S then 1 else 0)
  -- Controller input can also translate
  let x := x + inputState.Pad_LeftThumbX
  let z := z - inputState.Pad_LeftThumbY
  let y := y - inputState.Pad_LTrigger
  let y := y + inputState.Pad_RTrigger
  ⟨x, y, z, 0⟩

/-- The block "Update camera jitter if we need it". -/
def updateJitter (services : CameraServices) (self : MeshNodeSampleCameraComponent) :
    MeshNodeSampleCameraComponent :=
  match services.s_pSetJitterCallback with
  | some callback => { self with m_jitterValues := callback self.m_jitterValues, m_Dirty := true }
  | none =>
    -- Reset jitter if disabled
    if self.m_jitterValues.x ≠ 0 ∨ self.m_jitterValues.y ≠ 0 then
      { self with m_jitterValues := ⟨0, 0⟩, m_Dirty := true }
    else self

/-- The method `MeshNodeSampleCameraComponent::Update(deltaTime)`. -/
def Update (services : CameraServices) (deltaTime : ℚ) (self : MeshNodeSampleCameraComponent) :
    MeshNodeSampleCameraComponent :=
  -- Always update temporal information
  let self := updateTemporalInformation self
  -- If this camera is the currently active camera for the scene, check for input
  if services.isCurrentCamera then
    let inputState := services.inputState
    let self := scaleSpeed inputState self
    let rotated := rotate inputState self
    let self := rotated.1
    let hasRotation := rotated.2
    -- If hitting the 'r' key or back button on game pad, reset camera to original transform
    if inputState.Key_R ∨ inputState.Pad_Back then
      services.UpdateMatrices (services.ResetCamera self)
    else
      let eyePos := self.m_InvViewMatrix.getTranslation0
      let polarVector := services.PolarToVector self.m_Yaw self.m_Pitch
      let movement := movement inputState
      -- Update from inputs
      let eyePos :=
        if hasRotation ∨ movement.dotXYZ movement ≠ 0 then
          self.m_InvViewMatrix.getCol3.add
            (((self.m_InvViewMatrix.mulVec movement).scale self.m_Speed.toRat).scale deltaTime)
        else eyePos
      -- Limit maximum camera height
      let eyePos := { eyePos with y := min eyePos.y 400 }
      let self := updateJitter services self
      services.UpdateMatrices
        (services.LookAt eyePos (eyePos.sub (polarVector.scale 10)) self)
  else self

end MeshNodeSampleCameraComponent

/-- A method of the base class that leaves the speed of the camera as it is. -/
def KeepsSpeed (method : MeshNodeSampleCameraComponent → MeshNodeSampleCameraComponent) : Prop :=
  ∀ camera, (method camera).m_Speed = camera.m_Speed

/-- A method of the base class that leaves the three matrices of the previous
frame as they are. -/
def KeepsPrevious (method : MeshNodeSampleCameraComponent → MeshNodeSampleCameraComponent) :
    Prop :=
  ∀ camera, (method camera).m_PrevViewMatrix = camera.m_PrevViewMatrix
    ∧ (method camera).m_PrevViewProjectionMatrix = camera.m_PrevViewProjectionMatrix
    ∧ (method camera).m_PrevProjJittered = camera.m_PrevProjJittered

/-- Camera services for examples: the camera is the current one, the wheel
was turned forward, and the base class methods recompute the view matrices
from yaw and pitch only. -/
def sampleCameraServices : CameraServices :=
  { isCurrentCamera := true
    inputState := { Mouse_Wheel := 1 }
    ResetCamera := fun camera => { camera with m_Yaw := 0, m_Pitch := 0 }
    UpdateMatrices := fun camera =>
      { camera with m_ViewMatrix := { col3 := ⟨camera.m_Yaw, camera.m_Pitch, 0, 1⟩ } }
    LookAt := fun eyePos _ camera => { camera with m_InvViewMatrix := { col3 := eyePos } }
    PolarToVector := fun yaw pitch => ⟨yaw, pitch, 0, 0⟩
    s_pSetJitterCallback := none }

/-- A camera for examples, as constructed, with a view matrix. -/
def sampleCameraComponent : MeshNodeSampleCameraComponent :=
  MeshNodeSampleCameraComponent.new { m_ViewMatrix := { col3 := ⟨1, 2, 3, 1⟩ } }

/-- The double nearest to 0.011, a frame of 11 ms; it lies below 11/1000. -/
def elevenMilliseconds : F64 := ⟨false, 6341068275337658, -59⟩

/-- A delta of `10^17` seconds (`mant * 2^exp` with an exact value), whose
product with `1000.0` is beyond `2^63`. -/
def tenToSeventeenSeconds : F64 := ⟨false, 762939453125, 17⟩

open WorkGraphRenderModule ShaderCompiler

/-! ## Lemmas on the number model -/

theorem F64.toRat_of_nonneg_exp (x : F64) (hs : x.sign = false) (he : 0 ≤ x.exp) :
    x.toRat = ((x.mant * 2 ^ x.exp.toNat : Nat) : ℚ) := by
  unfold F64.toRat
  rw [hs]
  obtain ⟨n, hn⟩ := Int.eq_ofNat_of_zero_le he
  rw [hn]
  simp

theorem F64.toRat_of_neg_exp (x : F64) (hs : x.sign = false) (he : x.exp < 0) :
    x.toRat = (x.mant : ℚ) / ((2 ^ (-x.exp).toNat : Nat) : ℚ) := by
  unfold F64.toRat
  rw [hs]
  obtain ⟨n, hn⟩ := Int.eq_ofNat_of_zero_le (show 0 ≤ -x.exp by omega)
  have hx : x.exp = -(n : Int) := by omega
  rw [hx]
  simp [zpow_neg, div_eq_mul_inv]

/-- For a double without sign bit, truncation is the floor of its value. -/
theorem F64.floor_toRat_of_sign_false (x : F64) (hs : x.sign = false) :
    ⌊x.toRat⌋ = (x.truncMag : Int) := by
  unfold F64.truncMag
  split
  · next he =>
    rw [F64.toRat_of_nonneg_exp x hs he]
    exact Int.floor_natCast _
  · next he =>
    rw [F64.toRat_of_neg_exp x hs (by omega)]
    exact Rat.floor_natCast_div_natCast _ _

theorem F64.toRat_of_mant_zero (x : F64) (hm : x.mant = 0) : x.toRat = 0 := by
  simp [F64.toRat, hm]

theorem F64.truncMag_of_mant_zero (x : F64) (hm : x.mant = 0) : x.truncMag = 0 := by
  simp [F64.truncMag, hm]

/-- A double with the sign bit set and a value that is not negative is a zero. -/
theorem F64.mant_zero_of_sign_of_nonneg (x : F64) (hs : x.sign = true) (h : 0 ≤ x.toRat) :
    x.mant = 0 := by
  unfold F64.toRat at h
  rw [hs] at h
  simp only [if_true] at h
  have h2 : (0 : ℚ) < (2 : ℚ) ^ x.exp := zpow_pos (by norm_num) _
  by_contra hne
  have h3 : (0 : ℚ) < (x.mant : ℚ) := by exact_mod_cast Nat.pos_of_ne_zero hne
  have : (0 : ℚ) < (x.mant : ℚ) * (2 : ℚ) ^ x.exp := mul_pos h3 h2
  linarith

/-- Truncation of a double that is not negative is the floor of its value. -/
theorem F64.floor_toRat (x : F64) (h : 0 ≤ x.toRat) : ⌊x.toRat⌋ = x.trunc := by
  cases hs : x.sign
  · rw [F64.floor_toRat_of_sign_false x hs]; simp [F64.trunc, hs]
  · have hm := F64.mant_zero_of_sign_of_nonneg x hs h
    simp [F64.trunc, hs, F64.toRat_of_mant_zero x hm, F64.truncMag_of_mant_zero x hm]

theorem F64.roundNearestEven_zero (s : Nat) : F64.roundNearestEven 0 s = 0 := by
  unfold F64.roundNearestEven
  simp

theorem F64.mul_sign (x y p : F64) (h : F64.mul x y = some p) : p.sign = xor x.sign y.sign := by
  unfold F64.mul at h
  simp only at h
  split_ifs at h <;> simp at h <;> subst h <;> rfl

theorem F64.mul_mant_zero (x y p : F64) (hx : x.mant = 0) (h : F64.mul x y = some p) :
    p.mant = 0 := by
  unfold F64.mul at h
  simp only [hx, Nat.zero_mul, F64.roundNearestEven_zero] at h
  have h53 : (0 : Nat) ≠ 2 ^ 53 := by norm_num
  simp only [if_neg h53] at h
  split_ifs at h <;> simp at h <;> subst h <;> simp

/-- The product of a double that is not negative with `1000.0` is not negative. -/
theorem F64.mul_thousand_nonneg (x p : F64) (hx : 0 ≤ x.toRat)
    (h : F64.mul x F64.thousand = some p) : 0 ≤ p.toRat := by
  cases hs : x.sign
  · have hp : p.sign = false := by rw [F64.mul_sign x _ p h, hs]; rfl
    unfold F64.toRat
    rw [hp]
    have h2 : (0 : ℚ) < (2 : ℚ) ^ p.exp := zpow_pos (by norm_num) _
    have h3 : (0 : ℚ) ≤ (p.mant : ℚ) := Nat.cast_nonneg _
    simp only [Bool.false_eq_true, if_false, one_mul]
    exact mul_nonneg h3 h2.le
  · have hm := F64.mant_zero_of_sign_of_nonneg x hs hx
    rw [F64.toRat_of_mant_zero p (F64.mul_mant_zero x _ p hm h)]

/-- The conversion to `uint32_t` of a product that is not negative and below
`2^63`: the floor of its value modulo `2^32`. -/
theorem F64.toUInt32_some (p : F64) (h : 0 ≤ p.toRat) (hlt : p.toRat < 2 ^ 63) :
    F64.toUInt32 (some p) = ⌊p.toRat⌋.toNat % 2 ^ 32 := by
  have hf := F64.floor_toRat p h
  have hnn : 0 ≤ p.trunc := by rw [← hf]; exact Int.floor_nonneg.mpr h
  have hfl : ⌊p.toRat⌋ < 2 ^ 63 := by
    apply Int.floor_lt.mpr
    exact_mod_cast hlt
  have hmag : p.truncMag < 2 ^ 63 := by
    rw [hf] at hfl
    unfold F64.trunc at hfl hnn
    split_ifs at hfl hnn <;> omega
  rw [hf]
  obtain ⟨n, hn⟩ := Int.eq_ofNat_of_zero_le hnn
  simp only [F64.toUInt32, if_pos hmag]
  rw [hn]
  norm_cast


theorem F64.bitLength_le (m : Nat) (h : m < 2 ^ 53) : F64.bitLength m ≤ 53 := by
  unfold F64.bitLength
  calc List.countP (fun n => decide (2 ^ n ≤ m)) (List.range 107)
      ≤ List.countP (fun n => decide (n < 53)) (List.range 107) := by
        apply List.countP_mono_left
        intro n _ hn
        simp only [decide_eq_true_eq] at hn ⊢
        exact (Nat.pow_lt_pow_iff_right (by norm_num : 1 < 2)).mp (lt_of_le_of_lt hn h)
    _ = 53 := by decide

theorem F64.roundNearestEven_shift_zero (m : Nat) : F64.roundNearestEven m 0 = m := by
  simp [F64.roundNearestEven, Nat.mod_one]

/-- When `125 * mant` still fits the significand, `x * 1000.0` is exact. -/
theorem F64.mul_thousand_exact (x p : F64) (hwf : x.wf) (hm : 125 * x.mant < 2 ^ 53)
    (h : F64.mul x F64.thousand = some p) : p.toRat = x.toRat * 1000 := by
  obtain ⟨_, hlo, _⟩ := hwf
  have hm2 : x.mant * 125 < 2 ^ 53 := by omega
  have hb : F64.bitLength (x.mant * 125) - 53 = 0 := by
    have := F64.bitLength_le _ hm2
    omega
  have he : (-1074 - (x.exp + 3)).toNat = 0 := by omega
  have hval : ((if xor x.sign false then -1 else 1 : ℚ)) * ((x.mant * 125 : Nat) : ℚ) * (2 : ℚ) ^ (x.exp + 3)
      = x.toRat * 1000 := by
    unfold F64.toRat
    rw [zpow_add₀ (by norm_num : (2 : ℚ) ≠ 0)]
    simp only [Bool.xor_false]
    push_cast
    norm_num
    ring_nf
  unfold F64.mul at h
  simp only [F64.thousand, hb, he, Nat.max_self, F64.roundNearestEven_shift_zero,
    if_neg (Nat.ne_of_lt hm2), Nat.cast_zero, add_zero] at h
  split_ifs at h with h1 h2
  · simp only [Option.some.injEq] at h
    subst h
    exact hval
  · simp only [Option.some.injEq] at h
    subst h
    rw [← hval]
    simp only [F64.toRat]
    have hk : x.exp + 3 = ((x.exp + 3 - 971).toNat : Int) + 971 := by omega
    conv_rhs => rw [hk, zpow_add₀ (by norm_num : (2 : ℚ) ≠ 0)]
    push_cast
    simp only [zpow_natCast]
    ring

theorem WorkGraphRenderModule.Execute_shaderTime (fw : Framework) (self : WorkGraphRenderModule)
    (frame : FrameInput) :
    (Execute fw self frame).module.m_shaderTime
      = wrap32 (self.m_shaderTime + F64.toUInt32 (F64.mul frame.deltaTime F64.thousand)) := by
  unfold Execute
  simp only
  split <;> rfl


/-! ## Rounding of the product with `1000.0` -/

theorem countP_lt_range (L N : Nat) :
    (List.range N).countP (fun n => decide (n < L)) = min L N := by
  induction N with
  | zero => simp
  | succ N ih =>
    rw [List.range_succ, List.countP_append, ih]
    by_cases h : N < L
    · simp [List.countP_cons, h]; omega
    · simp [List.countP_cons, h]; omega

/-- Below `2^107` the bit length is the binary size. -/
theorem F64.bitLength_eq_size (m : Nat) (h : m < 2 ^ 107) : F64.bitLength m = Nat.size m := by
  unfold F64.bitLength
  have hp : (fun n => decide (2 ^ n ≤ m)) = (fun n => decide (n < Nat.size m)) := by
    funext n
    simp only [Nat.lt_size]
  rw [hp, countP_lt_range]
  exact Nat.min_eq_left (Nat.size_le.mpr h)

theorem F64.roundNearestEven_bounds (m s : Nat) :
    m / 2 ^ s ≤ F64.roundNearestEven m s ∧ F64.roundNearestEven m s ≤ m / 2 ^ s + 1 := by
  unfold F64.roundNearestEven
  simp only
  split_ifs <;> omega

/-- The value of a finite product: the rounded significand at the shifted
exponent. -/
theorem F64.mul_toRat (x y p : F64) (h : F64.mul x y = some p) :
    p.toRat
      = (if xor x.sign y.sign then -1 else 1)
        * (F64.roundNearestEven (x.mant * y.mant)
            (max (F64.bitLength (x.mant * y.mant) - 53) (-1074 - (x.exp + y.exp)).toNat) : ℚ)
        * (2 : ℚ) ^ (x.exp + y.exp
            + (max (F64.bitLength (x.mant * y.mant) - 53) (-1074 - (x.exp + y.exp)).toNat : Nat)) := by
  unfold F64.mul at h
  simp only at h
  generalize F64.roundNearestEven (x.mant * y.mant)
    (max (F64.bitLength (x.mant * y.mant) - 53) (-1074 - (x.exp + y.exp)).toNat) = m1 at h ⊢
  generalize (x.exp + y.exp
    + (max (F64.bitLength (x.mant * y.mant) - 53) (-1074 - (x.exp + y.exp)).toNat : Nat)) = e1 at h ⊢
  have two : (2 : ℚ) ≠ 0 := by norm_num
  by_cases hm : m1 = 2 ^ 53
  · simp only [hm, if_true] at h ⊢
    split_ifs at h with h1 h2
    · simp only [Option.some.injEq] at h
      subst h
      simp only [F64.toRat]
      rw [zpow_add₀ two]
      push_cast
      ring
    · simp only [Option.some.injEq] at h
      subst h
      simp only [F64.toRat]
      have hk : e1 + 1 = ((e1 + 1 - 971).toNat : Int) + 971 := by omega
      have he : e1 = ((e1 + 1 - 971).toNat : Int) + 971 - 1 := by omega
      conv_rhs => rw [he]
      rw [zpow_sub₀ two, zpow_add₀ two]
      push_cast
      simp only [zpow_natCast]
      ring
  · simp only [hm, if_false] at h
    split_ifs at h with h1 h2
    · simp only [Option.some.injEq] at h
      subst h
      rfl
    · simp only [Option.some.injEq] at h
      subst h
      simp only [F64.toRat]
      have he : e1 = ((e1 - 971).toNat : Int) + 971 := by omega
      conv_rhs => rw [he]
      rw [zpow_add₀ two]
      push_cast
      simp only [zpow_natCast]
      ring


theorem floor_natCast_mul_zpow_neg (m k : Nat) :
    ⌊(m : ℚ) * (2 : ℚ) ^ (-(k : Int))⌋ = ((m / 2 ^ k : Nat) : Int) := by
  have h : (m : ℚ) * (2 : ℚ) ^ (-(k : Int)) = (m : ℚ) / ((2 ^ k : Nat) : ℚ) := by
    rw [zpow_neg, zpow_natCast, div_eq_mul_inv]
    push_cast
    rfl
  rw [h]
  exact Rat.floor_natCast_div_natCast _ _

/-- The product `x * 1000.0` of a double without sign bit, when it stays below
`2^53`: its floor is the floor of the exact product, or one more (when the
product is rounded up to the next integer). -/
theorem F64.floor_mul_thousand (x p : F64) (hwf : x.wf) (hs : x.sign = false)
    (h : F64.mul x F64.thousand = some p) (hsmall : p.toRat < 2 ^ 53) :
    ⌊x.toRat * 1000⌋ ≤ ⌊p.toRat⌋ ∧ ⌊p.toRat⌋ ≤ ⌊x.toRat * 1000⌋ + 1 := by
  obtain ⟨hmant, hlo, hhi⟩ := hwf
  have hp := F64.mul_toRat x F64.thousand p h
  have he : (-1074 - (x.exp + F64.thousand.exp)).toNat = 0 := by
    simp only [F64.thousand]; omega
  have hM : x.mant * F64.thousand.mant < 2 ^ 107 := by
    simp only [F64.thousand]
    have : (2 : Nat) ^ 53 * 125 < 2 ^ 107 := by norm_num
    omega
  rw [he, Nat.max_zero, F64.bitLength_eq_size _ hM, hs] at hp
  simp only [F64.thousand, Bool.xor_false, Bool.false_eq_true, if_false, one_mul] at hp hM
  have hx : x.toRat * 1000 = ((x.mant * 125 : Nat) : ℚ) * (2 : ℚ) ^ (x.exp + 3) := by
    unfold F64.toRat
    rw [hs, zpow_add₀ (by norm_num : (2 : ℚ) ≠ 0)]
    push_cast
    norm_num
    ring
  generalize hMdef : x.mant * 125 = M at hp hx hM
  generalize hedef : x.exp + 3 = e at hp hx
  by_cases hsz : Nat.size M - 53 = 0
  · rw [hsz, F64.roundNearestEven_shift_zero] at hp
    simp only [Nat.cast_zero, add_zero] at hp
    rw [hx, hp]
    omega
  · set s := Nat.size M - 53 with hsdef
    have hspos : 1 ≤ s := Nat.one_le_iff_ne_zero.mpr hsz
    obtain ⟨hq1, hq2⟩ := F64.roundNearestEven_bounds M s
    set m1 := F64.roundNearestEven M s with hm1
    -- the significand has at least 53 bits after the shift
    have hMge : 2 ^ (52 + s) ≤ M := by
      apply Nat.lt_size.mp
      omega
    have hqge : 2 ^ 52 ≤ M / 2 ^ s := by
      rw [Nat.le_div_iff_mul_le (Nat.two_pow_pos s), ← Nat.pow_add]
      exact hMge
    have hm1ge : (2 : ℚ) ^ 52 ≤ (m1 : ℚ) := by
      have : 2 ^ 52 ≤ m1 := le_trans hqge hq1
      exact_mod_cast this
    -- so the shifted exponent is not positive
    have hexp : e + (s : Int) ≤ 0 := by
      by_contra hcon
      have h1 : (1 : Int) ≤ e + s := by omega
      have h2 : (2 : ℚ) ^ (1 : Int) ≤ (2 : ℚ) ^ (e + (s : Int)) :=
        zpow_le_zpow_right₀ (by norm_num) h1
      have h3 : (2 : ℚ) ^ 52 * (2 : ℚ) ^ (1 : Int) ≤ (m1 : ℚ) * (2 : ℚ) ^ (e + (s : Int)) :=
        mul_le_mul hm1ge h2 (by positivity) (by positivity)
      rw [← hp] at h3
      norm_num at h3
      linarith
    obtain ⟨k, hk⟩ := Int.eq_ofNat_of_zero_le (show 0 ≤ -(e + (s : Int)) by omega)
    have hes : e + (s : Int) = -(k : Int) := by omega
    have hee : e = -((k + s : Nat) : Int) := by push_cast; omega
    have hfp : ⌊p.toRat⌋ = ((m1 / 2 ^ k : Nat) : Int) := by
      rw [hp, hes]
      exact floor_natCast_mul_zpow_neg _ _
    have hfx : ⌊x.toRat * 1000⌋ = ((M / 2 ^ s / 2 ^ k : Nat) : Int) := by
      rw [hx, hee, floor_natCast_mul_zpow_neg, Nat.div_div_eq_div_mul, ← Nat.pow_add, Nat.add_comm]
    rw [hfp, hfx]
    have hkpos : 0 < 2 ^ k := Nat.two_pow_pos k
    have d1 : M / 2 ^ s / 2 ^ k ≤ m1 / 2 ^ k := Nat.div_le_div_right hq1
    have d2 : m1 / 2 ^ k ≤ (M / 2 ^ s + 1) / 2 ^ k := Nat.div_le_div_right hq2
    have d3 : (M / 2 ^ s + 1) / 2 ^ k ≤ (M / 2 ^ s + 2 ^ k) / 2 ^ k :=
      Nat.div_le_div_right (by omega)
    have d4 : (M / 2 ^ s + 2 ^ k) / 2 ^ k = M / 2 ^ s / 2 ^ k + 1 := Nat.add_div_right _ hkpos
    constructor
    · exact_mod_cast d1
    · have : m1 / 2 ^ k ≤ M / 2 ^ s / 2 ^ k + 1 := by omega
      exact_mod_cast this


/-! ## The two ways `Execute` ends -/

/-- The module after the increment of the shader time. -/
theorem WorkGraphRenderModule.Execute_of_succeeded (fw : Framework)
    (self : WorkGraphRenderModule) (frame : FrameInput)
    (h : FAILED frame.queryCommandList10 = false) :
    ∃ t : WorkGraphRenderModule,
      t = { self with
            m_shaderTime :=
              wrap32 (self.m_shaderTime + F64.toUInt32 (F64.mul frame.deltaTime F64.thousand)) }
      ∧ Execute fw self frame =
        { module := clearInitializeFlag t
          commands :=
            Command.ResourceBarrier 4 (forwardBarriers fw self)
              :: (rasterSetupCommands fw t self.m_shaderTime frame
                    (selectResolution frame.upscaleState frame.resInfo).1
                    (selectResolution frame.upscaleState frame.resInfo).2
                  ++ [Command.SetProgram self.m_WorkGraphProgramDesc,
                      Command.DispatchGraph (dispatchDesc self)])
              ++ Command.EndRaster
                :: Command.ResourceBarrier 4 ((forwardBarriers fw self).map Barrier.swapStates)
                :: shadingCommands fw self frame
                    (selectResolution frame.upscaleState frame.resInfo).1
                    (selectResolution frame.upscaleState frame.resInfo).2
          failure := none } := by
  refine ⟨_, rfl, ?_⟩
  unfold Execute CauldronThrowOnFail
  rw [h]
  simp only [Bool.false_eq_true, if_false, List.cons_append, List.append_assoc]
  rfl

theorem WorkGraphRenderModule.Execute_of_failed (fw : Framework)
    (self : WorkGraphRenderModule) (frame : FrameInput)
    (h : FAILED frame.queryCommandList10 = true) :
    ∃ t : WorkGraphRenderModule,
      t = { self with
            m_shaderTime :=
              wrap32 (self.m_shaderTime + F64.toUInt32 (F64.mul frame.deltaTime F64.thousand)) }
      ∧ Execute fw self frame =
        { module := t
          commands :=
            Command.ResourceBarrier 4 (forwardBarriers fw self)
              :: rasterSetupCommands fw t self.m_shaderTime frame
                    (selectResolution frame.upscaleState frame.resInfo).1
                    (selectResolution frame.upscaleState frame.resInfo).2
          failure := some (.throwOnFail frame.queryCommandList10) } := by
  refine ⟨_, rfl, ?_⟩
  unfold Execute CauldronThrowOnFail
  rw [h]
  rfl

theorem WorkGraphRenderModule.Execute_failure_eq_none_iff (fw : Framework)
    (self : WorkGraphRenderModule) (frame : FrameInput) :
    (Execute fw self frame).failure = none ↔ FAILED frame.queryCommandList10 = false := by
  cases h : FAILED frame.queryCommandList10
  · obtain ⟨t, _, ht⟩ := Execute_of_succeeded fw self frame h
    simp [ht]
  · obtain ⟨t, _, ht⟩ := Execute_of_failed fw self frame h
    simp [ht]


/-! ## The end of the program construction -/

/-- The backing memory size the compiled work graph of a state object reports. -/
theorem WorkGraphRenderModule.finishProgram_ok (dev : Device) (self m : WorkGraphRenderModule)
    (trace : List InitEvent) (h : (finishProgram dev self trace).result = .ok m) :
    m.m_pWorkGraphStateObject = self.m_pWorkGraphStateObject
      ∧ m.m_pWorkGraphBackingMemoryBuffer
          = (if dev.MaxSizeInBytes self.m_pWorkGraphStateObject
                (dev.GetWorkGraphIndex self.m_pWorkGraphStateObject WorkGraphProgramName) > 0 then
              some
                { desc :=
                    { Name := "MeshNodeSample_WorkGraphBackingMemory"
                      Size := wrap32 (dev.MaxSizeInBytes self.m_pWorkGraphStateObject
                        (dev.GetWorkGraphIndex self.m_pWorkGraphStateObject WorkGraphProgramName))
                      Stride := 1
                      Alignment := D3D12_WORK_GRAPHS_BACKING_MEMORY_ALIGNMENT_IN_BYTES
                      Flags := .AllowUnorderedAccess }
                  initialState := .UnorderedAccess
                  addressInfo := dev.GetAddressInfo
                    { Name := "MeshNodeSample_WorkGraphBackingMemory"
                      Size := wrap32 (dev.MaxSizeInBytes self.m_pWorkGraphStateObject
                        (dev.GetWorkGraphIndex self.m_pWorkGraphStateObject WorkGraphProgramName))
                      Stride := 1
                      Alignment := D3D12_WORK_GRAPHS_BACKING_MEMORY_ALIGNMENT_IN_BYTES
                      Flags := .AllowUnorderedAccess } }
            else self.m_pWorkGraphBackingMemoryBuffer)
      ∧ m.m_WorkGraphProgramDesc.Type_ = .WORK_GRAPH
      ∧ m.m_WorkGraphProgramDesc.WorkGraph.ProgramIdentifier
          = dev.GetProgramIdentifier self.m_pWorkGraphStateObject WorkGraphProgramName
      ∧ m.m_WorkGraphProgramDesc.WorkGraph.Flags = D3D12_SET_WORK_GRAPH_FLAG_INITIALIZE
      ∧ m.m_WorkGraphProgramDesc.WorkGraph.BackingMemory
          = (match m.m_pWorkGraphBackingMemoryBuffer with
              | some buffer => ⟨buffer.addressInfo.GPUBufferView, buffer.addressInfo.SizeInBytes⟩
              | none => self.m_WorkGraphProgramDesc.WorkGraph.BackingMemory)
      ∧ m.m_WorkGraphEntryPointIndex
          = dev.GetEntrypointIndex self.m_pWorkGraphStateObject
              (dev.GetWorkGraphIndex self.m_pWorkGraphStateObject WorkGraphProgramName) ("World", 0) := by
  unfold finishProgram at h
  simp only at h
  split at h
  · simp at h
  · split at h
    · simp at h
    · simp only [Except.ok.injEq] at h
      subst h
      by_cases hN : dev.MaxSizeInBytes self.m_pWorkGraphStateObject
          (dev.GetWorkGraphIndex self.m_pWorkGraphStateObject WorkGraphProgramName) > 0
      · simp [hN]
      · simp only [hN, if_false]
        cases self.m_pWorkGraphBackingMemoryBuffer <;> simp

/-- A completed `InitWorkGraphProgram` went through `finishProgram` with the
state object the device created, on a module whose buffer pointer and program
descriptor are still those it started with. -/
theorem WorkGraphRenderModule.InitWorkGraphProgram_ok (dev : Device)
    (self m : WorkGraphRenderModule) (h : (InitWorkGraphProgram dev self).result = .ok m) :
    ∃ (t : WorkGraphRenderModule) (trace : List InitEvent),
      (finishProgram dev t trace).result = .ok m
        ∧ t.m_pWorkGraphBackingMemoryBuffer = self.m_pWorkGraphBackingMemoryBuffer
        ∧ t.m_WorkGraphProgramDesc = self.m_WorkGraphProgramDesc
        ∧ t.m_shaderTime = self.m_shaderTime := by
  unfold InitWorkGraphProgram at h
  simp only at h
  split at h
  · simp at h
  · split at h
    · simp at h
    · split at h
      · simp [CauldronCritical] at h
      · split at h
        · simp at h
        · split at h
          · simp at h
          · exact ⟨_, _, h, rfl, rfl, rfl⟩

/-- The program construction does not touch the shader time. -/
theorem WorkGraphRenderModule.InitWorkGraphProgram_shaderTime (dev : Device)
    (self m : WorkGraphRenderModule) (h : (InitWorkGraphProgram dev self).result = .ok m) :
    m.m_shaderTime = self.m_shaderTime := by
  obtain ⟨t, trace, hfin, -, -, ht⟩ := InitWorkGraphProgram_ok dev self m h
  unfold finishProgram at hfin
  simp only at hfin
  split at hfin
  · simp at hfin
  · split at hfin
    · simp at hfin
    · simp only [Except.ok.injEq] at hfin
      subst hfin
      exact ht


/-! ## Observers of a trace -/

theorem obtainedShaders_append (l₁ l₂ : List InitEvent) :
    obtainedShaders (l₁ ++ l₂) = obtainedShaders l₁ ++ obtainedShaders l₂ := by
  induction l₁ with
  | nil => rfl
  | cons e es ih =>
    cases e with
    | CompileShader request blob released => cases blob <;> simp [obtainedShaders, ih]
    | _ => simp [obtainedShaders, ih]

theorem releasedShaders_append (l₁ l₂ : List InitEvent) :
    releasedShaders (l₁ ++ l₂) = releasedShaders l₁ ++ releasedShaders l₂ := by
  induction l₁ with
  | nil => rfl
  | cons e es ih => cases e <;> simp [releasedShaders, ih]

theorem createdBuffers_append (l₁ l₂ : List InitEvent) :
    createdBuffers (l₁ ++ l₂) = createdBuffers l₁ ++ createdBuffers l₂ := by
  induction l₁ with
  | nil => rfl
  | cons e es ih => cases e <;> simp [createdBuffers, ih]

theorem createdBuffers_map_Release (blobs : List Handle) :
    createdBuffers (blobs.map InitEvent.Release) = [] := by
  induction blobs with
  | nil => rfl
  | cons b bs ih => simp [createdBuffers, ih]

theorem compileRequests_map_Release (blobs : List Handle) :
    compileRequests (blobs.map InitEvent.Release) = [] := by
  induction blobs with
  | nil => rfl
  | cons b bs ih => simp [compileRequests, ih]

/-! ## The lambda calls -/

theorem WorkGraphRenderModule.addCompiledShader_invariant (dev : Device) (b : Builder)
    (request : ShaderRequest) (hb : BuilderInvariant b) :
    BuilderInvariant (addCompiledShader dev b request).1 := by
  obtain ⟨h1, h2, h3, h4⟩ := hb
  unfold addCompiledShader
  simp only
  split
  · next failure heq =>
    simp [BuilderInvariant, heq, obtainedShaders_append, releasedShaders_append,
      createdBuffers_append, obtainedShaders, releasedShaders, createdBuffers, h1, h2, h3, h4]
  · next heq =>
    simp [BuilderInvariant, heq, obtainedShaders_append, releasedShaders_append,
      createdBuffers_append, obtainedShaders, releasedShaders, createdBuffers, h1, h2, h3, h4]
  · next blob heq =>
    simp [BuilderInvariant, heq, obtainedShaders_append, releasedShaders_append,
      createdBuffers_append, obtainedShaders, releasedShaders, createdBuffers, h1, h2, h3, h4,
      List.filterMap_append]

theorem WorkGraphRenderModule.applyStep_invariant (dev : Device) (b : Builder) (step : BuildStep)
    (hb : BuilderInvariant b) : BuilderInvariant (applyStep dev b step).1 := by
  cases step with
  | AddShaderLibrary f => exact addCompiledShader_invariant dev b _ hb
  | AddPixelShader f e => exact addCompiledShader_invariant dev b _ hb
  | AddMeshNode m p c => exact hb

theorem WorkGraphRenderModule.runSteps_invariant (dev : Device) (steps : List BuildStep) :
    ∀ b : Builder, BuilderInvariant b → BuilderInvariant (runSteps dev b steps).1 := by
  induction steps with
  | nil => intro b hb; exact hb
  | cons step steps ih =>
    intro b hb
    have hs := applyStep_invariant dev b step hb
    unfold runSteps
    split
    · next b' failure heq => rw [heq] at hs; exact hs
    · next b' heq => rw [heq] at hs; exact ih b' hs


theorem WorkGraphRenderModule.finishProgram_trace (dev : Device) (self : WorkGraphRenderModule)
    (trace : List InitEvent) :
    ∃ extra, (finishProgram dev self trace).trace = trace ++ extra
      ∧ obtainedShaders extra = [] ∧ releasedShaders extra = [] ∧ compileRequests extra = []
      ∧ (∀ desc, InitEvent.CreateStateObject desc ∉ extra)
      ∧ (∀ m, (finishProgram dev self trace).result = .ok m →
          createdBuffers extra
            = if reportedMaxSize dev self.m_pWorkGraphStateObject > 0 then
                [({ Name := "MeshNodeSample_WorkGraphBackingMemory"
                    Size := wrap32 (reportedMaxSize dev self.m_pWorkGraphStateObject)
                    Stride := 1
                    Alignment := D3D12_WORK_GRAPHS_BACKING_MEMORY_ALIGNMENT_IN_BYTES
                    Flags := .AllowUnorderedAccess }, .UnorderedAccess)]
              else []) := by
  unfold finishProgram reportedMaxSize
  simp only
  split
  · exact ⟨[], by simp, rfl, rfl, rfl, by simp, by simp⟩
  · split
    · exact ⟨[], by simp, rfl, rfl, rfl, by simp, by simp⟩
    · by_cases hN : dev.MaxSizeInBytes self.m_pWorkGraphStateObject
          (dev.GetWorkGraphIndex self.m_pWorkGraphStateObject WorkGraphProgramName) > 0
      · refine ⟨_, by simp only [List.append_assoc]; rfl, ?_, ?_, ?_, ?_, ?_⟩ <;>
          simp [hN, obtainedShaders, releasedShaders, compileRequests, createdBuffers]
      · refine ⟨_, by simp only [List.append_assoc]; rfl, ?_, ?_, ?_, ?_, ?_⟩ <;>
          simp [hN, obtainedShaders, releasedShaders, compileRequests, createdBuffers]

theorem initialBuilder_invariant (dev : Device) (self : WorkGraphRenderModule) :
    BuilderInvariant (initialBuilder dev self) := by
  simp [BuilderInvariant, initialBuilder, obtainedShaders, releasedShaders, createdBuffers]

/-- The four ways `InitWorkGraphProgram` ends: before the first lambda call
with an empty trace; in a lambda call; at the creation of the state object;
or, the state object created and the compiled shaders released, in the last
part. -/
theorem WorkGraphRenderModule.InitWorkGraphProgram_cases (dev : Device)
    (self : WorkGraphRenderModule) :
    ((∃ failure, (InitWorkGraphProgram dev self).result = .error failure)
        ∧ (InitWorkGraphProgram dev self).trace = []
        ∧ (FAILED dev.queryDevice9 = true ∨ FAILED dev.checkFeatureSupport = true
            ∨ dev.WorkGraphsTier < D3D12_WORK_GRAPHS_TIER_1_1))
    ∨ (D3D12_WORK_GRAPHS_TIER_1_1 ≤ dev.WorkGraphsTier ∧
        ((∃ b failure, runSteps dev (initialBuilder dev self) buildSteps = (b, some failure)
            ∧ (InitWorkGraphProgram dev self).result = .error failure
            ∧ (InitWorkGraphProgram dev self).trace = b.trace)
        ∨ (∃ b hr, runSteps dev (initialBuilder dev self) buildSteps = (b, none)
            ∧ dev.CreateStateObject b.stateObjectDesc = .error hr
            ∧ (InitWorkGraphProgram dev self).result = .error (.throwOnFail hr)
            ∧ (InitWorkGraphProgram dev self).trace
                = b.trace ++ [InitEvent.CreateStateObject b.stateObjectDesc])
        ∨ (∃ b stateObject t extra,
            runSteps dev (initialBuilder dev self) buildSteps = (b, none)
            ∧ dev.CreateStateObject b.stateObjectDesc = .ok stateObject
            ∧ t.m_pWorkGraphStateObject = stateObject
            ∧ t.m_pWorkGraphBackingMemoryBuffer = self.m_pWorkGraphBackingMemoryBuffer
            ∧ t.m_WorkGraphProgramDesc = self.m_WorkGraphProgramDesc
            ∧ (InitWorkGraphProgram dev self).result
                = (finishProgram dev t
                    (b.trace ++ [InitEvent.CreateStateObject b.stateObjectDesc]
                      ++ (b.compiledShaders.filterMap id).map InitEvent.Release)).result
            ∧ (InitWorkGraphProgram dev self).trace
                = b.trace ++ [InitEvent.CreateStateObject b.stateObjectDesc]
                    ++ (b.compiledShaders.filterMap id).map InitEvent.Release ++ extra
            ∧ obtainedShaders extra = [] ∧ releasedShaders extra = []
            ∧ compileRequests extra = []
            ∧ (∀ desc, InitEvent.CreateStateObject desc ∉ extra)
            ∧ (∀ m, (InitWorkGraphProgram dev self).result = .ok m →
                createdBuffers extra
                  = if reportedMaxSize dev stateObject > 0 then
                      [({ Name := "MeshNodeSample_WorkGraphBackingMemory"
                          Size := wrap32 (reportedMaxSize dev stateObject)
                          Stride := 1
                          Alignment := D3D12_WORK_GRAPHS_BACKING_MEMORY_ALIGNMENT_IN_BYTES
                          Flags := .AllowUnorderedAccess }, .UnorderedAccess)]
                    else [])))) := by
  unfold InitWorkGraphProgram CauldronThrowOnFail
  simp only
  cases h9 : FAILED dev.queryDevice9
  · cases hcf : FAILED dev.checkFeatureSupport
    · by_cases htier : dev.WorkGraphsTier < D3D12_WORK_GRAPHS_TIER_1_1
      · left
        simp [htier, CauldronCritical]
      · right
        refine ⟨by omega, ?_⟩
        simp only [Bool.false_eq_true, if_false, htier]
        have hb : ∀ x, runSteps dev (initialBuilder dev self) buildSteps = x →
            runSteps dev
              { stateObjectDesc := initialSubobjects dev
                  { self with
                    m_pWorkGraphRootSignature :=
                      dev.CreateRootSignature "MeshNodeSample_WorkGraphRootSignature"
                        { constantBufferViews := [(0, ShaderBindStage.Compute, 1)],
                          m_PipelineType := .Graphics }
                    m_pWorkGraphParameterSet :=
                      dev.CreateParameterSet
                        (dev.CreateRootSignature "MeshNodeSample_WorkGraphRootSignature"
                          { constantBufferViews := [(0, ShaderBindStage.Compute, 1)],
                            m_PipelineType := .Graphics }) }
                compiledShaders := []
                trace := [] } buildSteps = x := fun x hx => hx
        rcases hrun : runSteps dev (initialBuilder dev self) buildSteps with ⟨b, _ | failure⟩
        · rw [hb _ hrun]
          right
          simp only
          cases hcso : dev.CreateStateObject b.stateObjectDesc with
          | error hr => left; exact ⟨b, hr, rfl, hcso, rfl, rfl⟩
          | ok stateObject =>
            right
            simp only
            obtain ⟨extra, hextra, h1, h2, h3, h4, h5⟩ := finishProgram_trace dev
              { self with
                m_pWorkGraphRootSignature :=
                  dev.CreateRootSignature "MeshNodeSample_WorkGraphRootSignature"
                    { constantBufferViews := [(0, ShaderBindStage.Compute, 1)],
                      m_PipelineType := .Graphics }
                m_pWorkGraphParameterSet :=
                  dev.CreateParameterSet
                    (dev.CreateRootSignature "MeshNodeSample_WorkGraphRootSignature"
                      { constantBufferViews := [(0, ShaderBindStage.Compute, 1)],
                        m_PipelineType := .Graphics })
                m_pWorkGraphStateObject := stateObject }
              (b.trace ++ [InitEvent.CreateStateObject b.stateObjectDesc]
                ++ (b.compiledShaders.filterMap id).map InitEvent.Release)
            exact ⟨b, stateObject,
              { self with
                m_pWorkGraphRootSignature :=
                  dev.CreateRootSignature "MeshNodeSample_WorkGraphRootSignature"
                    { constantBufferViews := [(0, ShaderBindStage.Compute, 1)],
                      m_PipelineType := .Graphics }
                m_pWorkGraphParameterSet :=
                  dev.CreateParameterSet
                    (dev.CreateRootSignature "MeshNodeSample_WorkGraphRootSignature"
                      { constantBufferViews := [(0, ShaderBindStage.Compute, 1)],
                        m_PipelineType := .Graphics })
                m_pWorkGraphStateObject := stateObject },
              extra, rfl, hcso, rfl, rfl, rfl, rfl, hextra, h1, h2, h3, h4, h5⟩
        · rw [hb _ hrun]
          left
          exact ⟨b, failure, rfl, rfl, rfl⟩
    · left
      simp [hcf]
  · left
    simp [h9]


/-! ## Compilation in the lambda calls -/

theorem WorkGraphRenderModule.addCompiledShader_none_iff (dev : Device) (b : Builder)
    (request : ShaderRequest) :
    (addCompiledShader dev b request).2 = none ↔ Compiles dev request := by
  unfold addCompiledShader Compiles
  simp only
  split
  · next failure heq => simp [heq]
  · next heq => simp [heq]
  · next blob heq => simp [heq]

theorem WorkGraphRenderModule.applyStep_none_iff (dev : Device) (b : Builder) (step : BuildStep) :
    (applyStep dev b step).2 = none ↔ ∀ request ∈ step.request?, Compiles dev request := by
  cases step with
  | AddShaderLibrary f =>
    simp [applyStep, AddShaderLibrary, BuildStep.request?, addCompiledShader_none_iff]
  | AddPixelShader f e =>
    simp [applyStep, AddPixelShader, BuildStep.request?, addCompiledShader_none_iff]
  | AddMeshNode m p c => simp [applyStep, BuildStep.request?]

/-- The lambda calls all return exactly when every shader they ask for
compiles. -/
theorem WorkGraphRenderModule.runSteps_none_iff (dev : Device) (steps : List BuildStep) :
    ∀ b : Builder, (runSteps dev b steps).2 = none
      ↔ ∀ request ∈ steps.filterMap BuildStep.request?, Compiles dev request := by
  induction steps with
  | nil => intro b; simp [runSteps]
  | cons step steps ih =>
    intro b
    have hs := applyStep_none_iff dev b step
    unfold runSteps
    split
    · next b' failure heq =>
      rw [heq] at hs
      simp only [reduceCtorEq, false_iff] at hs ⊢
      intro hall
      apply hs
      intro request hr
      exact hall request (by
        rw [List.filterMap_cons]
        cases hq : step.request? with
        | none => rw [hq] at hr; simp at hr
        | some q => rw [hq] at hr; simp at hr; subst hr; simp)
    · next b' heq =>
      rw [heq] at hs
      simp only [true_iff] at hs
      rw [ih b']
      constructor
      · intro hall request hr
        rw [List.filterMap_cons] at hr
        cases hq : step.request? with
        | none => rw [hq] at hr; exact hall request hr
        | some q =>
          rw [hq] at hr
          simp only [List.mem_cons] at hr
          rcases hr with rfl | hr
          · exact hs request (by simp [hq])
          · exact hall request hr
      · intro hall request hr
        apply hall
        rw [List.filterMap_cons]
        cases hq : step.request? with
        | none => exact hr
        | some q => simp [hr]

/-- C1 (as stated, refuted). One `Execute` with the double nearest to 0.011,
which lies below 11/1000, on a module with shader time 0: the double product
with `1000.0` rounds to 11, so the shader time after the call is 11, while
`(0 + floor (d * 1000)) mod 2^32` is 10. -/
theorem shaderTime_differs_from_floor_of_delta :
    elevenMilliseconds.wf ∧ 0 ≤ elevenMilliseconds.toRat
      ∧ (Execute sampleFramework {} { sampleFrame with deltaTime := elevenMilliseconds }).module.m_shaderTime
          = 11
      ∧ (0 + ⌊elevenMilliseconds.toRat * 1000⌋.toNat) % 2 ^ 32 = 10 := by
  have hfloor : ⌊elevenMilliseconds.toRat * 1000⌋ = 10 := by
    rw [Int.floor_eq_iff]
    constructor <;> norm_num [elevenMilliseconds, F64.toRat]
  refine ⟨by decide, by norm_num [elevenMilliseconds, F64.toRat], by decide, ?_⟩
  rw [hfloor]
  rfl

/-- C1 as amended. For a shader time `t`, a finite frame delta `d ≥ 0` and the
double product `p` of `d` and `1000.0` (rounded to the nearest double), with
`p` below `2^32`: the shader time after `Execute` is `(t + floor p) mod 2^32`;
`floor p` is `floor (d * 1000)` or one more; and when the product needs no
rounding (`125 * mant` of `d` fits the significand) the shader time is
`(t + floor (d * 1000)) mod 2^32`. -/
theorem shaderTime_after_Execute (fw : Framework) (self : WorkGraphRenderModule)
    (frame : FrameInput) (p : F64) (hwf : frame.deltaTime.wf)
    (hd : 0 ≤ frame.deltaTime.toRat)
    (hp : F64.mul frame.deltaTime F64.thousand = some p) (hrange : p.toRat < 2 ^ 32) :
    (Execute fw self frame).module.m_shaderTime
        = (self.m_shaderTime + ⌊p.toRat⌋.toNat) % 2 ^ 32
      ∧ ⌊frame.deltaTime.toRat * 1000⌋ ≤ ⌊p.toRat⌋
      ∧ ⌊p.toRat⌋ ≤ ⌊frame.deltaTime.toRat * 1000⌋ + 1
      ∧ (125 * frame.deltaTime.mant < 2 ^ 53 →
          (Execute fw self frame).module.m_shaderTime
            = (self.m_shaderTime + ⌊frame.deltaTime.toRat * 1000⌋.toNat) % 2 ^ 32) := by
  have hpos := F64.mul_thousand_nonneg _ p hd hp
  have h63 : p.toRat < 2 ^ 63 := lt_of_lt_of_le hrange (by norm_num)
  have main : (Execute fw self frame).module.m_shaderTime
      = (self.m_shaderTime + ⌊p.toRat⌋.toNat) % 2 ^ 32 := by
    rw [Execute_shaderTime, hp, F64.toUInt32_some p hpos h63]
    unfold wrap32
    omega
  have hfloor : ⌊frame.deltaTime.toRat * 1000⌋ ≤ ⌊p.toRat⌋
      ∧ ⌊p.toRat⌋ ≤ ⌊frame.deltaTime.toRat * 1000⌋ + 1 := by
    cases hs : frame.deltaTime.sign
    · exact F64.floor_mul_thousand _ p hwf hs hp (lt_of_lt_of_le hrange (by norm_num))
    · have hm0 := F64.mant_zero_of_sign_of_nonneg _ hs hd
      rw [F64.toRat_of_mant_zero p (F64.mul_mant_zero _ _ p hm0 hp),
        F64.toRat_of_mant_zero _ hm0]
      norm_num
  refine ⟨main, hfloor.1, hfloor.2, fun hm => ?_⟩
  rw [main, F64.mul_thousand_exact _ p hwf hm hp]

/-- C1 (amended), at a frame of the double nearest to 0.011 on the constructed
module: the product is the double 11 and the shader time is 11. -/
theorem shaderTime_after_Execute_witness :
    F64.mul elevenMilliseconds F64.thousand = some ⟨false, 11 * 2 ^ 49, -49⟩
      ∧ (Execute sampleFramework {} { sampleFrame with deltaTime := elevenMilliseconds }).module.m_shaderTime
          = (0 + ⌊(⟨false, 11 * 2 ^ 49, -49⟩ : F64).toRat⌋.toNat) % 2 ^ 32
      ∧ ⌊(⟨false, 11 * 2 ^ 49, -49⟩ : F64).toRat⌋ ≤ ⌊elevenMilliseconds.toRat * 1000⌋ + 1 :=
  ⟨by decide,
    (shaderTime_after_Execute sampleFramework {}
      { sampleFrame with deltaTime := elevenMilliseconds } ⟨false, 11 * 2 ^ 49, -49⟩
      (by decide) (by norm_num [elevenMilliseconds, F64.toRat]) (by decide)
      (by norm_num [F64.toRat])).1,
    (shaderTime_after_Execute sampleFramework {}
      { sampleFrame with deltaTime := elevenMilliseconds } ⟨false, 11 * 2 ^ 49, -49⟩
      (by decide) (by norm_num [elevenMilliseconds, F64.toRat]) (by decide)
      (by norm_num [F64.toRat])).2.2.1⟩

/-- A frame of 16 ms on the constructed module leaves a shader time of 16. -/
theorem Execute_sixteen_milliseconds :
    (Execute sampleFramework {} sampleFrame).module.m_shaderTime = 16 := by decide

/-- The double nearest to 0.009 lies below 9/1000, and its product with
`1000.0` rounds to the double 9: the code adds 9 ms for it. -/
theorem F64.mul_rounds_to_nine :
    (⟨false, 5188146770730811, -59⟩ : F64).toRat < 9 / 1000
      ∧ F64.mul ⟨false, 5188146770730811, -59⟩ F64.thousand = some ⟨false, 9 * 2 ^ 49, -49⟩
      ∧ F64.toUInt32 (F64.mul ⟨false, 5188146770730811, -59⟩ F64.thousand) = 9 := by
  refine ⟨by norm_num [F64.toRat], by decide, by decide⟩

/-- A delta of `10^17` seconds has the product `10^20`, beyond `2^63`: the
conversion gives 0 and the shader time stays what it was. -/
theorem Execute_beyond_sixty_three_bits :
    F64.mul tenToSeventeenSeconds F64.thousand = some ⟨false, 95367431640625, 20⟩
      ∧ (2 : ℚ) ^ 63 ≤ (⟨false, 95367431640625, 20⟩ : F64).toRat
      ∧ (Execute sampleFramework {} { sampleFrame with deltaTime := tenToSeventeenSeconds }).module.m_shaderTime
          = 0 := by
  refine ⟨by decide, by norm_num [F64.toRat], by decide⟩


/-! ## Frame constants -/

/-- The module `Execute` works on after the increment of the shader time. -/
theorem WorkGraphRenderModule.Execute_frameConstants (fw : Framework) (self : WorkGraphRenderModule)
    (frame : FrameInput) :
    frameConstants (Execute fw self frame).commands
      = [workGraphData fw
          { self with m_shaderTime := (Execute fw self frame).module.m_shaderTime }
          self.m_shaderTime frame.camera] := by
  rw [Execute_shaderTime]
  unfold Execute
  simp only
  split <;> simp [frameConstants, RasterViews.toList, shadingCommands, rasterSetupCommands]

/-- The pairs (PreviousShaderTime, ShaderTime) written by the frames of a run. -/
theorem WorkGraphRenderModule.ExecuteFrames_times (fw : Framework) (frames : List FrameInput) :
    ∀ self : WorkGraphRenderModule,
      (ExecuteFrames fw self frames).map
          (fun r => (frameConstants r.commands).map (fun cb => (cb.PreviousShaderTime, cb.ShaderTime)))
        = List.zipWith (fun previous current => [(previous, current)])
            (self.m_shaderTime :: (ExecuteFrames fw self frames).map (fun r => r.module.m_shaderTime))
            ((ExecuteFrames fw self frames).map (fun r => r.module.m_shaderTime)) := by
  induction frames with
  | nil => intro self; simp [ExecuteFrames]
  | cons frame frames ih =>
    intro self
    simp only [ExecuteFrames, List.map_cons, List.zipWith_cons_cons]
    congr 1
    · rw [Execute_frameConstants]; simp [workGraphData]
    · split
      · simp
      · exact ih _

/-- C2. In a run of `Execute` calls on one module instance, every frame writes
one block of frame constants. The list of the pairs (PreviousShaderTime,
ShaderTime) written, frame by frame, is the list of pairs (`previous`,
`current`) in which `current` is the module's shader time after that frame's
increment and `previous` is the `current` of the frame before; for the first
frame `previous` is the shader time the module starts with. That is 0 for the
constructed module, and `InitWorkGraphProgram` does not change it. -/
theorem previousShaderTime_is_last_shaderTime (fw : Framework) (self : WorkGraphRenderModule)
    (frames : List FrameInput) :
    (ExecuteFrames fw self frames).map
        (fun r => (frameConstants r.commands).map (fun cb => (cb.PreviousShaderTime, cb.ShaderTime)))
      = List.zipWith (fun previous current => [(previous, current)])
          (self.m_shaderTime :: (ExecuteFrames fw self frames).map (fun r => r.module.m_shaderTime))
          ((ExecuteFrames fw self frames).map (fun r => r.module.m_shaderTime))
    ∧ ({} : WorkGraphRenderModule).m_shaderTime = 0
    ∧ ∀ (dev : Device) (m : WorkGraphRenderModule),
        (InitWorkGraphProgram dev self).result = .ok m → m.m_shaderTime = self.m_shaderTime :=
  ⟨ExecuteFrames_times fw frames self, rfl,
    fun dev m h => InitWorkGraphProgram_shaderTime dev self m h⟩

/-- Three frames of 16 ms on the constructed module write the pairs (0, 16),
(16, 32), (32, 48). -/
theorem ExecuteFrames_sample_times :
    (ExecuteFrames sampleFramework {} [sampleFrame, sampleFrame, sampleFrame]).map
        (fun r => (frameConstants r.commands).map (fun cb => (cb.PreviousShaderTime, cb.ShaderTime)))
      = [[(0, 16)], [(16, 32)], [(32, 48)]] := by decide


/-! ## The graph-initialize flag -/

theorem hasInitializeFlag_and_not (flags : Nat) :
    hasInitializeFlag (flags &&& not32 D3D12_SET_WORK_GRAPH_FLAG_INITIALIZE) = false := by
  have h : not32 D3D12_SET_WORK_GRAPH_FLAG_INITIALIZE &&& D3D12_SET_WORK_GRAPH_FLAG_INITIALIZE = 0 := by
    decide
  simp [hasInitializeFlag, Nat.land_assoc, h]

theorem WorkGraphRenderModule.Execute_setProgramDescs (fw : Framework)
    (self : WorkGraphRenderModule) (frame : FrameInput) :
    setProgramDescs (Execute fw self frame).commands
      = if (Execute fw self frame).failure = none then [self.m_WorkGraphProgramDesc] else [] := by
  cases h : FAILED frame.queryCommandList10
  · obtain ⟨t, ht, hex⟩ := Execute_of_succeeded fw self frame h
    subst ht
    rw [hex]
    simp [setProgramDescs, rasterSetupCommands, shadingCommands, RasterViews.toList]
  · obtain ⟨t, ht, hex⟩ := Execute_of_failed fw self frame h
    subst ht
    rw [hex]
    simp [setProgramDescs, rasterSetupCommands, RasterViews.toList]

/-- The program descriptor `Execute` leaves in the module: only the flag word
changes, and only when the call returns. -/
theorem WorkGraphRenderModule.Execute_programDesc (fw : Framework)
    (self : WorkGraphRenderModule) (frame : FrameInput) :
    (Execute fw self frame).module.m_WorkGraphProgramDesc
      = if (Execute fw self frame).failure = none then
          (clearInitializeFlag self).m_WorkGraphProgramDesc
        else self.m_WorkGraphProgramDesc := by
  cases h : FAILED frame.queryCommandList10
  · obtain ⟨t, ht, hex⟩ := Execute_of_succeeded fw self frame h
    subst ht
    rw [hex]
    simp [clearInitializeFlag]
  · obtain ⟨t, ht, hex⟩ := Execute_of_failed fw self frame h
    subst ht
    rw [hex]
    simp

theorem WorkGraphRenderModule.Execute_flag_stays_clear (fw : Framework)
    (self : WorkGraphRenderModule) (frame : FrameInput)
    (h : hasInitializeFlag self.m_WorkGraphProgramDesc.WorkGraph.Flags = false) :
    hasInitializeFlag (Execute fw self frame).module.m_WorkGraphProgramDesc.WorkGraph.Flags = false := by
  rw [Execute_programDesc]
  split
  · exact hasInitializeFlag_and_not _
  · exact h

/-- Once the flag is clear in the module, no later `Execute` passes or leaves a
descriptor with the flag. -/
theorem WorkGraphRenderModule.ExecuteFrames_flag_clear (fw : Framework) (frames : List FrameInput) :
    ∀ self : WorkGraphRenderModule,
      hasInitializeFlag self.m_WorkGraphProgramDesc.WorkGraph.Flags = false →
      ∀ r ∈ ExecuteFrames fw self frames,
        (∀ desc ∈ setProgramDescs r.commands, hasInitializeFlag desc.WorkGraph.Flags = false)
          ∧ hasInitializeFlag r.module.m_WorkGraphProgramDesc.WorkGraph.Flags = false
          ∧ (r.failure = none → (setProgramDescs r.commands).length = 1) := by
  induction frames with
  | nil => intro self _ r hr; simp [ExecuteFrames] at hr
  | cons frame frames ih =>
    intro self hclear r hr
    simp only [ExecuteFrames, List.mem_cons] at hr
    have hstay := Execute_flag_stays_clear fw self frame hclear
    rcases hr with rfl | hr
    · refine ⟨?_, hstay, ?_⟩
      · intro desc hd
        rw [Execute_setProgramDescs] at hd
        split at hd
        · simp only [List.mem_singleton] at hd; rw [hd]; exact hclear
        · simp at hd
      · intro hnone
        rw [Execute_setProgramDescs, if_pos hnone]
        rfl
    · split at hr
      · simp at hr
      · exact ih _ hstay r hr

/-- C3. When `InitWorkGraphProgram` completes, the program descriptor has the
graph-initialize flag. In a run of `Execute` calls that follows (at least one
call), every descriptor the first call passes to `SetProgram` has the flag; if
that call returns, it passed exactly one descriptor and leaves the flag clear;
every later call passes exactly one descriptor when it returns, no descriptor
it passes has the flag, and it leaves the flag clear. -/
theorem initialize_flag_on_first_dispatch_only (dev : Device) (fw : Framework)
    (self m : WorkGraphRenderModule) (frame : FrameInput) (frames : List FrameInput)
    (h : (InitWorkGraphProgram dev self).result = .ok m) :
    hasInitializeFlag m.m_WorkGraphProgramDesc.WorkGraph.Flags = true
      ∧ ∃ (first : ExecuteResult) (later : List ExecuteResult),
          ExecuteFrames fw m (frame :: frames) = first :: later
          ∧ (∀ desc ∈ setProgramDescs first.commands,
              hasInitializeFlag desc.WorkGraph.Flags = true)
          ∧ (first.failure = none →
              (setProgramDescs first.commands).length = 1
                ∧ hasInitializeFlag first.module.m_WorkGraphProgramDesc.WorkGraph.Flags = false)
          ∧ ∀ r ∈ later,
              (∀ desc ∈ setProgramDescs r.commands,
                hasInitializeFlag desc.WorkGraph.Flags = false)
              ∧ hasInitializeFlag r.module.m_WorkGraphProgramDesc.WorkGraph.Flags = false
              ∧ (r.failure = none → (setProgramDescs r.commands).length = 1) := by
  obtain ⟨t, trace, hfin, -, -, -⟩ := InitWorkGraphProgram_ok dev self m h
  have hflag : hasInitializeFlag m.m_WorkGraphProgramDesc.WorkGraph.Flags = true := by
    rw [(finishProgram_ok dev t m trace hfin).2.2.2.2.1]
    decide
  refine ⟨hflag, Execute fw m frame,
    (if (Execute fw m frame).failure.isSome then []
      else ExecuteFrames fw (Execute fw m frame).module frames), rfl, ?_, ?_, ?_⟩
  · intro desc hd
    rw [Execute_setProgramDescs] at hd
    split at hd
    · simp only [List.mem_singleton] at hd; rw [hd]; exact hflag
    · simp at hd
  · intro hnone
    refine ⟨by rw [Execute_setProgramDescs, if_pos hnone]; rfl, ?_⟩
    rw [Execute_programDesc, if_pos hnone]
    exact hasInitializeFlag_and_not _
  · intro r hr
    split at hr
    · simp at hr
    · next hsome =>
      have hnone : (Execute fw m frame).failure = none := by
        cases hf : (Execute fw m frame).failure with
        | none => rfl
        | some f => rw [hf] at hsome; simp at hsome
      have hclear :
          hasInitializeFlag (Execute fw m frame).module.m_WorkGraphProgramDesc.WorkGraph.Flags
            = false := by
        rw [Execute_programDesc, if_pos hnone]
        exact hasInitializeFlag_and_not _
      exact ExecuteFrames_flag_clear fw frames _ hclear r hr

/-- C3, on the sample device and two sample frames. -/
theorem initialize_flag_on_first_dispatch_only_witness :
    (InitWorkGraphProgram sampleDevice sampleModule).result = .ok sampleProgram
      ∧ hasInitializeFlag sampleProgram.m_WorkGraphProgramDesc.WorkGraph.Flags = true
      ∧ (ExecuteFrames sampleFramework sampleProgram [sampleFrame, sampleFrame]).map
          (fun r => (setProgramDescs r.commands).map
            (fun desc => hasInitializeFlag desc.WorkGraph.Flags))
        = [[true], [false]] :=
  ⟨rfl,
    (initialize_flag_on_first_dispatch_only sampleDevice sampleFramework sampleModule
      sampleProgram sampleFrame [sampleFrame] rfl).1,
    by decide⟩


/-! ## Backing memory -/

/-- A completed `InitWorkGraphProgram` in full: the lambda calls all returned,
the state object was created, the compiled shaders were released, and the last
part ran on the created state object. -/
theorem WorkGraphRenderModule.InitWorkGraphProgram_ok_trace (dev : Device)
    (self m : WorkGraphRenderModule) (h : (InitWorkGraphProgram dev self).result = .ok m) :
    D3D12_WORK_GRAPHS_TIER_1_1 ≤ dev.WorkGraphsTier ∧
    ∃ (b : Builder) (extra : List InitEvent),
      runSteps dev (initialBuilder dev self) buildSteps = (b, none)
        ∧ BuilderInvariant b
        ∧ dev.CreateStateObject b.stateObjectDesc = .ok m.m_pWorkGraphStateObject
        ∧ (InitWorkGraphProgram dev self).trace
            = b.trace ++ [InitEvent.CreateStateObject b.stateObjectDesc]
                ++ (b.compiledShaders.filterMap id).map InitEvent.Release ++ extra
        ∧ obtainedShaders extra = [] ∧ releasedShaders extra = []
        ∧ createdBuffers extra
            = if reportedMaxSize dev m.m_pWorkGraphStateObject > 0 then
                [({ Name := "MeshNodeSample_WorkGraphBackingMemory"
                    Size := wrap32 (reportedMaxSize dev m.m_pWorkGraphStateObject)
                    Stride := 1
                    Alignment := D3D12_WORK_GRAPHS_BACKING_MEMORY_ALIGNMENT_IN_BYTES
                    Flags := .AllowUnorderedAccess }, .UnorderedAccess)]
              else [] := by
  rcases InitWorkGraphProgram_cases dev self with
    ⟨⟨f, hf⟩, -, -⟩ | ⟨htier, ⟨b, f, -, hf, -⟩ | ⟨b, hr, -, -, hf, -⟩
      | ⟨b, so, t, extra, hrun, hcso, hso, -, -, hres, htrace, h1, h2, -, -, h5⟩⟩
  · rw [hf] at h; simp at h
  · rw [hf] at h; simp at h
  · rw [hf] at h; simp at h
  · have hfin := h
    rw [hres] at hfin
    have hm := (finishProgram_ok dev t m _ hfin).1
    have hinv := runSteps_invariant dev buildSteps _ (initialBuilder_invariant dev self)
    rw [hrun] at hinv
    rw [hso] at hm
    refine ⟨htier, b, extra, hrun, hinv, by rw [hm]; exact hcso, htrace, h1, h2, ?_⟩
    rw [hm]
    exact h5 m h

/-- The buffer a completed `InitWorkGraphProgram` asks for when the work graph
reports a positive size: the size in bytes converted to `uint32_t`, the
work-graph alignment, unordered access; the descriptor holds the address and
size of that buffer. -/
theorem WorkGraphRenderModule.backing_buffer_request (dev : Device)
    (self m : WorkGraphRenderModule) (h : (InitWorkGraphProgram dev self).result = .ok m)
    (hN : 0 < reportedMaxSize dev m.m_pWorkGraphStateObject) :
    ∃ buffer : Buffer,
      m.m_pWorkGraphBackingMemoryBuffer = some buffer
        ∧ createdBuffers (InitWorkGraphProgram dev self).trace = [(buffer.desc, buffer.initialState)]
        ∧ buffer.desc.Size = reportedMaxSize dev m.m_pWorkGraphStateObject % 2 ^ 32
        ∧ buffer.desc.Alignment = D3D12_WORK_GRAPHS_BACKING_MEMORY_ALIGNMENT_IN_BYTES
        ∧ buffer.desc.Flags = .AllowUnorderedAccess
        ∧ buffer.addressInfo = dev.GetAddressInfo buffer.desc
        ∧ m.m_WorkGraphProgramDesc.WorkGraph.BackingMemory
            = ⟨buffer.addressInfo.GPUBufferView, buffer.addressInfo.SizeInBytes⟩ := by
  obtain ⟨-, b, extra, -, ⟨-, -, hb3, -⟩, -, htrace, -, -, hcreated⟩ :=
    InitWorkGraphProgram_ok_trace dev self m h
  obtain ⟨t, trace, hfin, -, -, -⟩ := InitWorkGraphProgram_ok dev self m h
  obtain ⟨hso, hbuf, -, -, -, hmem, -⟩ := finishProgram_ok dev t m trace hfin
  rw [← hso] at hbuf
  have hN' : dev.MaxSizeInBytes m.m_pWorkGraphStateObject
      (dev.GetWorkGraphIndex m.m_pWorkGraphStateObject WorkGraphProgramName) > 0 := hN
  rw [if_pos hN'] at hbuf
  rw [if_pos hN] at hcreated
  refine ⟨_, hbuf, ?_, rfl, rfl, rfl, rfl, ?_⟩
  · rw [htrace]
    simp only [createdBuffers_append, hb3, createdBuffers_map_Release, hcreated, createdBuffers,
      List.nil_append]
    rfl
  · rw [hmem, hbuf]

/-- C4 (defect). A work graph that reports a backing memory size of `2^32`
bytes gets a buffer request of 0 bytes: the size is converted to `uint32_t`
before the buffer is described. Below `2^32` the request has the reported
size. -/
theorem backing_buffer_size_truncated :
    reportedMaxSize fourGiBDevice 50 = 2 ^ 32
      ∧ createdBuffers (InitWorkGraphProgram fourGiBDevice sampleModule).trace
          = [({ Name := "MeshNodeSample_WorkGraphBackingMemory", Size := 0, Stride := 1,
                Alignment := 8, Flags := .AllowUnorderedAccess }, .UnorderedAccess)]
      ∧ (∀ (dev : Device) (self m : WorkGraphRenderModule),
          (InitWorkGraphProgram dev self).result = .ok m →
          0 < reportedMaxSize dev m.m_pWorkGraphStateObject →
          reportedMaxSize dev m.m_pWorkGraphStateObject < 2 ^ 32 →
          ∃ buffer : Buffer, m.m_pWorkGraphBackingMemoryBuffer = some buffer
            ∧ buffer.desc.Size = reportedMaxSize dev m.m_pWorkGraphStateObject) := by
  refine ⟨rfl, by decide, ?_⟩
  intro dev self m h hpos hlt
  obtain ⟨buffer, hbuf, -, hsize, -⟩ := backing_buffer_request dev self m h hpos
  exact ⟨buffer, hbuf, by rw [hsize, Nat.mod_eq_of_lt hlt]⟩

/-- The backing memory region of the descriptors passed to `SetProgram` in a
run of `Execute` calls is the region the module held before the run. -/
theorem WorkGraphRenderModule.ExecuteFrames_backingMemory (fw : Framework)
    (frames : List FrameInput) :
    ∀ self : WorkGraphRenderModule, ∀ r ∈ ExecuteFrames fw self frames,
      (∀ desc ∈ setProgramDescs r.commands,
          desc.WorkGraph.BackingMemory = self.m_WorkGraphProgramDesc.WorkGraph.BackingMemory)
        ∧ r.module.m_WorkGraphProgramDesc.WorkGraph.BackingMemory
            = self.m_WorkGraphProgramDesc.WorkGraph.BackingMemory := by
  induction frames with
  | nil => intro self r hr; simp [ExecuteFrames] at hr
  | cons frame frames ih =>
    intro self r hr
    simp only [ExecuteFrames, List.mem_cons] at hr
    have hmod : (Execute fw self frame).module.m_WorkGraphProgramDesc.WorkGraph.BackingMemory
        = self.m_WorkGraphProgramDesc.WorkGraph.BackingMemory := by
      rw [Execute_programDesc]
      split <;> rfl
    rcases hr with rfl | hr
    · refine ⟨?_, hmod⟩
      intro desc hd
      rw [Execute_setProgramDescs] at hd
      split at hd
      · simp only [List.mem_singleton] at hd; rw [hd]
      · simp at hd
    · split at hr
      · simp at hr
      · have := ih _ r hr
        rw [hmod] at this
        exact this

/-- C5. On a module that holds no backing buffer and a value-initialised
program descriptor (as the constructor leaves it), when `InitWorkGraphProgram`
completes and the work graph reports a size of 0 bytes: no buffer is requested,
the buffer pointer is still null, the descriptor's backing memory region is
(0, 0), and so is the region of every descriptor passed to `SetProgram` in the
`Execute` calls that follow. -/
theorem no_backing_buffer_for_zero_size (dev : Device) (fw : Framework)
    (self m : WorkGraphRenderModule) (h : (InitWorkGraphProgram dev self).result = .ok m)
    (hbuffer : self.m_pWorkGraphBackingMemoryBuffer = none)
    (hdesc : self.m_WorkGraphProgramDesc = {})
    (hzero : reportedMaxSize dev m.m_pWorkGraphStateObject = 0) :
    createdBuffers (InitWorkGraphProgram dev self).trace = []
      ∧ m.m_pWorkGraphBackingMemoryBuffer = none
      ∧ m.m_WorkGraphProgramDesc.WorkGraph.BackingMemory = { StartAddress := 0, SizeInBytes := 0 }
      ∧ ∀ frames : List FrameInput, ∀ r ∈ ExecuteFrames fw m frames,
          ∀ desc ∈ setProgramDescs r.commands,
            desc.WorkGraph.BackingMemory = { StartAddress := 0, SizeInBytes := 0 } := by
  obtain ⟨-, b, extra, -, ⟨-, -, hb3, -⟩, -, htrace, -, -, hcreated⟩ :=
    InitWorkGraphProgram_ok_trace dev self m h
  obtain ⟨t, trace, hfin, htbuf, htdesc, -⟩ := InitWorkGraphProgram_ok dev self m h
  obtain ⟨hso, hbuf, -, -, -, hmem, -⟩ := finishProgram_ok dev t m trace hfin
  rw [← hso] at hbuf
  have hN : ¬ dev.MaxSizeInBytes m.m_pWorkGraphStateObject
      (dev.GetWorkGraphIndex m.m_pWorkGraphStateObject WorkGraphProgramName) > 0 := by
    have : dev.MaxSizeInBytes m.m_pWorkGraphStateObject
      (dev.GetWorkGraphIndex m.m_pWorkGraphStateObject WorkGraphProgramName) = 0 := hzero
    omega
  rw [if_neg hN, htbuf, hbuffer] at hbuf
  have hregion : m.m_WorkGraphProgramDesc.WorkGraph.BackingMemory
      = { StartAddress := 0, SizeInBytes := 0 } := by
    rw [hmem, hbuf]
    simp only
    rw [htdesc, hdesc]
  refine ⟨?_, hbuf, hregion, ?_⟩
  · rw [htrace, hzero] at *
    simp [createdBuffers_append, hb3, createdBuffers_map_Release, hcreated, createdBuffers]
  · intro frames r hr desc hd
    rw [(ExecuteFrames_backingMemory fw frames m r hr).1 desc hd, hregion]

/-- C5, on the sample device with a work graph that asks for no backing
memory. -/
theorem no_backing_buffer_for_zero_size_witness :
    (InitWorkGraphProgram noBackingMemoryDevice sampleModule).result
        = .ok { sampleProgram with
                m_pWorkGraphBackingMemoryBuffer := none
                m_WorkGraphProgramDesc :=
                  { Type_ := .WORK_GRAPH, WorkGraph := { ProgramIdentifier := 77, Flags := 1 } } }
      ∧ sampleModule.m_pWorkGraphBackingMemoryBuffer = none
      ∧ sampleModule.m_WorkGraphProgramDesc = {}
      ∧ reportedMaxSize noBackingMemoryDevice 50 = 0
      ∧ createdBuffers (InitWorkGraphProgram noBackingMemoryDevice sampleModule).trace = [] :=
  ⟨rfl, rfl, rfl, rfl,
    (no_backing_buffer_for_zero_size noBackingMemoryDevice sampleFramework sampleModule
      { sampleProgram with
        m_pWorkGraphBackingMemoryBuffer := none
        m_WorkGraphProgramDesc :=
          { Type_ := .WORK_GRAPH, WorkGraph := { ProgramIdentifier := 77, Flags := 1 } } }
      rfl rfl rfl rfl).1⟩


/-! ## Resolution and barriers -/

theorem WorkGraphRenderModule.Execute_viewportSizes (fw : Framework) (self : WorkGraphRenderModule)
    (frame : FrameInput) :
    viewportSizes (Execute fw self frame).commands
      = [selectResolution frame.upscaleState frame.resInfo] := by
  unfold Execute
  simp only
  split <;> simp [viewportSizes, RasterViews.toList, shadingCommands, rasterSetupCommands]

/-- C6. The viewport `Execute` sets has the display size when the upscaler
state is None and the render size when it is PreUpscale; with display
1920x1080 and render 1280x720 these are 1920x1080 and 1280x720. -/
theorem resolution_by_upscaler_state (fw : Framework) (self : WorkGraphRenderModule)
    (frame : FrameInput) :
    viewportSizes (Execute fw self { frame with upscaleState := .None }).commands
        = [(frame.resInfo.DisplayWidth, frame.resInfo.DisplayHeight)]
      ∧ viewportSizes (Execute fw self { frame with upscaleState := .PreUpscale }).commands
        = [(frame.resInfo.RenderWidth, frame.resInfo.RenderHeight)]
      ∧ viewportSizes (Execute fw self { frame with
            upscaleState := .None
            resInfo := { RenderWidth := 1280, RenderHeight := 720,
                         DisplayWidth := 1920, DisplayHeight := 1080 } }).commands
        = [(1920, 1080)]
      ∧ viewportSizes (Execute fw self { frame with
            upscaleState := .PreUpscale
            resInfo := { RenderWidth := 1280, RenderHeight := 720,
                         DisplayWidth := 1920, DisplayHeight := 1080 } }).commands
        = [(1280, 720)] := by
  simp [Execute_viewportSizes, selectResolution]

theorem unique_swapped_barrier (fwd : List Barrier) (hnd : (fwd.map (·.pResource)).Nodup)
    (b : Barrier) (hb : b ∈ fwd) (r : Barrier) (hr : r ∈ fwd.map Barrier.swapStates)
    (hres : r.pResource = b.pResource) : r = b.swapStates := by
  obtain ⟨b', hb', rfl⟩ := List.mem_map.mp hr
  have : b' = b := List.inj_on_of_nodup_map hnd hb' hb hres
  rw [this]

/-- C7. In an `Execute` that returns, the commands are: the four forward
barriers, commands without a barrier that open the raster pass, `EndRaster`,
then the reverse barriers, then the shading pass. The forward list names the
color, normal, motion and depth resources in this order, going from the
shader-read state to RenderTarget (DepthWrite for depth); the reverse list is
the forward list with source and destination exchanged, entry by entry. When
the four resources are distinct, a reverse barrier on the resource of a
forward barrier is that barrier exchanged. -/
theorem reverse_barriers_mirror_forward (fw : Framework) (self : WorkGraphRenderModule)
    (frame : FrameInput) (h : (Execute fw self frame).failure = none) :
    ∃ (fwd rev : List Barrier) (raster shading : List Command),
      (Execute fw self frame).commands
          = Command.ResourceBarrier 4 fwd :: raster
              ++ Command.EndRaster :: Command.ResourceBarrier 4 rev :: shading
        ∧ barrierLists raster = []
        ∧ Command.BeginRaster 3 self.m_pGBufferRasterViews.toList self.m_pGBufferDepthRasterView
            ∈ raster
        ∧ fwd =
          [ ⟨fw.GetResource self.m_pGBufferColorOutput, .shaderRead, .RenderTargetResource⟩,
            ⟨fw.GetResource self.m_pGBufferNormalOutput, .shaderRead, .RenderTargetResource⟩,
            ⟨fw.GetResource self.m_pGBufferMotionOutput, .shaderRead, .RenderTargetResource⟩,
            ⟨fw.GetResource self.m_pGBufferDepthOutput, .shaderRead, .DepthWrite⟩ ]
        ∧ rev = fwd.map Barrier.swapStates
        ∧ rev.map (·.pResource) = fwd.map (·.pResource)
        ∧ ((fwd.map (·.pResource)).Nodup →
            ∀ b ∈ fwd, ∀ r ∈ rev, r.pResource = b.pResource → r = b.swapStates) := by
  obtain ⟨t, ht, hex⟩ :=
    Execute_of_succeeded fw self frame ((Execute_failure_eq_none_iff fw self frame).mp h)
  rw [hex]
  refine ⟨_, _, _, _, rfl, ?_, ?_, rfl, rfl, ?_, ?_⟩
  · simp [barrierLists, rasterSetupCommands, RasterViews.toList]
  · subst ht
    simp [rasterSetupCommands, RasterViews.toList]
  · simp [forwardBarriers, Barrier.swapStates, Barrier.Transition]
  · intro hnd b hb r hr hres
    exact unique_swapped_barrier _ hnd b hb r hr hres

/-- C7, at the sample frame on a module with four distinct G-buffer textures. -/
theorem reverse_barriers_mirror_forward_witness :
    (Execute sampleFramework sampleModule sampleFrame).failure = none
      ∧ ∃ (fwd rev : List Barrier) (raster shading : List Command),
      (Execute sampleFramework sampleModule sampleFrame).commands
          = Command.ResourceBarrier 4 fwd :: raster
              ++ Command.EndRaster :: Command.ResourceBarrier 4 rev :: shading
        ∧ barrierLists raster = []
        ∧ Command.BeginRaster 3 sampleModule.m_pGBufferRasterViews.toList
            sampleModule.m_pGBufferDepthRasterView ∈ raster
        ∧ fwd =
          [ ⟨sampleFramework.GetResource sampleModule.m_pGBufferColorOutput, .shaderRead,
              .RenderTargetResource⟩,
            ⟨sampleFramework.GetResource sampleModule.m_pGBufferNormalOutput, .shaderRead,
              .RenderTargetResource⟩,
            ⟨sampleFramework.GetResource sampleModule.m_pGBufferMotionOutput, .shaderRead,
              .RenderTargetResource⟩,
            ⟨sampleFramework.GetResource sampleModule.m_pGBufferDepthOutput, .shaderRead,
              .DepthWrite⟩ ]
        ∧ rev = fwd.map Barrier.swapStates
        ∧ rev.map (·.pResource) = fwd.map (·.pResource)
        ∧ ((fwd.map (·.pResource)).Nodup →
            ∀ b ∈ fwd, ∀ r ∈ rev, r.pResource = b.pResource → r = b.swapStates) :=
  ⟨by decide, reverse_barriers_mirror_forward sampleFramework sampleModule sampleFrame (by decide)⟩


/-! ## Release of the compiled shaders -/

/-- What `CompileShader` does when the diagnostic string is built (no error
buffer, or an error buffer whose conversion gives a blob): it returns `blob`
exactly under the five conditions; otherwise it ends in a `CauldronCritical`;
and when the compile status is a failure, the arguments of the message are the
file name and the diagnostic string. -/
theorem ShaderCompiler.CompileShader_of_diagnostic (dxc : DxcCalls) (request : ShaderRequest)
    (text : String) (released : List Handle) (hdiag : errorString dxc = (.ok text, released)) :
    (∀ blob, (CompileShader dxc request).result = .ok (some blob) ↔ dxc.Succeeds blob)
      ∧ ((∀ blob, ¬ dxc.Succeeds blob) →
          ∃ format arguments,
            (CompileShader dxc request).result = .error (.critical format arguments))
      ∧ (∀ source result status, dxc.LoadFile.2 = some source → FAILED dxc.LoadFile.1 = false →
          dxc.Compile = .ok result → dxc.GetStatus = .ok status → FAILED status = true →
          (CompileShader dxc request).result
            = .error (.critical "Failed to compile shader %s\n%s" [request.shaderFilePath, text])) := by
  unfold CompileShader DxcCalls.Succeeds
  rcases hload : dxc.LoadFile with ⟨hrLoad, _ | source⟩
  · simp [CauldronCritical]
  · cases hfl : FAILED hrLoad
    · cases hc : dxc.Compile with
      | error hr => simp [CauldronCritical, hfl]
      | ok result =>
        cases hs : dxc.GetStatus with
        | error hr => simp [CauldronCritical, hfl]
        | ok status =>
          cases hfs : FAILED status
          · cases hg : dxc.GetResult with
            | error hr => simp [CauldronCritical, hfl, hdiag, hfs]
            | ok blob => simp [CauldronCritical, hfl, hdiag, hfs]
          · simp [CauldronCritical, hfl, hdiag, hfs]
    · simp [CauldronCritical, hfl]

/-- C10 (defect). With DXC calls in which the source loads, `Compile`
succeeds, the status query succeeds with a success status and the result blob
9 can be fetched, but the conversion of the error buffer to UTF-16 leaves its
pointer null, `CompileShader` returns no blob: it ends in a null dereference,
which is not a `CauldronCritical` either. -/
theorem compile_faults_when_conversion_fails :
    conversionFailsDxc.Succeeds 9
      ∧ (ShaderCompiler.CompileShader conversionFailsDxc sampleRequest).result
          = .error .nullDereference
      ∧ ¬ (∃ blob, (ShaderCompiler.CompileShader conversionFailsDxc sampleRequest).result
            = .ok (some blob))
      ∧ ¬ (∃ format arguments,
            (ShaderCompiler.CompileShader conversionFailsDxc sampleRequest).result
              = .error (.critical format arguments)) := by
  refine ⟨⟨⟨1, rfl⟩, rfl, ⟨2, rfl⟩, ⟨0, rfl, rfl⟩, rfl⟩, rfl, ?_, ?_⟩
  · rintro ⟨blob, h⟩
    have h2 : (ShaderCompiler.CompileShader conversionFailsDxc sampleRequest).result
        = .error .nullDereference := rfl
    rw [h2] at h
    simp at h
  · rintro ⟨format, arguments, h⟩
    have h2 : (ShaderCompiler.CompileShader conversionFailsDxc sampleRequest).result
        = .error .nullDereference := rfl
    rw [h2] at h
    simp at h

/-- With a compile status of failure and an error buffer that converts, the
fatal message carries the compiler's error string. -/
theorem ShaderCompiler.CompileShader_of_diagnostic_example :
    errorString compileErrorDxc = (.ok "error: undeclared identifier", [4, 3])
      ∧ (ShaderCompiler.CompileShader compileErrorDxc sampleRequest).result
          = .error (.critical "Failed to compile shader %s\n%s"
              ["world.hlsl", "error: undeclared identifier"]) :=
  ⟨rfl,
    (ShaderCompiler.CompileShader_of_diagnostic compileErrorDxc sampleRequest
      "error: undeclared identifier" [4, 3] rfl).2.2 1 2 E_FAIL rfl rfl rfl rfl rfl⟩


/-! ## The shading dispatch -/

theorem WorkGraphRenderModule.Execute_dispatches (fw : Framework) (self : WorkGraphRenderModule)
    (frame : FrameInput) (h : (Execute fw self frame).failure = none) :
    dispatches (Execute fw self frame).commands
      = [(DivideRoundingUp (selectResolution frame.upscaleState frame.resInfo).1
            s_shadingThreadGroupSizeX,
          DivideRoundingUp (selectResolution frame.upscaleState frame.resInfo).2
            s_shadingThreadGroupSizeY, 1)] := by
  obtain ⟨t, ht, hex⟩ :=
    Execute_of_succeeded fw self frame ((Execute_failure_eq_none_iff fw self frame).mp h)
  subst ht
  rw [hex]
  simp [dispatches, rasterSetupCommands, shadingCommands, RasterViews.toList]

/-- The quotient rounded up by 8 is the least number of groups of 8 that cover
the extent, with fewer than 8 positions to spare. -/
theorem DivideRoundingUp_eight (extent : Nat) :
    extent ≤ 8 * DivideRoundingUp extent 8
      ∧ (∀ g, extent ≤ 8 * g → DivideRoundingUp extent 8 ≤ g)
      ∧ 8 * DivideRoundingUp extent 8 < extent + 8 := by
  unfold DivideRoundingUp
  refine ⟨by omega, fun g hg => by omega, by omega⟩

/-- C11. An `Execute` that returns records one `Dispatch`, with `gx x gy x 1`
thread groups for the selected width `w` and height `h`: `gx` is the least
number with `8 * gx ≥ w` and `8 * gx < w + 8`, and `gy` likewise for `h`. -/
theorem shading_dispatch_covers_resolution (fw : Framework) (self : WorkGraphRenderModule)
    (frame : FrameInput) (h : (Execute fw self frame).failure = none) :
    ∃ gx gy : Nat,
      dispatches (Execute fw self frame).commands = [(gx, gy, 1)]
        ∧ (selectResolution frame.upscaleState frame.resInfo).1 ≤ 8 * gx
        ∧ (∀ g, (selectResolution frame.upscaleState frame.resInfo).1 ≤ 8 * g → gx ≤ g)
        ∧ 8 * gx < (selectResolution frame.upscaleState frame.resInfo).1 + 8
        ∧ (selectResolution frame.upscaleState frame.resInfo).2 ≤ 8 * gy
        ∧ (∀ g, (selectResolution frame.upscaleState frame.resInfo).2 ≤ 8 * g → gy ≤ g)
        ∧ 8 * gy < (selectResolution frame.upscaleState frame.resInfo).2 + 8 := by
  obtain ⟨x1, x2, x3⟩ := DivideRoundingUp_eight (selectResolution frame.upscaleState frame.resInfo).1
  obtain ⟨y1, y2, y3⟩ := DivideRoundingUp_eight (selectResolution frame.upscaleState frame.resInfo).2
  exact ⟨_, _, Execute_dispatches fw self frame h, x1, x2, x3, y1, y2, y3⟩

/-- C11, at the sample frame: 1920x1080 gives 240 x 135 x 1 groups. -/
theorem shading_dispatch_covers_resolution_witness :
    (Execute sampleFramework sampleModule sampleFrame).failure = none
      ∧ dispatches (Execute sampleFramework sampleModule sampleFrame).commands = [(240, 135, 1)] :=
  ⟨by decide, by
    obtain ⟨gx, gy, hd, -⟩ :=
      shading_dispatch_covers_resolution sampleFramework sampleModule sampleFrame (by decide)
    decide⟩


/-! ## The graph dispatch -/

theorem WorkGraphRenderModule.Execute_dispatchGraphDescs (fw : Framework)
    (self : WorkGraphRenderModule) (frame : FrameInput) :
    dispatchGraphDescs (Execute fw self frame).commands
      = if (Execute fw self frame).failure = none then [dispatchDesc self] else [] := by
  cases h : FAILED frame.queryCommandList10
  · obtain ⟨t, ht, hex⟩ := Execute_of_succeeded fw self frame h
    subst ht
    rw [hex]
    simp [dispatchGraphDescs, rasterSetupCommands, shadingCommands, RasterViews.toList]
  · obtain ⟨t, ht, hex⟩ := Execute_of_failed fw self frame h
    subst ht
    rw [hex]
    simp [dispatchGraphDescs, rasterSetupCommands, RasterViews.toList]

theorem WorkGraphRenderModule.Execute_entryPointIndex (fw : Framework)
    (self : WorkGraphRenderModule) (frame : FrameInput) :
    (Execute fw self frame).module.m_WorkGraphEntryPointIndex = self.m_WorkGraphEntryPointIndex := by
  cases h : FAILED frame.queryCommandList10
  · obtain ⟨t, ht, hex⟩ := Execute_of_succeeded fw self frame h
    subst ht
    rw [hex]
    rfl
  · obtain ⟨t, ht, hex⟩ := Execute_of_failed fw self frame h
    subst ht
    rw [hex]

/-- In a run of `Execute` calls every graph dispatch has the CPU-input mode,
one record, stride 0, no record data and the entry point index the module
held before the run, and the module keeps that index. -/
theorem WorkGraphRenderModule.ExecuteFrames_dispatchGraph (fw : Framework)
    (frames : List FrameInput) :
    ∀ self : WorkGraphRenderModule, ∀ r ∈ ExecuteFrames fw self frames,
      (∀ desc ∈ dispatchGraphDescs r.commands,
          desc = { Mode := .NODE_CPU_INPUT
                   NodeCPUInput := { EntrypointIndex := self.m_WorkGraphEntryPointIndex
                                     NumRecords := 1
                                     pRecords := none
                                     RecordStrideInBytes := 0 } })
        ∧ r.module.m_WorkGraphEntryPointIndex = self.m_WorkGraphEntryPointIndex
        ∧ (r.failure = none → (dispatchGraphDescs r.commands).length = 1) := by
  induction frames with
  | nil => intro self r hr; simp [ExecuteFrames] at hr
  | cons frame frames ih =>
    intro self r hr
    simp only [ExecuteFrames, List.mem_cons] at hr
    rcases hr with rfl | hr
    · refine ⟨?_, Execute_entryPointIndex fw self frame, ?_⟩
      · intro desc hd
        rw [Execute_dispatchGraphDescs] at hd
        split at hd
        · simp only [List.mem_singleton] at hd; rw [hd]; rfl
        · simp at hd
      · intro hnone
        rw [Execute_dispatchGraphDescs, if_pos hnone]
        rfl
    · split at hr
      · simp at hr
      · have := ih _ r hr
        rw [Execute_entryPointIndex] at this
        exact this

/-- C14. After a completed `InitWorkGraphProgram`, every graph dispatch
recorded by the `Execute` calls that follow has the mode NODE_CPU_INPUT, one
record, record stride 0, a null record pointer, and as entry point index the
index the state object gave at build time for the node ("World", 0); an
`Execute` that returns records exactly one graph dispatch, and the module keeps
the index. -/
theorem graph_dispatch_single_empty_record (dev : Device) (fw : Framework)
    (self m : WorkGraphRenderModule) (frames : List FrameInput)
    (h : (InitWorkGraphProgram dev self).result = .ok m) :
    m.m_WorkGraphEntryPointIndex
        = dev.GetEntrypointIndex m.m_pWorkGraphStateObject
            (dev.GetWorkGraphIndex m.m_pWorkGraphStateObject WorkGraphProgramName) ("World", 0)
      ∧ ∀ r ∈ ExecuteFrames fw m frames,
          (∀ desc ∈ dispatchGraphDescs r.commands,
              desc.Mode = .NODE_CPU_INPUT
                ∧ desc.NodeCPUInput.NumRecords = 1
                ∧ desc.NodeCPUInput.RecordStrideInBytes = 0
                ∧ desc.NodeCPUInput.pRecords = none
                ∧ desc.NodeCPUInput.EntrypointIndex
                    = dev.GetEntrypointIndex m.m_pWorkGraphStateObject
                        (dev.GetWorkGraphIndex m.m_pWorkGraphStateObject WorkGraphProgramName)
                        ("World", 0))
            ∧ r.module.m_WorkGraphEntryPointIndex = m.m_WorkGraphEntryPointIndex
            ∧ (r.failure = none → (dispatchGraphDescs r.commands).length = 1) := by
  obtain ⟨t, trace, hfin, -, -, -⟩ := InitWorkGraphProgram_ok dev self m h
  obtain ⟨hso, -, -, -, -, -, hentry⟩ := finishProgram_ok dev t m trace hfin
  have hidx : m.m_WorkGraphEntryPointIndex
      = dev.GetEntrypointIndex m.m_pWorkGraphStateObject
          (dev.GetWorkGraphIndex m.m_pWorkGraphStateObject WorkGraphProgramName) ("World", 0) := by
    rw [hentry, hso]
  refine ⟨hidx, fun r hr => ?_⟩
  obtain ⟨h1, h2, h3⟩ := ExecuteFrames_dispatchGraph fw frames m r hr
  refine ⟨fun desc hd => ?_, h2, h3⟩
  rw [h1 desc hd, ← hidx]
  exact ⟨rfl, rfl, rfl, rfl, rfl⟩

/-- C14, on the sample device and two sample frames. -/
theorem graph_dispatch_single_empty_record_witness :
    (InitWorkGraphProgram sampleDevice sampleModule).result = .ok sampleProgram
      ∧ sampleProgram.m_WorkGraphEntryPointIndex = 2
      ∧ (ExecuteFrames sampleFramework sampleProgram [sampleFrame, sampleFrame]).map
          (fun r => dispatchGraphDescs r.commands)
        = [[⟨.NODE_CPU_INPUT, ⟨2, 1, none, 0⟩⟩], [⟨.NODE_CPU_INPUT, ⟨2, 1, none, 0⟩⟩]] :=
  ⟨rfl,
    (graph_dispatch_single_empty_record sampleDevice sampleFramework sampleModule sampleProgram
      [sampleFrame, sampleFrame] rfl).1,
    by decide⟩

/-! ## The selected resolution -/

/-- C18. `Execute` selects the display pair exactly when the upscaler state is
None or PostUpscale, and the render pair for the other state; the viewport has
the selected width and height, and when `Execute` returns, its one shading
dispatch has the group counts of that same width and height. -/
theorem selected_resolution_used_twice (fw : Framework) (self : WorkGraphRenderModule)
    (frame : FrameInput) :
    (selectResolution frame.upscaleState frame.resInfo
        = if frame.upscaleState = .None ∨ frame.upscaleState = .PostUpscale then
            (frame.resInfo.DisplayWidth, frame.resInfo.DisplayHeight)
          else (frame.resInfo.RenderWidth, frame.resInfo.RenderHeight))
      ∧ selectResolution .None frame.resInfo
          = (frame.resInfo.DisplayWidth, frame.resInfo.DisplayHeight)
      ∧ selectResolution .PostUpscale frame.resInfo
          = (frame.resInfo.DisplayWidth, frame.resInfo.DisplayHeight)
      ∧ selectResolution .PreUpscale frame.resInfo
          = (frame.resInfo.RenderWidth, frame.resInfo.RenderHeight)
      ∧ viewportSizes (Execute fw self frame).commands
          = [selectResolution frame.upscaleState frame.resInfo]
      ∧ ((Execute fw self frame).failure = none →
          dispatches (Execute fw self frame).commands
            = [(DivideRoundingUp (selectResolution frame.upscaleState frame.resInfo).1
                  s_shadingThreadGroupSizeX,
                DivideRoundingUp (selectResolution frame.upscaleState frame.resInfo).2
                  s_shadingThreadGroupSizeY, 1)]) :=
  ⟨rfl, rfl, rfl, rfl, Execute_viewportSizes fw self frame, Execute_dispatches fw self frame⟩

/-- C18, at the sample frame with the upscaler state PostUpscale. -/
theorem selected_resolution_used_twice_witness :
    (Execute sampleFramework sampleModule { sampleFrame with upscaleState := .PostUpscale }).failure
        = none
      ∧ viewportSizes
          (Execute sampleFramework sampleModule
            { sampleFrame with upscaleState := .PostUpscale }).commands = [(1920, 1080)]
      ∧ dispatches
          (Execute sampleFramework sampleModule
            { sampleFrame with upscaleState := .PostUpscale }).commands
          = [(DivideRoundingUp 1920 8, DivideRoundingUp 1080 8, 1)] :=
  ⟨by decide, by decide,
    (selected_resolution_used_twice sampleFramework sampleModule
      { sampleFrame with upscaleState := .PostUpscale }).2.2.2.2.2 (by decide)⟩


/-! ## Order of the recorded commands -/

/-- C16. Every `Execute` records the four forward G-buffer barriers first. In
an `Execute` that returns, the commands are: the forward barriers; then
commands without a barrier or a compute dispatch, among which the three color
clears, the depth clear, `BeginRaster`, the graph dispatch and `EndRaster`
come in this order, `EndRaster` last; then the four reverse barriers; then the
shading pass, which starts with the barrier on the shading output, holds the one
compute dispatch and no clear, `BeginRaster`, graph dispatch or `EndRaster`. -/
theorem gbuffer_writes_inside_barrier_bracket (fw : Framework) (self : WorkGraphRenderModule)
    (frame : FrameInput) :
    (∃ rest, (Execute fw self frame).commands
        = Command.ResourceBarrier 4 (forwardBarriers fw self) :: rest)
      ∧ ((Execute fw self frame).failure = none →
          ∃ (inside after : List Command) (graph : D3D12_DISPATCH_GRAPH_DESC) (gx gy : Nat),
            (Execute fw self frame).commands
                = Command.ResourceBarrier 4 (forwardBarriers fw self) :: inside
                    ++ Command.ResourceBarrier 4 ((forwardBarriers fw self).map Barrier.swapStates)
                    :: after
              ∧ inside.filter Command.writesGBuffer
                  = [ Command.ClearRenderTarget (fw.GetResourceView self.m_pGBufferRasterViews.v0)
                        [0, 0, 0, 0],
                      Command.ClearRenderTarget (fw.GetResourceView self.m_pGBufferRasterViews.v1)
                        [0, 0, 0, 0],
                      Command.ClearRenderTarget (fw.GetResourceView self.m_pGBufferRasterViews.v2)
                        [0, 0, 0, 0],
                      Command.ClearDepthStencil (fw.GetResourceView self.m_pGBufferDepthRasterView) 0,
                      Command.BeginRaster 3 self.m_pGBufferRasterViews.toList
                        self.m_pGBufferDepthRasterView,
                      Command.DispatchGraph graph,
                      Command.EndRaster ]
              ∧ inside.getLast? = some Command.EndRaster
              ∧ (∀ c ∈ inside, c.isDispatch = false ∧ c.isResourceBarrier = false)
              ∧ after.head?
                  = some (Command.ResourceBarrier 1
                      [⟨fw.GetResource self.m_pShadingOutput, .shaderRead, .UnorderedAccess⟩])
              ∧ after.filter Command.isDispatch = [Command.Dispatch gx gy 1]
              ∧ (∀ c ∈ after, c.writesGBuffer = false)) := by
  constructor
  · cases h : FAILED frame.queryCommandList10
    · obtain ⟨t, ht, hex⟩ := Execute_of_succeeded fw self frame h
      rw [hex]
      exact ⟨_, rfl⟩
    · obtain ⟨t, ht, hex⟩ := Execute_of_failed fw self frame h
      rw [hex]
      exact ⟨_, rfl⟩
  · intro h
    obtain ⟨t, ht, hex⟩ :=
      Execute_of_succeeded fw self frame ((Execute_failure_eq_none_iff fw self frame).mp h)
    rw [hex]
    refine ⟨rasterSetupCommands fw t self.m_shaderTime frame
        (selectResolution frame.upscaleState frame.resInfo).1
        (selectResolution frame.upscaleState frame.resInfo).2
        ++ [Command.SetProgram self.m_WorkGraphProgramDesc,
            Command.DispatchGraph (dispatchDesc self), Command.EndRaster],
      shadingCommands fw self frame (selectResolution frame.upscaleState frame.resInfo).1
        (selectResolution frame.upscaleState frame.resInfo).2,
      dispatchDesc self,
      DivideRoundingUp (selectResolution frame.upscaleState frame.resInfo).1 s_shadingThreadGroupSizeX,
      DivideRoundingUp (selectResolution frame.upscaleState frame.resInfo).2 s_shadingThreadGroupSizeY,
      ?_, ?_, ?_, ?_, ?_, ?_, ?_⟩
    · simp
    · subst ht
      simp [rasterSetupCommands, RasterViews.toList, Command.writesGBuffer]
    · simp
    · intro c hc
      simp only [rasterSetupCommands, RasterViews.toList, List.map_cons, List.map_nil,
        List.cons_append, List.nil_append, List.mem_cons, List.mem_append, List.mem_singleton,
        List.not_mem_nil, or_false] at hc
      rcases hc with rfl | rfl | rfl | rfl | rfl | rfl | rfl | rfl | rfl | rfl | rfl <;>
        exact ⟨rfl, rfl⟩
    · rfl
    · rfl
    · intro c hc
      simp only [shadingCommands, List.mem_cons, List.mem_singleton, List.not_mem_nil,
        or_false] at hc
      rcases hc with rfl | rfl | rfl | rfl | rfl | rfl | rfl <;> rfl

/-- C16, at the sample frame. -/
theorem gbuffer_writes_inside_barrier_bracket_witness :
    (Execute sampleFramework sampleModule sampleFrame).failure = none
      ∧ ∃ rest, (Execute sampleFramework sampleModule sampleFrame).commands
          = Command.ResourceBarrier 4 (forwardBarriers sampleFramework sampleModule) :: rest :=
  ⟨by decide, (gbuffer_writes_inside_barrier_bracket sampleFramework sampleModule sampleFrame).1⟩


/-! ## Tracked resource states -/

theorem trackCommands_append (cs₁ cs₂ : List Command) :
    ∀ states : ResourceStates,
      trackCommands states (cs₁ ++ cs₂)
        = (trackCommands states cs₁).bind (fun s => trackCommands s cs₂) := by
  induction cs₁ with
  | nil => intro states; rfl
  | cons c cs ih =>
    intro states
    cases c with
    | ResourceBarrier n bs =>
      simp only [List.cons_append, trackCommands]
      cases applyBarriers states bs with
      | none => rfl
      | some s => exact ih s
    | _ => simp only [List.cons_append, trackCommands]; exact ih states

theorem trackCommands_of_no_barrier (cs : List Command)
    (h : ∀ c ∈ cs, c.isResourceBarrier = false) :
    ∀ states : ResourceStates, trackCommands states cs = some states := by
  induction cs with
  | nil => intro states; rfl
  | cons c cs ih =>
    intro states
    have hc := h c (by simp)
    have hcs : ∀ c' ∈ cs, c'.isResourceBarrier = false := fun c' hc' => h c' (by simp [hc'])
    cases c with
    | ResourceBarrier n bs => simp [Command.isResourceBarrier] at hc
    | _ => simp only [trackCommands]; exact ih hcs states

theorem applyBarriers_cons_of_source (states : ResourceStates) (b : Barrier) (bs : List Barrier)
    (h : states b.pResource = b.SourceState) :
    applyBarriers states (b :: bs)
      = applyBarriers (fun r => if r = b.pResource then b.DestState else states r) bs := by
  simp [applyBarriers, applyBarrier, h]

/-- The four forward barriers and then the four reverse barriers, on distinct
resources that are in the shader-read state, all apply and leave the states as
they were. -/
theorem forward_then_reverse_barriers (fw : Framework) (self : WorkGraphRenderModule)
    (states : ResourceStates)
    (hnd : [fw.GetResource self.m_pGBufferColorOutput, fw.GetResource self.m_pGBufferNormalOutput,
            fw.GetResource self.m_pGBufferMotionOutput,
            fw.GetResource self.m_pGBufferDepthOutput].Nodup)
    (hc : states (fw.GetResource self.m_pGBufferColorOutput) = .shaderRead)
    (hn : states (fw.GetResource self.m_pGBufferNormalOutput) = .shaderRead)
    (hm : states (fw.GetResource self.m_pGBufferMotionOutput) = .shaderRead)
    (hd : states (fw.GetResource self.m_pGBufferDepthOutput) = .shaderRead) :
    ∃ writable : ResourceStates,
      applyBarriers states (forwardBarriers fw self) = some writable
        ∧ writable (fw.GetResource self.m_pGBufferColorOutput) = .RenderTargetResource
        ∧ writable (fw.GetResource self.m_pGBufferNormalOutput) = .RenderTargetResource
        ∧ writable (fw.GetResource self.m_pGBufferMotionOutput) = .RenderTargetResource
        ∧ writable (fw.GetResource self.m_pGBufferDepthOutput) = .DepthWrite
        ∧ ∃ readable : ResourceStates,
            applyBarriers writable ((forwardBarriers fw self).map Barrier.swapStates) = some readable
              ∧ ∀ r, readable r = states r := by
  simp only [forwardBarriers, Barrier.Transition, List.map_cons, List.map_nil, Barrier.swapStates]
  generalize fw.GetResource self.m_pGBufferColorOutput = c at hnd hc ⊢
  generalize fw.GetResource self.m_pGBufferNormalOutput = n at hnd hn ⊢
  generalize fw.GetResource self.m_pGBufferMotionOutput = m at hnd hm ⊢
  generalize fw.GetResource self.m_pGBufferDepthOutput = d at hnd hd ⊢
  simp only [List.nodup_cons, List.mem_cons, List.mem_singleton, List.not_mem_nil, not_or,
    or_false, List.nodup_nil, and_true, not_false_eq_true] at hnd
  obtain ⟨⟨hcn, hcm, hcd⟩, ⟨hnm, hnd'⟩, hmd⟩ := hnd
  have hnc := Ne.symm hcn
  have hmc := Ne.symm hcm
  have hdc := Ne.symm hcd
  have hmn := Ne.symm hnm
  have hdn := Ne.symm hnd'
  have hdm := Ne.symm hmd
  simp only [ResourceState.shaderRead] at hc hn hm hd ⊢
  refine ⟨fun r => if r = d then ResourceState.DepthWrite else
      if r = m then ResourceState.RenderTargetResource else
      if r = n then ResourceState.RenderTargetResource else
      if r = c then ResourceState.RenderTargetResource else states r, ?_, ?_, ?_, ?_, ?_,
    fun r => if r = d ∨ r = m ∨ r = n ∨ r = c then
      ResourceState.or ResourceState.NonPixelShaderResource ResourceState.PixelShaderResource
      else states r, ?_, ?_⟩
  · rw [applyBarriers_cons_of_source _ _ _ (by simp [hc]),
      applyBarriers_cons_of_source _ _ _ (by simp [hn, hnc]),
      applyBarriers_cons_of_source _ _ _ (by simp [hm, hmc, hmn]),
      applyBarriers_cons_of_source _ _ _ (by simp [hd, hdc, hdn, hdm])]
    simp only [applyBarriers]
  · simp [hcn, hcm, hcd]
  · simp [hnm, hnd']
  · simp [hmd]
  · simp
  · rw [applyBarriers_cons_of_source _ _ _ (by simp [hcn, hcm, hcd]),
      applyBarriers_cons_of_source _ _ _ (by simp [hnm, hnd', hnc]),
      applyBarriers_cons_of_source _ _ _ (by simp [hmd, hmc, hmn]),
      applyBarriers_cons_of_source _ _ _ (by simp [hdc, hdn, hdm])]
    simp only [applyBarriers, Option.some.injEq]
    funext r
    by_cases h1 : r = d
    · subst h1; simp
    · by_cases h2 : r = m
      · subst h2; simp [h1]
      · by_cases h3 : r = n
        · subst h3; simp [h1, h2]
        · by_cases h4 : r = c
          · subst h4; simp [h1, h2, h3]
          · simp [h1, h2, h3, h4]
  · intro r
    by_cases h1 : r = d
    · subst h1; simp [hd]
    · by_cases h2 : r = m
      · subst h2; simp [hm]
      · by_cases h3 : r = n
        · subst h3; simp [hn]
        · by_cases h4 : r = c
          · subst h4; simp [hc]
          · simp [h1, h2, h3, h4]

theorem trackCommands_barrier (states : ResourceStates) (n : Nat) (bs : List Barrier)
    (cs : List Command) (s : ResourceStates) (h : applyBarriers states bs = some s) :
    trackCommands states (Command.ResourceBarrier n bs :: cs) = trackCommands s cs := by
  simp only [trackCommands, h]

theorem rasterSetupCommands_no_barrier (fw : Framework) (self : WorkGraphRenderModule)
    (previousShaderTime : Nat) (frame : FrameInput) (width height : Nat) :
    ∀ c ∈ rasterSetupCommands fw self previousShaderTime frame width height,
      c.isResourceBarrier = false := by
  intro c hc
  simp only [rasterSetupCommands, RasterViews.toList, List.map_cons, List.map_nil,
    List.cons_append, List.nil_append, List.mem_cons, List.mem_singleton, List.not_mem_nil,
    or_false] at hc
  rcases hc with rfl | rfl | rfl | rfl | rfl | rfl | rfl | rfl <;> rfl

/-- The shading pass on a shading output in the shader-read state: both of its
barriers apply and every resource is left in the state it had. -/
theorem shadingCommands_track (fw : Framework) (self : WorkGraphRenderModule) (frame : FrameInput)
    (width height : Nat) (states : ResourceStates)
    (hs : states (fw.GetResource self.m_pShadingOutput) = .shaderRead) :
    ∃ final : ResourceStates,
      trackCommands states (shadingCommands fw self frame width height) = some final
        ∧ ∀ r, final r = states r := by
  simp only [ResourceState.shaderRead] at hs
  refine ⟨fun r => if r = fw.GetResource self.m_pShadingOutput then
      ResourceState.or ResourceState.NonPixelShaderResource ResourceState.PixelShaderResource
      else states r, ?_, ?_⟩
  · simp only [shadingCommands, trackCommands, Barrier.Transition, applyBarriers, applyBarrier,
      hs, if_true, Option.some.injEq]
    funext r
    by_cases h : r = fw.GetResource self.m_pShadingOutput <;> simp [h]
  · intro r
    by_cases h : r = fw.GetResource self.m_pShadingOutput
    · subst h; simp [hs]
    · simp [h]

/-- C17. Tracking the state of every resource through the barriers that
`Execute` records, from states in which the four (distinct) G-buffer targets and
the shading output are in the shader-read state: every barrier finds its
resource in the source state it names, so the tracking never fails, also in an
`Execute` that ends at the failed interface query; and after an `Execute` that
returns every resource is in the state it started in, so the five resources are
in the shader-read state again. -/
theorem execute_preserves_shader_read (fw : Framework) (self : WorkGraphRenderModule)
    (frame : FrameInput) (states : ResourceStates)
    (hnd : [fw.GetResource self.m_pGBufferColorOutput, fw.GetResource self.m_pGBufferNormalOutput,
            fw.GetResource self.m_pGBufferMotionOutput,
            fw.GetResource self.m_pGBufferDepthOutput].Nodup)
    (hc : states (fw.GetResource self.m_pGBufferColorOutput) = .shaderRead)
    (hn : states (fw.GetResource self.m_pGBufferNormalOutput) = .shaderRead)
    (hm : states (fw.GetResource self.m_pGBufferMotionOutput) = .shaderRead)
    (hd : states (fw.GetResource self.m_pGBufferDepthOutput) = .shaderRead)
    (hs : states (fw.GetResource self.m_pShadingOutput) = .shaderRead) :
    ∃ final : ResourceStates,
      trackCommands states (Execute fw self frame).commands = some final
        ∧ ((Execute fw self frame).failure = none →
            (∀ r, final r = states r)
              ∧ final (fw.GetResource self.m_pGBufferColorOutput)
                  = .or .NonPixelShaderResource .PixelShaderResource
              ∧ final (fw.GetResource self.m_pGBufferNormalOutput)
                  = .or .NonPixelShaderResource .PixelShaderResource
              ∧ final (fw.GetResource self.m_pGBufferMotionOutput)
                  = .or .NonPixelShaderResource .PixelShaderResource
              ∧ final (fw.GetResource self.m_pGBufferDepthOutput)
                  = .or .NonPixelShaderResource .PixelShaderResource
              ∧ final (fw.GetResource self.m_pShadingOutput)
                  = .or .NonPixelShaderResource .PixelShaderResource) := by
  obtain ⟨writable, hfwd, -, -, -, -, readable, hrev, hsame⟩ :=
    forward_then_reverse_barriers fw self states hnd hc hn hm hd
  cases h : FAILED frame.queryCommandList10
  · obtain ⟨t, -, hex⟩ := Execute_of_succeeded fw self frame h
    obtain ⟨final, hshade, hfinal⟩ :=
      shadingCommands_track fw self frame (selectResolution frame.upscaleState frame.resInfo).1
        (selectResolution frame.upscaleState frame.resInfo).2 readable
        (by rw [hsame]; exact hs)
    have hinside : ∀ c ∈ rasterSetupCommands fw t self.m_shaderTime frame
          (selectResolution frame.upscaleState frame.resInfo).1
          (selectResolution frame.upscaleState frame.resInfo).2
          ++ [Command.SetProgram self.m_WorkGraphProgramDesc,
              Command.DispatchGraph (dispatchDesc self)], c.isResourceBarrier = false := by
      intro c hc'
      rcases List.mem_append.mp hc' with hc' | hc'
      · exact rasterSetupCommands_no_barrier _ _ _ _ _ _ c hc'
      · simp only [List.mem_cons, List.mem_singleton, List.not_mem_nil, or_false] at hc'
        rcases hc' with rfl | rfl <;> rfl
    have hall : ∀ r, final r = states r := fun r => by rw [hfinal, hsame]
    refine ⟨final, ?_, fun _ => ⟨hall, ?_, ?_, ?_, ?_, ?_⟩⟩
    · rw [hex]
      show trackCommands states (Command.ResourceBarrier 4 (forwardBarriers fw self)
        :: ((rasterSetupCommands fw t self.m_shaderTime frame
              (selectResolution frame.upscaleState frame.resInfo).1
              (selectResolution frame.upscaleState frame.resInfo).2
              ++ [Command.SetProgram self.m_WorkGraphProgramDesc,
                  Command.DispatchGraph (dispatchDesc self)])
            ++ Command.EndRaster
              :: Command.ResourceBarrier 4 ((forwardBarriers fw self).map Barrier.swapStates)
              :: shadingCommands fw self frame
                  (selectResolution frame.upscaleState frame.resInfo).1
                  (selectResolution frame.upscaleState frame.resInfo).2)) = some final
      rw [trackCommands_barrier _ _ _ _ _ hfwd, trackCommands_append,
        trackCommands_of_no_barrier _ hinside]
      show trackCommands writable
        (Command.ResourceBarrier 4 ((forwardBarriers fw self).map Barrier.swapStates)
          :: shadingCommands fw self frame
              (selectResolution frame.upscaleState frame.resInfo).1
              (selectResolution frame.upscaleState frame.resInfo).2) = some final
      rw [trackCommands_barrier _ _ _ _ _ hrev]
      exact hshade
    · rw [hall, hc]; rfl
    · rw [hall, hn]; rfl
    · rw [hall, hm]; rfl
    · rw [hall, hd]; rfl
    · rw [hall, hs]; rfl
  · obtain ⟨t, -, hex⟩ := Execute_of_failed fw self frame h
    refine ⟨writable, ?_, ?_⟩
    · rw [hex]
      show trackCommands states (Command.ResourceBarrier 4 (forwardBarriers fw self)
        :: rasterSetupCommands fw t self.m_shaderTime frame
              (selectResolution frame.upscaleState frame.resInfo).1
              (selectResolution frame.upscaleState frame.resInfo).2) = some writable
      rw [trackCommands_barrier _ _ _ _ _ hfwd]
      exact trackCommands_of_no_barrier _ (rasterSetupCommands_no_barrier _ _ _ _ _ _) _
    · intro hf
      rw [hex] at hf
      simp at hf

/-- C17, at the sample frame on a module with four distinct G-buffer textures,
every resource in the shader-read state. -/
theorem execute_preserves_shader_read_witness :
    ∃ final : ResourceStates,
      trackCommands allShaderRead (Execute sampleFramework sampleModule sampleFrame).commands
          = some final
        ∧ ((Execute sampleFramework sampleModule sampleFrame).failure = none →
            (∀ r, final r = allShaderRead r)
              ∧ final (sampleFramework.GetResource sampleModule.m_pGBufferColorOutput)
                  = .or .NonPixelShaderResource .PixelShaderResource
              ∧ final (sampleFramework.GetResource sampleModule.m_pGBufferNormalOutput)
                  = .or .NonPixelShaderResource .PixelShaderResource
              ∧ final (sampleFramework.GetResource sampleModule.m_pGBufferMotionOutput)
                  = .or .NonPixelShaderResource .PixelShaderResource
              ∧ final (sampleFramework.GetResource sampleModule.m_pGBufferDepthOutput)
                  = .or .NonPixelShaderResource .PixelShaderResource
              ∧ final (sampleFramework.GetResource sampleModule.m_pShadingOutput)
                  = .or .NonPixelShaderResource .PixelShaderResource) :=
  execute_preserves_shader_read sampleFramework sampleModule sampleFrame allShaderRead
    (by decide) rfl rfl rfl rfl rfl


/-! ## Wind direction in radians -/

/-- The conversion with a constant between 3.141592 and 3.141593 is within
`|degrees| / 180 * 10⁻⁶` of `degrees * π / 180`. -/
theorem DEG_TO_RAD_error (pi degrees : ℚ) (hlo : 3141592 / 1000000 ≤ pi)
    (hhi : pi ≤ 3141593 / 1000000) :
    |((DEG_TO_RAD pi degrees : ℚ) : ℝ) - (degrees : ℝ) * Real.pi / 180|
      ≤ |(degrees : ℝ)| / 180 * (1 / 1000000) := by
  have hlo' : ((3141592 / 1000000 : ℚ) : ℝ) ≤ (pi : ℝ) := Rat.cast_le.mpr hlo
  have hhi' : (pi : ℝ) ≤ ((3141593 / 1000000 : ℚ) : ℝ) := Rat.cast_le.mpr hhi
  push_cast at hlo' hhi'
  have h1 := Real.pi_gt_d6
  have h2 := Real.pi_lt_d6
  have hpi : |(pi : ℝ) - Real.pi| ≤ 1 / 1000000 := by
    rw [abs_le]
    constructor <;> norm_num at h1 h2 hlo' hhi' ⊢ <;> linarith
  have heq : ((DEG_TO_RAD pi degrees : ℚ) : ℝ) - (degrees : ℝ) * Real.pi / 180
      = (degrees : ℝ) / 180 * ((pi : ℝ) - Real.pi) := by
    unfold DEG_TO_RAD
    push_cast
    ring
  rw [heq, abs_mul, abs_div]
  have h180 : |(180 : ℝ)| = 180 := abs_of_pos (by norm_num)
  rw [h180]
  exact mul_le_mul_of_nonneg_left hpi (by positivity)

/-- C12. With the degrees-to-radians macro as the spec words it, for a constant
`pi` that gives π to six decimals, every `Execute` uploads one block of frame
constants whose `WindDirection` is the module's wind direction (the UI value,
in degrees) times `pi / 180`, within `|degrees| / 180 * 10⁻⁶` of the exact
radians; a UI value of 180 gives π within `10⁻⁵`. -/
theorem wind_direction_in_radians (fw : Framework) (self : WorkGraphRenderModule)
    (frame : FrameInput) (pi : ℚ) (hconv : fw.DEG_TO_RAD = DEG_TO_RAD pi)
    (hlo : 3141592 / 1000000 ≤ pi) (hhi : pi ≤ 3141593 / 1000000) :
    ∃ data : WorkGraphCBData,
      frameConstants (Execute fw self frame).commands = [data]
        ∧ data.WindDirection = self.m_WindDirection * pi / 180
        ∧ |((data.WindDirection : ℚ) : ℝ) - (self.m_WindDirection : ℝ) * Real.pi / 180|
            ≤ |(self.m_WindDirection : ℝ)| / 180 * (1 / 1000000)
        ∧ (self.m_WindDirection = 180 → |((data.WindDirection : ℚ) : ℝ) - Real.pi| ≤ 1 / 100000) := by
  refine ⟨_, Execute_frameConstants fw self frame, ?_, ?_, ?_⟩
  · simp only [workGraphData, hconv, DEG_TO_RAD]
  · simp only [workGraphData, hconv]
    exact DEG_TO_RAD_error pi self.m_WindDirection hlo hhi
  · intro h180
    have h := DEG_TO_RAD_error pi self.m_WindDirection hlo hhi
    simp only [workGraphData, hconv]
    rw [h180] at h ⊢
    norm_num at h ⊢
    have habs : |((DEG_TO_RAD pi 180 : ℚ) : ℝ) - Real.pi| ≤ 1 / 1000000 := by
      simpa using h
    linarith

/-- C12, at a wind direction of 180 degrees with the constant 3.14159265. -/
theorem wind_direction_in_radians_witness :
    ∃ data : WorkGraphCBData,
      frameConstants
          (Execute sampleFramework { sampleModule with m_WindDirection := 180 } sampleFrame).commands
          = [data]
        ∧ data.WindDirection = (180 : ℚ) * (314159265 / 100000000) / 180
        ∧ |((data.WindDirection : ℚ) : ℝ) - ((180 : ℚ) : ℝ) * Real.pi / 180|
            ≤ |(((180 : ℚ)) : ℝ)| / 180 * (1 / 1000000)
        ∧ ((180 : ℚ) = 180 → |((data.WindDirection : ℚ) : ℝ) - Real.pi| ≤ 1 / 100000) :=
  wind_direction_in_radians sampleFramework { sampleModule with m_WindDirection := 180 }
    sampleFrame (314159265 / 100000000) rfl (by norm_num) (by norm_num)


/-! ## Wind values under the registered sliders -/

/-- The wind members are within the bounds of their sliders. -/
theorem wind_bounds_after_slider (position : Nat) (value : ℚ) (self : WorkGraphRenderModule)
    (slider : UIFloatSlider) (hget : uiSection.sliders.get? position = some slider)
    (hs : 0 ≤ self.m_WindStrength ∧ self.m_WindStrength ≤ 5 / 2)
    (hd : 0 ≤ self.m_WindDirection ∧ self.m_WindDirection ≤ 360) :
    (0 ≤ (slider.set value self).m_WindStrength ∧ (slider.set value self).m_WindStrength ≤ 5 / 2)
      ∧ (0 ≤ (slider.set value self).m_WindDirection
          ∧ (slider.set value self).m_WindDirection ≤ 360) := by
  match position, hget with
  | 0, hget =>
    simp only [uiSection, List.get?_cons_zero, Option.some.injEq] at hget
    subst hget
    unfold UIFloatSlider.set
    split
    · rename_i hv
      exact ⟨hv, hd⟩
    · exact ⟨hs, hd⟩
  | 1, hget =>
    simp only [uiSection, List.get?_cons_succ, List.get?_cons_zero, Option.some.injEq] at hget
    subst hget
    unfold UIFloatSlider.set
    split
    · rename_i hv
      exact ⟨hs, hv⟩
    · exact ⟨hs, hd⟩
  | n + 2, hget => simp [uiSection] at hget

/-- `Execute` leaves the wind members as they are. -/
theorem WorkGraphRenderModule.Execute_wind (fw : Framework) (self : WorkGraphRenderModule)
    (frame : FrameInput) :
    (Execute fw self frame).module.m_WindStrength = self.m_WindStrength
      ∧ (Execute fw self frame).module.m_WindDirection = self.m_WindDirection := by
  cases h : FAILED frame.queryCommandList10
  · obtain ⟨t, ht, hex⟩ := Execute_of_succeeded fw self frame h
    rw [hex, ht]
    exact ⟨rfl, rfl⟩
  · obtain ⟨t, ht, hex⟩ := Execute_of_failed fw self frame h
    rw [hex, ht]
    exact ⟨rfl, rfl⟩

/-- C13 (as stated, refuted). Moving the wind direction slider to its maximum, 360, before a frame puts
the degree value 360 into that frame: the constants hold the radians of 360,
which no degree value below 360 gives. -/
theorem wind_direction_slider_reaches_360 :
    ∃ r ∈ runUI sampleFramework sampleModule [.moveSlider 1 360, .frame sampleFrame],
      ∃ data ∈ frameConstants r.commands,
        data.WindDirection = sampleFramework.DEG_TO_RAD 360
          ∧ ¬ ∃ degrees : ℚ, 0 ≤ degrees ∧ degrees < 360
              ∧ data.WindDirection = sampleFramework.DEG_TO_RAD degrees := by
  refine ⟨Execute sampleFramework { sampleModule with m_WindDirection := 360 } sampleFrame,
    ?_, ?_⟩
  · simp [runUI, uiSection, UIFloatSlider.set, FloatMember.write]
  · rw [Execute_frameConstants]
    refine ⟨_, List.mem_singleton.mpr rfl, rfl, ?_⟩
    rintro ⟨degrees, -, hlt, heq⟩
    simp only [workGraphData, sampleFramework] at heq
    have : degrees = 360 := by
      field_simp at heq
      linarith
    linarith

/-- C13 as amended. From a module whose wind strength is in [0, 2.5] and whose
wind direction is in [0, 360] (the constructed module has 1 and 0), through
any moves of the two registered sliders and any frames: every `Execute`
uploads exactly one block of frame constants, its wind strength is the module's
and lies in [0, 2.5], and its wind direction is the conversion of the module's
degree value, which lies in [0, 360], both ends included. -/
theorem wind_constants_within_slider_bounds (fw : Framework) (actions : List UIAction) :
    ∀ self : WorkGraphRenderModule,
      0 ≤ self.m_WindStrength ∧ self.m_WindStrength ≤ 5 / 2 →
      0 ≤ self.m_WindDirection ∧ self.m_WindDirection ≤ 360 →
      ∀ r ∈ runUI fw self actions,
        ∃ data degrees,
          frameConstants r.commands = [data]
            ∧ 0 ≤ data.WindStrength ∧ data.WindStrength ≤ 5 / 2
            ∧ 0 ≤ degrees ∧ degrees ≤ 360
            ∧ data.WindDirection = fw.DEG_TO_RAD degrees := by
  induction actions with
  | nil => intro self _ _ r hr; simp [runUI] at hr
  | cons action actions ih =>
    intro self hs hd r hr
    cases action with
    | moveSlider position value =>
      simp only [runUI] at hr
      cases hget : uiSection.sliders.get? position with
      | none =>
        rw [hget] at hr
        exact ih self hs hd r hr
      | some slider =>
        rw [hget] at hr
        obtain ⟨hs', hd'⟩ := wind_bounds_after_slider position value self slider hget hs hd
        exact ih _ hs' hd' r hr
    | frame input =>
      simp only [runUI, List.mem_cons] at hr
      rcases hr with rfl | hr
      · exact ⟨_, self.m_WindDirection, Execute_frameConstants fw self input, hs.1, hs.2,
          hd.1, hd.2, rfl⟩
      · split at hr
        · simp at hr
        · obtain ⟨hws, hwd⟩ := Execute_wind fw self input
          exact ih _ (by rw [hws]; exact hs) (by rw [hwd]; exact hd) r hr

/-- C13 (amended), for both sliders moved to their maximum, a frame, a move out
of range, and a second frame. -/
theorem wind_constants_within_slider_bounds_witness :
    ∃ data degrees,
      frameConstants
          (Execute sampleFramework
            { sampleModule with m_WindStrength := 5 / 2, m_WindDirection := 360 }
            sampleFrame).commands = [data]
        ∧ 0 ≤ data.WindStrength ∧ data.WindStrength ≤ 5 / 2
        ∧ 0 ≤ degrees ∧ degrees ≤ 360
        ∧ data.WindDirection = sampleFramework.DEG_TO_RAD degrees :=
  wind_constants_within_slider_bounds sampleFramework
    [.moveSlider 0 (5 / 2), .moveSlider 1 360, .frame sampleFrame, .moveSlider 1 361,
     .frame sampleFrame]
    sampleModule (by norm_num [sampleModule]) (by norm_num [sampleModule])
    (Execute sampleFramework
      { sampleModule with m_WindStrength := 5 / 2, m_WindDirection := 360 } sampleFrame)
    (by norm_num [runUI, uiSection, UIFloatSlider.set, FloatMember.write])


/-! ## The description handed to `CreateStateObject` -/

theorem stateObjectDescs_append (l₁ l₂ : List InitEvent) :
    stateObjectDescs (l₁ ++ l₂) = stateObjectDescs l₁ ++ stateObjectDescs l₂ := by
  induction l₁ with
  | nil => rfl
  | cons e es ih => cases e <;> simp [stateObjectDescs, ih]

theorem stateObjectDescs_of_not_mem (l : List InitEvent)
    (h : ∀ desc, InitEvent.CreateStateObject desc ∉ l) : stateObjectDescs l = [] := by
  induction l with
  | nil => rfl
  | cons e es ih =>
    have hes : ∀ desc, InitEvent.CreateStateObject desc ∉ es :=
      fun desc hmem => h desc (List.mem_cons_of_mem _ hmem)
    cases e with
    | CreateStateObject desc => exact absurd (List.mem_cons_self _ _) (h desc)
    | _ => simp only [stateObjectDescs]; exact ih hes

theorem stateObjectDescs_map_Release (blobs : List Handle) :
    stateObjectDescs (blobs.map InitEvent.Release) = [] := by
  induction blobs with
  | nil => rfl
  | cons b bs ih => simpa [stateObjectDescs] using ih

/-- A completed `InitWorkGraphProgram` handed exactly one description to
`CreateStateObject`: the one the lambda calls built. -/
theorem WorkGraphRenderModule.InitWorkGraphProgram_stateObjectDescs (dev : Device)
    (self m : WorkGraphRenderModule) (h : (InitWorkGraphProgram dev self).result = .ok m) :
    ∃ b : Builder,
      runSteps dev (initialBuilder dev self) buildSteps = (b, none)
        ∧ dev.CreateStateObject b.stateObjectDesc = .ok m.m_pWorkGraphStateObject
        ∧ stateObjectDescs (InitWorkGraphProgram dev self).trace = [b.stateObjectDesc] := by
  rcases InitWorkGraphProgram_cases dev self with
    ⟨⟨f, hf⟩, -, -⟩ | ⟨htier, ⟨b, f, -, hf, -⟩ | ⟨b, hr, -, -, hf, -⟩
      | ⟨b, so, t, extra, hrun, hcso, hso, -, -, hres, htrace, -, -, -, hextra, -⟩⟩
  · rw [hf] at h; simp at h
  · rw [hf] at h; simp at h
  · rw [hf] at h; simp at h
  · have hfin := h
    rw [hres] at hfin
    have hm := (finishProgram_ok dev t m _ hfin).1
    have hinv := runSteps_invariant dev buildSteps _ (initialBuilder_invariant dev self)
    rw [hrun] at hinv
    rw [hso] at hm
    refine ⟨b, hrun, by rw [hm]; exact hcso, ?_⟩
    rw [htrace]
    simp only [stateObjectDescs_append, stateObjectDescs_map_Release,
      stateObjectDescs_of_not_mem _ hinv.2.2.2, stateObjectDescs_of_not_mem _ hextra,
      stateObjectDescs, List.nil_append, List.append_nil]

theorem compiledBlob_of_compiles (dev : Device) (request : ShaderRequest)
    (h : Compiles dev request) :
    (CompileShader (dev.dxc request) request).result = .ok (some (compiledBlob dev request)) := by
  obtain ⟨blob, hblob⟩ := h
  simp [compiledBlob, hblob]

/-- The description a completed `InitWorkGraphProgram` hands to
`CreateStateObject`: the eight subobjects created first, then one subobject for
every lambda call, in call order, the library of each compiled shader and the
generic program of each mesh node. -/
theorem WorkGraphRenderModule.InitWorkGraphProgram_description (dev : Device)
    (self m : WorkGraphRenderModule) (h : (InitWorkGraphProgram dev self).result = .ok m) :
    (∀ request ∈ shaderRequests,
        (CompileShader (dev.dxc request) request).result = .ok (some (compiledBlob dev request)))
      ∧ stateObjectDescs (InitWorkGraphProgram dev self).trace
        = [ initialSubobjects dev
              { self with
                m_pWorkGraphRootSignature :=
                  dev.CreateRootSignature "MeshNodeSample_WorkGraphRootSignature"
                    { constantBufferViews := [(0, ShaderBindStage.Compute, 1)],
                      m_PipelineType := .Graphics } }
            ++ [ .dxilLibrary (compiledBlob dev ⟨"world.hlsl", "lib_6_9", none⟩),
            .dxilLibrary (compiledBlob dev ⟨"biomes.hlsl", "lib_6_9", none⟩),
            .dxilLibrary (compiledBlob dev ⟨"tree.hlsl", "lib_6_9", none⟩),
            .dxilLibrary (compiledBlob dev ⟨"rock.hlsl", "lib_6_9", none⟩),
            .dxilLibrary (compiledBlob dev ⟨"terrainrenderer.hlsl", "lib_6_9", none⟩),
            .dxilLibrary (compiledBlob dev ⟨"terrainrenderer.hlsl", "ps_6_9", some "TerrainPixelShader"⟩),
            .genericProgram ["TerrainMeshShader", "TerrainPixelShader"]
              [rasterizerBackfaceCullingSubobject, primitiveTopologySubobject,
               depthStencilFormatSubobject, renderTargetFormatSubobject],
            .dxilLibrary (compiledBlob dev ⟨"splinerenderer.hlsl", "lib_6_9", none⟩),
            .dxilLibrary (compiledBlob dev ⟨"splinerenderer.hlsl", "ps_6_9", some "SplinePixelShader"⟩),
            .genericProgram ["SplineMeshShader", "SplinePixelShader"]
              [rasterizerBackfaceCullingSubobject, primitiveTopologySubobject,
               depthStencilFormatSubobject, renderTargetFormatSubobject],
            .dxilLibrary (compiledBlob dev ⟨"densegrassmeshshader.hlsl", "lib_6_9", none⟩),
            .dxilLibrary (compiledBlob dev ⟨"sparsegrassmeshshader.hlsl", "lib_6_9", none⟩),
            .dxilLibrary (compiledBlob dev ⟨"grasspixelshader.hlsl", "ps_6_9", some "GrassPixelShader"⟩),
            .genericProgram ["DenseGrassMeshShader", "GrassPixelShader"]
              [rasterizerNoCullingSubobject, primitiveTopologySubobject,
               depthStencilFormatSubobject, renderTargetFormatSubobject],
            .genericProgram ["SparseGrassMeshShader", "GrassPixelShader"]
              [rasterizerNoCullingSubobject, primitiveTopologySubobject,
               depthStencilFormatSubobject, renderTargetFormatSubobject],
            .dxilLibrary (compiledBlob dev ⟨"beemeshshader.hlsl", "lib_6_9", none⟩),
            .dxilLibrary (compiledBlob dev ⟨"butterflymeshshader.hlsl", "lib_6_9", none⟩),
            .dxilLibrary (compiledBlob dev ⟨"flowermeshshader.hlsl", "lib_6_9", none⟩),
            .dxilLibrary (compiledBlob dev ⟨"mushroommeshshader.hlsl", "lib_6_9", none⟩),
            .dxilLibrary (compiledBlob dev ⟨"insectpixelshader.hlsl", "ps_6_9", some "InsectPixelShader"⟩),
            .genericProgram ["BeeMeshShader", "InsectPixelShader"]
              [rasterizerNoCullingSubobject, primitiveTopologySubobject,
               depthStencilFormatSubobject, renderTargetFormatSubobject],
            .genericProgram ["ButterflyMeshShader", "InsectPixelShader"]
              [rasterizerNoCullingSubobject, primitiveTopologySubobject,
               depthStencilFormatSubobject, renderTargetFormatSubobject],
            .genericProgram ["FlowerMeshShader", "InsectPixelShader"]
              [rasterizerNoCullingSubobject, primitiveTopologySubobject,
               depthStencilFormatSubobject, renderTargetFormatSubobject],
            .genericProgram ["SparseFlowerMeshShader", "InsectPixelShader"]
              [rasterizerNoCullingSubobject, primitiveTopologySubobject,
               depthStencilFormatSubobject, renderTargetFormatSubobject],
            .genericProgram ["MushroomMeshShader", "InsectPixelShader"]
              [rasterizerNoCullingSubobject, primitiveTopologySubobject,
               depthStencilFormatSubobject, renderTargetFormatSubobject] ] ] := by
  obtain ⟨b, hrun, -, hdescs⟩ := InitWorkGraphProgram_stateObjectDescs dev self m h
  have hcomp : ∀ request ∈ shaderRequests,
      (CompileShader (dev.dxc request) request).result
        = .ok (some (compiledBlob dev request)) := by
    intro request hr
    apply compiledBlob_of_compiles
    exact (runSteps_none_iff dev buildSteps (initialBuilder dev self)).mp (by rw [hrun]) request hr
  refine ⟨hcomp, ?_⟩
  rw [hdescs]
  have h1 := hcomp ⟨"world.hlsl", "lib_6_9", none⟩ (by decide)
  have h2 := hcomp ⟨"biomes.hlsl", "lib_6_9", none⟩ (by decide)
  have h3 := hcomp ⟨"tree.hlsl", "lib_6_9", none⟩ (by decide)
  have h4 := hcomp ⟨"rock.hlsl", "lib_6_9", none⟩ (by decide)
  have h5 := hcomp ⟨"terrainrenderer.hlsl", "lib_6_9", none⟩ (by decide)
  have h6 := hcomp ⟨"terrainrenderer.hlsl", "ps_6_9", some "TerrainPixelShader"⟩ (by decide)
  have h7 := hcomp ⟨"splinerenderer.hlsl", "lib_6_9", none⟩ (by decide)
  have h8 := hcomp ⟨"splinerenderer.hlsl", "ps_6_9", some "SplinePixelShader"⟩ (by decide)
  have h9 := hcomp ⟨"densegrassmeshshader.hlsl", "lib_6_9", none⟩ (by decide)
  have h10 := hcomp ⟨"sparsegrassmeshshader.hlsl", "lib_6_9", none⟩ (by decide)
  have h11 := hcomp ⟨"grasspixelshader.hlsl", "ps_6_9", some "GrassPixelShader"⟩ (by decide)
  have h12 := hcomp ⟨"beemeshshader.hlsl", "lib_6_9", none⟩ (by decide)
  have h13 := hcomp ⟨"butterflymeshshader.hlsl", "lib_6_9", none⟩ (by decide)
  have h14 := hcomp ⟨"flowermeshshader.hlsl", "lib_6_9", none⟩ (by decide)
  have h15 := hcomp ⟨"mushroommeshshader.hlsl", "lib_6_9", none⟩ (by decide)
  have h16 := hcomp ⟨"insectpixelshader.hlsl", "ps_6_9", some "InsectPixelShader"⟩ (by decide)
  have hb : b = (runSteps dev (initialBuilder dev self) buildSteps).1 := by rw [hrun]
  rw [hb]
  simp only [buildSteps, runSteps, applyStep, AddShaderLibrary, AddPixelShader, AddMeshNode,
    addCompiledShader, initialBuilder, h1, h2, h3, h4, h5, h6, h7, h8, h9, h10, h11, h12, h13,
    h14, h15, h16, List.append_assoc, List.cons_append, List.nil_append, if_true, if_false,
    Bool.false_eq_true]


/-! ## Mesh nodes -/

/-- C19. In the description a completed `InitWorkGraphProgram` hands to
`CreateStateObject` there are nine generic programs (mesh nodes). Each has
exactly two exports, its mesh shader and one pixel shader; that pixel shader is
the entry point of an `AddPixelShader` call (terrain, spline, grass or insect
pixel shader) whose shader was compiled and whose library stands in the
description before the generic program; and the nine mesh shader exports are
distinct. -/
theorem mesh_nodes_pair_mesh_and_pixel_shader (dev : Device) (self m : WorkGraphRenderModule)
    (h : (InitWorkGraphProgram dev self).result = .ok m) :
    ∃ desc : List Subobject,
      stateObjectDescs (InitWorkGraphProgram dev self).trace = [desc]
        ∧ (genericPrograms desc).map Prod.fst
            = [ ["TerrainMeshShader", "TerrainPixelShader"],
                ["SplineMeshShader", "SplinePixelShader"],
                ["DenseGrassMeshShader", "GrassPixelShader"],
                ["SparseGrassMeshShader", "GrassPixelShader"],
                ["BeeMeshShader", "InsectPixelShader"],
                ["ButterflyMeshShader", "InsectPixelShader"],
                ["FlowerMeshShader", "InsectPixelShader"],
                ["SparseFlowerMeshShader", "InsectPixelShader"],
                ["MushroomMeshShader", "InsectPixelShader"] ]
        ∧ (∀ (j : Nat) (exports : List String) (refs : List Nat),
            desc.get? j = some (.genericProgram exports refs) →
            ∃ (mesh pixel file : String) (k : Nat),
              exports = [mesh, pixel]
                ∧ pixel ∈ ["TerrainPixelShader", "SplinePixelShader", "GrassPixelShader",
                    "InsectPixelShader"]
                ∧ BuildStep.AddPixelShader file pixel ∈ buildSteps
                ∧ (CompileShader (dev.dxc ⟨file, "ps_6_9", some pixel⟩)
                      ⟨file, "ps_6_9", some pixel⟩).result
                    = .ok (some (compiledBlob dev ⟨file, "ps_6_9", some pixel⟩))
                ∧ k < j
                ∧ desc.get? k
                    = some (.dxilLibrary (compiledBlob dev ⟨file, "ps_6_9", some pixel⟩)))
        ∧ (genericPrograms desc).length = 9
        ∧ ((genericPrograms desc).map (fun program => program.1.head?)).Nodup := by
  obtain ⟨hcomp, hdesc⟩ := InitWorkGraphProgram_description dev self m h
  have h6 := hcomp ⟨"terrainrenderer.hlsl", "ps_6_9", some "TerrainPixelShader"⟩ (by decide)
  have h8 := hcomp ⟨"splinerenderer.hlsl", "ps_6_9", some "SplinePixelShader"⟩ (by decide)
  have h11 := hcomp ⟨"grasspixelshader.hlsl", "ps_6_9", some "GrassPixelShader"⟩ (by decide)
  have h16 := hcomp ⟨"insectpixelshader.hlsl", "ps_6_9", some "InsectPixelShader"⟩ (by decide)
  refine ⟨_, hdesc, ?_, ?_, ?_, ?_⟩
  · simp [initialSubobjects, genericPrograms]
  · intro j exports refs hj
    have hlt : j < 33 := by
      by_contra hge
      rw [List.get?_eq_none.mpr (by simp [initialSubobjects]; omega)] at hj
      simp at hj
    interval_cases j <;> simp [initialSubobjects] at hj <;> obtain ⟨rfl, rfl⟩ := hj <;>
      first
      | exact ⟨_, _, "terrainrenderer.hlsl", 13, rfl, by decide, by decide, h6, by decide, rfl⟩
      | exact ⟨_, _, "splinerenderer.hlsl", 16, rfl, by decide, by decide, h8, by decide, rfl⟩
      | exact ⟨_, _, "grasspixelshader.hlsl", 20, rfl, by decide, by decide, h11, by decide, rfl⟩
      | exact ⟨_, _, "insectpixelshader.hlsl", 27, rfl, by decide, by decide, h16, by decide, rfl⟩
  · simp [initialSubobjects, genericPrograms]
  · simp [initialSubobjects, genericPrograms]

/-- C19, on the sample device. -/
theorem mesh_nodes_pair_mesh_and_pixel_shader_witness :
    (InitWorkGraphProgram sampleDevice sampleModule).result = .ok sampleProgram
      ∧ ∃ desc : List Subobject,
          stateObjectDescs (InitWorkGraphProgram sampleDevice sampleModule).trace = [desc]
            ∧ (genericPrograms desc).length = 9
            ∧ ((genericPrograms desc).map (fun program => program.1.head?)).Nodup :=
  ⟨rfl,
    match mesh_nodes_pair_mesh_and_pixel_shader sampleDevice sampleModule sampleProgram rfl with
    | ⟨desc, hdesc, _, _, hlength, hnodup⟩ => ⟨desc, hdesc, hlength, hnodup⟩⟩

/-- C20. In the description a completed `InitWorkGraphProgram` hands to
`CreateStateObject`, positions 3 and 4 hold the rasterizer blocks without
culling and with back-face culling, the only two rasterizer blocks, and
positions 5, 6 and 7 the one topology, depth format and render target format
block. Every mesh node refers to exactly four blocks: one of the two
rasterizer blocks, then the blocks at 5, 6 and 7. It refers to the block with
back-face culling exactly when it is the terrain or the spline mesh node, and
to the block without culling exactly when it is one of the other seven. -/
theorem mesh_nodes_reference_culling_block (dev : Device) (self m : WorkGraphRenderModule)
    (h : (InitWorkGraphProgram dev self).result = .ok m) :
    ∃ desc : List Subobject,
      stateObjectDescs (InitWorkGraphProgram dev self).trace = [desc]
        ∧ desc.get? rasterizerNoCullingSubobject = some (.rasterizer true .SOLID .NONE)
        ∧ desc.get? rasterizerBackfaceCullingSubobject = some (.rasterizer true .SOLID .BACK)
        ∧ desc.get? primitiveTopologySubobject = some (.primitiveTopology .TRIANGLE)
        ∧ desc.get? depthStencilFormatSubobject
            = some (.depthStencilFormat (dev.GetDXGIFormat (dev.GetFormat self.m_pGBufferDepthOutput)))
        ∧ desc.get? renderTargetFormatSubobject
            = some (.renderTargetFormats 3
                [ dev.GetDXGIFormat (dev.GetFormat self.m_pGBufferColorOutput),
                  dev.GetDXGIFormat (dev.GetFormat self.m_pGBufferNormalOutput),
                  dev.GetDXGIFormat (dev.GetFormat self.m_pGBufferMotionOutput) ])
        ∧ (∀ (j : Nat) (s : Subobject), desc.get? j = some s →
            ((∃ front fill cull, s = .rasterizer front fill cull) →
                j = rasterizerNoCullingSubobject ∨ j = rasterizerBackfaceCullingSubobject)
              ∧ ((∃ type, s = .primitiveTopology type) → j = primitiveTopologySubobject)
              ∧ ((∃ format, s = .depthStencilFormat format) → j = depthStencilFormatSubobject)
              ∧ ((∃ count formats, s = .renderTargetFormats count formats) →
                  j = renderTargetFormatSubobject))
        ∧ (genericPrograms desc).map (fun program => (program.1.head?, program.2))
            = [ (some "TerrainMeshShader",
                  [rasterizerBackfaceCullingSubobject, primitiveTopologySubobject,
                   depthStencilFormatSubobject, renderTargetFormatSubobject]),
                (some "SplineMeshShader",
                  [rasterizerBackfaceCullingSubobject, primitiveTopologySubobject,
                   depthStencilFormatSubobject, renderTargetFormatSubobject]),
                (some "DenseGrassMeshShader",
                  [rasterizerNoCullingSubobject, primitiveTopologySubobject,
                   depthStencilFormatSubobject, renderTargetFormatSubobject]),
                (some "SparseGrassMeshShader",
                  [rasterizerNoCullingSubobject, primitiveTopologySubobject,
                   depthStencilFormatSubobject, renderTargetFormatSubobject]),
                (some "BeeMeshShader",
                  [rasterizerNoCullingSubobject, primitiveTopologySubobject,
                   depthStencilFormatSubobject, renderTargetFormatSubobject]),
                (some "ButterflyMeshShader",
                  [rasterizerNoCullingSubobject, primitiveTopologySubobject,
                   depthStencilFormatSubobject, renderTargetFormatSubobject]),
                (some "FlowerMeshShader",
                  [rasterizerNoCullingSubobject, primitiveTopologySubobject,
                   depthStencilFormatSubobject, renderTargetFormatSubobject]),
                (some "SparseFlowerMeshShader",
                  [rasterizerNoCullingSubobject, primitiveTopologySubobject,
                   depthStencilFormatSubobject, renderTargetFormatSubobject]),
                (some "MushroomMeshShader",
                  [rasterizerNoCullingSubobject, primitiveTopologySubobject,
                   depthStencilFormatSubobject, renderTargetFormatSubobject]) ]
        ∧ (∀ program ∈ genericPrograms desc,
            (∃ block, program.2 = [block, primitiveTopologySubobject, depthStencilFormatSubobject,
                  renderTargetFormatSubobject]
                ∧ (block = rasterizerBackfaceCullingSubobject ∨ block = rasterizerNoCullingSubobject))
              ∧ (rasterizerBackfaceCullingSubobject ∈ program.2
                  ↔ program.1.head? = some "TerrainMeshShader"
                    ∨ program.1.head? = some "SplineMeshShader")
              ∧ (rasterizerNoCullingSubobject ∈ program.2
                  ↔ program.1.head? ∈ [some "DenseGrassMeshShader", some "SparseGrassMeshShader",
                      some "BeeMeshShader", some "ButterflyMeshShader", some "FlowerMeshShader",
                      some "SparseFlowerMeshShader", some "MushroomMeshShader"])) := by
  obtain ⟨-, hdesc⟩ := InitWorkGraphProgram_description dev self m h
  refine ⟨_, hdesc, rfl, rfl, rfl, rfl, rfl, ?_, ?_, ?_⟩
  · intro j s hj
    have hlt : j < 33 := by
      by_contra hge
      rw [List.get?_eq_none.mpr (by simp [initialSubobjects]; omega)] at hj
      simp at hj
    interval_cases j <;> simp [initialSubobjects] at hj <;> subst hj <;>
      simp [rasterizerNoCullingSubobject, rasterizerBackfaceCullingSubobject,
        primitiveTopologySubobject, depthStencilFormatSubobject, renderTargetFormatSubobject]
  · simp [initialSubobjects, genericPrograms]
  · intro program hp
    simp only [initialSubobjects, genericPrograms, List.cons_append, List.nil_append,
      List.mem_cons, List.mem_singleton, List.not_mem_nil, or_false] at hp
    rcases hp with rfl | rfl | rfl | rfl | rfl | rfl | rfl | rfl | rfl <;>
      refine ⟨⟨_, rfl, by decide⟩, by decide, by decide⟩

/-- C20, on the sample device. -/
theorem mesh_nodes_reference_culling_block_witness :
    (InitWorkGraphProgram sampleDevice sampleModule).result = .ok sampleProgram
      ∧ ∃ desc : List Subobject,
          stateObjectDescs (InitWorkGraphProgram sampleDevice sampleModule).trace = [desc]
            ∧ desc.get? rasterizerNoCullingSubobject = some (.rasterizer true .SOLID .NONE)
            ∧ desc.get? rasterizerBackfaceCullingSubobject = some (.rasterizer true .SOLID .BACK)
            ∧ (genericPrograms desc).map (fun program => program.2)
                = [[4, 5, 6, 7], [4, 5, 6, 7], [3, 5, 6, 7], [3, 5, 6, 7], [3, 5, 6, 7],
                   [3, 5, 6, 7], [3, 5, 6, 7], [3, 5, 6, 7], [3, 5, 6, 7]] :=
  ⟨rfl,
    match mesh_nodes_reference_culling_block sampleDevice sampleModule sampleProgram rfl with
    | ⟨desc, hdesc, hnone, hback, _, _, _, _, hprograms, _⟩ =>
      ⟨desc, hdesc, hnone, hback, by
        have hmap := congrArg (List.map Prod.snd) hprograms
        simpa [List.map_map, Function.comp_def] using hmap⟩⟩


/-! ## Two builds -/

theorem WorkGraphRenderModule.addCompiledShader_filter_workGraphProperty (dev : Device)
    (b : Builder) (request : ShaderRequest) :
    (addCompiledShader dev b request).1.trace.filter InitEvent.isWorkGraphProperty
      = b.trace.filter InitEvent.isWorkGraphProperty := by
  unfold addCompiledShader
  simp only
  split <;> simp [InitEvent.isWorkGraphProperty]

theorem WorkGraphRenderModule.runSteps_filter_workGraphProperty (dev : Device)
    (steps : List BuildStep) :
    ∀ b : Builder,
      (runSteps dev b steps).1.trace.filter InitEvent.isWorkGraphProperty
        = b.trace.filter InitEvent.isWorkGraphProperty := by
  induction steps with
  | nil => intro b; rfl
  | cons step steps ih =>
    intro b
    have hstep : (applyStep dev b step).1.trace.filter InitEvent.isWorkGraphProperty
        = b.trace.filter InitEvent.isWorkGraphProperty := by
      cases step with
      | AddShaderLibrary f => exact addCompiledShader_filter_workGraphProperty dev b _
      | AddPixelShader f e => exact addCompiledShader_filter_workGraphProperty dev b _
      | AddMeshNode mesh pixel cull => rfl
    unfold runSteps
    rcases happ : applyStep dev b step with ⟨b', _ | failure⟩
    · rw [happ] at hstep
      simp only
      rw [ih b', hstep]
    · rw [happ] at hstep
      exact hstep

/-- The calls a completed last part of `InitWorkGraphProgram` adds to the
trace: the record limit, the memory requirements query and, for a positive
size, the creation of the buffer. -/
theorem WorkGraphRenderModule.finishProgram_ok_trace (dev : Device)
    (self m : WorkGraphRenderModule) (trace : List InitEvent)
    (h : (finishProgram dev self trace).result = .ok m) :
    ∃ created : List InitEvent,
      (finishProgram dev self trace).trace
          = trace
            ++ [InitEvent.SetMaximumInputRecords
                  (dev.GetWorkGraphIndex self.m_pWorkGraphStateObject WorkGraphProgramName) 1 1,
                InitEvent.GetWorkGraphMemoryRequirements
                  (dev.GetWorkGraphIndex self.m_pWorkGraphStateObject WorkGraphProgramName)]
            ++ created
        ∧ created.filter InitEvent.isWorkGraphProperty = [] := by
  cases hq1 : CauldronThrowOnFail (dev.queryStateObjectProperties1 self.m_pWorkGraphStateObject) with
  | error failure => simp [finishProgram, hq1] at h
  | ok u1 =>
    cases hq2 : CauldronThrowOnFail (dev.queryWorkGraphProperties1 self.m_pWorkGraphStateObject) with
    | error failure => simp [finishProgram, hq1, hq2] at h
    | ok u2 =>
      by_cases hN : dev.MaxSizeInBytes self.m_pWorkGraphStateObject
          (dev.GetWorkGraphIndex self.m_pWorkGraphStateObject WorkGraphProgramName) > 0
      · refine ⟨[InitEvent.CreateBufferResource
            { Name := "MeshNodeSample_WorkGraphBackingMemory"
              Size := wrap32 (dev.MaxSizeInBytes self.m_pWorkGraphStateObject
                (dev.GetWorkGraphIndex self.m_pWorkGraphStateObject WorkGraphProgramName))
              Stride := 1
              Alignment := D3D12_WORK_GRAPHS_BACKING_MEMORY_ALIGNMENT_IN_BYTES
              Flags := .AllowUnorderedAccess } .UnorderedAccess], ?_, ?_⟩
        · simp [finishProgram, hq1, hq2, hN]
        · simp [InitEvent.isWorkGraphProperty]
      · refine ⟨[], ?_, ?_⟩
        · simp [finishProgram, hq1, hq2, hN]
        · simp

/-- A completed `InitWorkGraphProgram` is its last part run on the module with
the created state object, after the lambda calls, the creation and the
releases. -/
theorem WorkGraphRenderModule.InitWorkGraphProgram_eq_finishProgram (dev : Device)
    (self m : WorkGraphRenderModule) (h : (InitWorkGraphProgram dev self).result = .ok m) :
    ∃ (b : Builder) (t : WorkGraphRenderModule),
      runSteps dev (initialBuilder dev self) buildSteps = (b, none)
        ∧ t.m_pWorkGraphStateObject = m.m_pWorkGraphStateObject
        ∧ InitWorkGraphProgram dev self
            = finishProgram dev t
                (b.trace ++ [InitEvent.CreateStateObject b.stateObjectDesc]
                  ++ (b.compiledShaders.filterMap id).map InitEvent.Release) := by
  have hb : ∀ x, runSteps dev (initialBuilder dev self) buildSteps = x →
      runSteps dev
        { stateObjectDesc := initialSubobjects dev
            { self with
              m_pWorkGraphRootSignature :=
                dev.CreateRootSignature "MeshNodeSample_WorkGraphRootSignature"
                  { constantBufferViews := [(0, ShaderBindStage.Compute, 1)],
                    m_PipelineType := .Graphics }
              m_pWorkGraphParameterSet :=
                dev.CreateParameterSet
                  (dev.CreateRootSignature "MeshNodeSample_WorkGraphRootSignature"
                    { constantBufferViews := [(0, ShaderBindStage.Compute, 1)],
                      m_PipelineType := .Graphics }) }
          compiledShaders := []
          trace := [] } buildSteps = x := fun x hx => hx
  unfold InitWorkGraphProgram CauldronThrowOnFail at h ⊢
  simp only at h ⊢
  cases h9 : FAILED dev.queryDevice9
  · cases hcf : FAILED dev.checkFeatureSupport
    · by_cases htier : dev.WorkGraphsTier < D3D12_WORK_GRAPHS_TIER_1_1
      · simp [h9, hcf, htier, CauldronCritical] at h
      · simp only [h9, hcf, Bool.false_eq_true, if_false, htier] at h ⊢
        rcases hrun : runSteps dev (initialBuilder dev self) buildSteps with ⟨b, _ | failure⟩
        · rw [hb _ hrun] at h ⊢
          simp only at h ⊢
          cases hcso : dev.CreateStateObject b.stateObjectDesc with
          | error hr => rw [hcso] at h; simp at h
          | ok stateObject =>
            rw [hcso] at h
            simp only at h ⊢
            refine ⟨b, _, rfl, ?_, rfl⟩
            exact ((finishProgram_ok dev _ m _ h).1).symm
        · rw [hb _ hrun] at h
          simp at h
    · simp [h9, hcf] at h
  · simp [h9] at h

/-- The calls on the work graph properties in the trace of a completed
`InitWorkGraphProgram`: the record limit, then the memory requirements. -/
theorem WorkGraphRenderModule.InitWorkGraphProgram_workGraphProperty (dev : Device)
    (self m : WorkGraphRenderModule) (h : (InitWorkGraphProgram dev self).result = .ok m) :
    (InitWorkGraphProgram dev self).trace.filter InitEvent.isWorkGraphProperty
      = [InitEvent.SetMaximumInputRecords
            (dev.GetWorkGraphIndex m.m_pWorkGraphStateObject WorkGraphProgramName) 1 1,
          InitEvent.GetWorkGraphMemoryRequirements
            (dev.GetWorkGraphIndex m.m_pWorkGraphStateObject WorkGraphProgramName)] := by
  obtain ⟨b, t, hrun, hso, heq⟩ := InitWorkGraphProgram_eq_finishProgram dev self m h
  rw [heq] at h ⊢
  obtain ⟨created, htrace, hcreated⟩ := finishProgram_ok_trace dev t m _ h
  have hsteps := runSteps_filter_workGraphProperty dev buildSteps (initialBuilder dev self)
  rw [hrun] at hsteps
  have hrel : ∀ blobs : List Handle,
      (blobs.map InitEvent.Release).filter InitEvent.isWorkGraphProperty = [] := by
    intro blobs
    induction blobs with
    | nil => rfl
    | cons x xs ih => simp [InitEvent.isWorkGraphProperty]
  rw [htrace, hso]
  simp only [List.filter_append, hsteps, hrel, hcreated, List.append_nil]
  simp [initialBuilder, InitEvent.isWorkGraphProperty]

/-- C22 (as stated, refuted). On the sample device the calls on the work graph
properties are `SetMaximumInputRecords(0, 1, 1)` and then
`GetWorkGraphMemoryRequirements(0)`: the limit set at build time is one record
and one node input, and no call sets a limit with the value 0 for a stride. -/
theorem input_record_limit_has_no_stride :
    (InitWorkGraphProgram sampleDevice sampleModule).result = .ok sampleProgram
      ∧ (InitWorkGraphProgram sampleDevice sampleModule).trace.filter InitEvent.isWorkGraphProperty
          = [InitEvent.SetMaximumInputRecords 0 1 1, InitEvent.GetWorkGraphMemoryRequirements 0]
      ∧ ¬ ∃ index, InitEvent.SetMaximumInputRecords index 1 0
            ∈ (InitWorkGraphProgram sampleDevice sampleModule).trace := by
  have hfilter : (InitWorkGraphProgram sampleDevice sampleModule).trace.filter
      InitEvent.isWorkGraphProperty
        = [InitEvent.SetMaximumInputRecords 0 1 1, InitEvent.GetWorkGraphMemoryRequirements 0] :=
    InitWorkGraphProgram_workGraphProperty sampleDevice sampleModule sampleProgram rfl
  refine ⟨rfl, hfilter, ?_⟩
  rintro ⟨index, hmem⟩
  have hin : InitEvent.SetMaximumInputRecords index 1 0
      ∈ (InitWorkGraphProgram sampleDevice sampleModule).trace.filter
          InitEvent.isWorkGraphProperty :=
    List.mem_filter.mpr ⟨hmem, rfl⟩
  rw [hfilter] at hin
  simp at hin

/-- C22 as amended. A completed `InitWorkGraphProgram` makes exactly two calls on
the work graph properties, in this order: `SetMaximumInputRecords` with the
index of the work graph, at most 1 record and at most 1 node input, and then
`GetWorkGraphMemoryRequirements` for the same index. Every graph dispatch of the
`Execute` calls that follow has 1 record, which does not exceed the limit set,
and the record stride 0. -/
theorem input_record_limit_before_memory_query (dev : Device) (fw : Framework)
    (self m : WorkGraphRenderModule) (frames : List FrameInput)
    (h : (InitWorkGraphProgram dev self).result = .ok m) :
    ∃ (index maxRecords maxNodeInputs : Nat),
      (InitWorkGraphProgram dev self).trace.filter InitEvent.isWorkGraphProperty
          = [InitEvent.SetMaximumInputRecords index maxRecords maxNodeInputs,
             InitEvent.GetWorkGraphMemoryRequirements index]
        ∧ index = dev.GetWorkGraphIndex m.m_pWorkGraphStateObject WorkGraphProgramName
        ∧ maxRecords = 1 ∧ maxNodeInputs = 1
        ∧ ∀ r ∈ ExecuteFrames fw m frames, ∀ desc ∈ dispatchGraphDescs r.commands,
            desc.NodeCPUInput.NumRecords = 1
              ∧ desc.NodeCPUInput.NumRecords ≤ maxRecords
              ∧ desc.NodeCPUInput.RecordStrideInBytes = 0 := by
  refine ⟨_, 1, 1, InitWorkGraphProgram_workGraphProperty dev self m h, rfl, rfl, rfl, ?_⟩
  intro r hr desc hd
  rw [(ExecuteFrames_dispatchGraph fw frames m r hr).1 desc hd]
  exact ⟨rfl, le_refl _, rfl⟩

/-- C22 (amended), on the sample device and a sample frame. -/
theorem input_record_limit_before_memory_query_witness :
    (InitWorkGraphProgram sampleDevice sampleModule).result = .ok sampleProgram
      ∧ ∃ (index maxRecords maxNodeInputs : Nat),
          (InitWorkGraphProgram sampleDevice sampleModule).trace.filter
              InitEvent.isWorkGraphProperty
            = [InitEvent.SetMaximumInputRecords index maxRecords maxNodeInputs,
               InitEvent.GetWorkGraphMemoryRequirements index]
          ∧ maxRecords = 1 ∧ maxNodeInputs = 1 :=
  ⟨rfl,
    match input_record_limit_before_memory_query sampleDevice sampleFramework sampleModule
        sampleProgram [sampleFrame] rfl with
    | ⟨index, maxRecords, maxNodeInputs, hcalls, _, hrecords, hinputs, _⟩ =>
      ⟨index, maxRecords, maxNodeInputs, hcalls, hrecords, hinputs⟩⟩


/-! ## Releases in `CompileShader` -/

/-- C24. After the source file has loaded, on every path of `CompileShader`
that ends in a return or in a `CauldronCritical` (every path but the null
dereference in the diagnostic block), the release calls are, in order: the
source blob, once; the blobs fetched for the diagnostic (the UTF-16 blob, then
the error buffer; the error buffer alone when its call failed), when the
compile status was obtained; and the operation result, once, when `Compile`
gave one. The blob returned is the output of `GetResult`, and it is not among
the released objects unless it shares its handle with one of them. -/
theorem compile_releases_source_and_result (dxc : DxcCalls) (request : ShaderRequest)
    (hrLoad : HRESULT) (source : Handle) (hload : dxc.LoadFile = (hrLoad, some source))
    (hloaded : FAILED hrLoad = false)
    (hpath : (CompileShader dxc request).result ≠ .error .nullDereference) :
    (CompileShader dxc request).released
        = source ::
            (match dxc.Compile with
              | .error _ => []
              | .ok result =>
                (match dxc.GetStatus with
                  | .error _ => []
                  | .ok _ =>
                    (match dxc.GetErrorBuffer with
                      | (hr, some errorStringBlob) =>
                        if SUCCEEDED hr then
                          (match dxc.GetBlobAsUtf16 with
                            | some (errorStringBlob16, _) => [errorStringBlob16, errorStringBlob]
                            | none => [])
                        else [errorStringBlob]
                      | (_, none) => [])) ++ [result])
      ∧ ∀ blob, (CompileShader dxc request).result = .ok (some blob) →
          dxc.GetResult = .ok blob
            ∧ (blob ≠ source → (∀ result, dxc.Compile = .ok result → blob ≠ result) →
                (∀ errorStringBlob, dxc.GetErrorBuffer.2 = some errorStringBlob →
                  blob ≠ errorStringBlob) →
                (∀ errorStringBlob16 text, dxc.GetBlobAsUtf16 = some (errorStringBlob16, text) →
                  blob ≠ errorStringBlob16) →
                blob ∉ (CompileShader dxc request).released) := by
  unfold CompileShader at hpath ⊢
  rw [hload] at hpath ⊢
  simp only [hloaded, Bool.false_eq_true, if_false] at hpath ⊢
  cases hc : dxc.Compile with
  | error hr => simp [CauldronCritical, SafeRelease]
  | ok result =>
    cases hs : dxc.GetStatus with
    | error hr => simp [CauldronCritical, SafeRelease]
    | ok status =>
      rw [hc, hs] at hpath
      simp only at hpath ⊢
      rcases hbuf : dxc.GetErrorBuffer with ⟨hr, _ | errorStringBlob⟩
      · simp only [errorString, hbuf] at hpath ⊢
        cases hfs : FAILED status
        · cases hg : dxc.GetResult with
          | error e => simp [CauldronCritical, SafeRelease, hfs]
          | ok blob =>
            simp only [hfs, Bool.false_eq_true, if_false, SafeRelease, Option.toList,
              List.append_nil, List.cons_append, List.nil_append, true_and]
            intro b hb
            simp only [Except.ok.injEq, Option.some.injEq] at hb
            subst hb
            refine ⟨rfl, ?_⟩
            intro h1 h2 _ _
            simp only [List.mem_cons, List.mem_singleton, List.not_mem_nil, or_false, not_or]
            exact ⟨h1, h2 result rfl⟩
        · simp [CauldronCritical, SafeRelease, hfs]
      · cases hsu : SUCCEEDED hr
        · simp only [errorString, hbuf, hsu, Bool.false_eq_true, if_false] at hpath ⊢
          cases hfs : FAILED status
          · cases hg : dxc.GetResult with
            | error e => simp [CauldronCritical, SafeRelease, hfs]
            | ok blob =>
              simp only [hfs, Bool.false_eq_true, if_false, SafeRelease, Option.toList,
                List.append_nil, List.cons_append, List.nil_append, true_and]
              intro b hb
              simp only [Except.ok.injEq, Option.some.injEq] at hb
              subst hb
              refine ⟨rfl, ?_⟩
              intro h1 h2 h3 _
              simp only [List.mem_cons, List.mem_singleton, List.not_mem_nil, or_false, not_or]
              exact ⟨h1, h3 errorStringBlob rfl, h2 result rfl⟩
          · simp [CauldronCritical, SafeRelease, hfs]
        · rcases hconv : dxc.GetBlobAsUtf16 with _ | ⟨errorStringBlob16, text⟩
          · simp [errorString, hbuf, hsu, hconv] at hpath
          · simp only [errorString, hbuf, hsu, hconv, if_true] at hpath ⊢
            cases hfs : FAILED status
            · cases hg : dxc.GetResult with
              | error e => simp [CauldronCritical, SafeRelease, hfs]
              | ok blob =>
                simp only [hfs, Bool.false_eq_true, if_false, SafeRelease, Option.toList,
                  List.append_nil, List.cons_append, List.nil_append, true_and]
                intro b hb
                simp only [Except.ok.injEq, Option.some.injEq] at hb
                subst hb
                refine ⟨rfl, ?_⟩
                intro h1 h2 h3 h4
                simp only [List.mem_cons, List.mem_singleton, List.not_mem_nil, or_false, not_or]
                exact ⟨h1, h4 errorStringBlob16 text rfl, h3 errorStringBlob rfl, h2 result rfl⟩
            · simp [CauldronCritical, SafeRelease, hfs]

/-- C24, for a shader with compile errors whose diagnostic converts: the
source 1, the UTF-16 blob 4, the error buffer 3 and the result object 2 are
released, in this order. -/
theorem compile_releases_source_and_result_witness :
    (CompileShader compileErrorDxc sampleRequest).result
        = .error (.critical "Failed to compile shader %s\n%s"
            ["world.hlsl", "error: undeclared identifier"])
      ∧ (CompileShader compileErrorDxc sampleRequest).released = [1, 4, 3, 2] :=
  ⟨rfl,
    (compile_releases_source_and_result compileErrorDxc sampleRequest 0 1 rfl rfl
      (by
        rw [show (CompileShader compileErrorDxc sampleRequest).result
          = .error (.critical "Failed to compile shader %s\n%s"
              ["world.hlsl", "error: undeclared identifier"]) from rfl]
        simp)).1⟩

/-- C25 (defect). With an error buffer that is returned non-null by a call that
succeeded, and a conversion to UTF-16 that leaves its output pointer null, the
diagnostic block of `CompileShader` reads the string pointer and length through
the null pointer: no check stands between the conversion and the read. -/
theorem error_string_reads_through_null_blob :
    conversionFailsDxc.GetErrorBuffer = (0, some 3)
      ∧ SUCCEEDED 0 = true
      ∧ conversionFailsDxc.GetBlobAsUtf16 = none
      ∧ errorString conversionFailsDxc = (.error .nullDereference, []) :=
  ⟨rfl, rfl, rfl, rfl⟩


/-! ## Declared formats and bound targets -/

/-- A completed `InitWorkGraphProgram` leaves the G-buffer textures and raster
views of the module as they were. -/
theorem WorkGraphRenderModule.InitWorkGraphProgram_gbuffer (dev : Device)
    (self m : WorkGraphRenderModule) (h : (InitWorkGraphProgram dev self).result = .ok m) :
    m.m_pGBufferRasterViews = self.m_pGBufferRasterViews
      ∧ m.m_pGBufferDepthRasterView = self.m_pGBufferDepthRasterView
      ∧ m.m_pGBufferColorOutput = self.m_pGBufferColorOutput
      ∧ m.m_pGBufferNormalOutput = self.m_pGBufferNormalOutput
      ∧ m.m_pGBufferMotionOutput = self.m_pGBufferMotionOutput
      ∧ m.m_pGBufferDepthOutput = self.m_pGBufferDepthOutput := by
  have hstart : ∃ (t : WorkGraphRenderModule) (trace : List InitEvent),
      (finishProgram dev t trace).result = .ok m
        ∧ t.m_pGBufferRasterViews = self.m_pGBufferRasterViews
        ∧ t.m_pGBufferDepthRasterView = self.m_pGBufferDepthRasterView
        ∧ t.m_pGBufferColorOutput = self.m_pGBufferColorOutput
        ∧ t.m_pGBufferNormalOutput = self.m_pGBufferNormalOutput
        ∧ t.m_pGBufferMotionOutput = self.m_pGBufferMotionOutput
        ∧ t.m_pGBufferDepthOutput = self.m_pGBufferDepthOutput := by
    unfold InitWorkGraphProgram at h
    simp only at h
    split at h
    · simp at h
    · split at h
      · simp at h
      · split at h
        · simp [CauldronCritical] at h
        · split at h
          · simp at h
          · split at h
            · simp at h
            · exact ⟨_, _, h, rfl, rfl, rfl, rfl, rfl, rfl⟩
  obtain ⟨t, trace, hfin, h1, h2, h3, h4, h5, h6⟩ := hstart
  unfold finishProgram at hfin
  simp only at hfin
  split at hfin
  · simp at hfin
  · split at hfin
    · simp at hfin
    · simp only [Except.ok.injEq] at hfin
      subst hfin
      exact ⟨h1, h2, h3, h4, h5, h6⟩

/-- The one `BeginRaster` of an `Execute` binds the three raster views of the
module, in array order, and its depth raster view. -/
theorem WorkGraphRenderModule.Execute_beginRasters (fw : Framework)
    (self : WorkGraphRenderModule) (frame : FrameInput) :
    beginRasters (Execute fw self frame).commands
      = [(3, [self.m_pGBufferRasterViews.v0, self.m_pGBufferRasterViews.v1,
               self.m_pGBufferRasterViews.v2], self.m_pGBufferDepthRasterView)] := by
  cases h : FAILED frame.queryCommandList10
  · obtain ⟨t, ht, hex⟩ := Execute_of_succeeded fw self frame h
    subst ht
    rw [hex]
    simp [beginRasters, rasterSetupCommands, shadingCommands, RasterViews.toList]
  · obtain ⟨t, ht, hex⟩ := Execute_of_failed fw self frame h
    subst ht
    rw [hex]
    simp [beginRasters, rasterSetupCommands, RasterViews.toList]

/-- C21. For a module whose textures `InitTextures` has set and whose program
`InitWorkGraphProgram` has built: the render target format block of the
description declares three formats, those of the color, normal and motion
texture in this order, and the depth format block that of the depth texture;
and every `Execute` on a module that still holds the raster views of the built
module binds, in one `BeginRaster`, three color targets, the raster views of
the color, normal and motion texture in the same order, and the raster view of
the depth texture. -/
theorem target_formats_match_bound_targets (services : TextureServices) (dev : Device)
    (fw : Framework) (self textured m run : WorkGraphRenderModule) (frame : FrameInput)
    (htextures : InitTextures services self = .ok textured)
    (hprogram : (InitWorkGraphProgram dev textured).result = .ok m)
    (hviews : run.m_pGBufferRasterViews = m.m_pGBufferRasterViews)
    (hdepth : run.m_pGBufferDepthRasterView = m.m_pGBufferDepthRasterView) :
    ∃ (desc : List Subobject) (color normal motion depth : Texture),
      color = services.GetRenderTexture "GBufferColorTarget"
        ∧ normal = services.GetRenderTexture "GBufferNormalTarget"
        ∧ motion = services.GetRenderTexture "GBufferMotionVectorTarget"
        ∧ depth = services.GetRenderTexture "GBufferDepthTarget"
        ∧ stateObjectDescs (InitWorkGraphProgram dev textured).trace = [desc]
        ∧ desc.get? renderTargetFormatSubobject
            = some (.renderTargetFormats 3
                ([color, normal, motion].map (fun texture =>
                  dev.GetDXGIFormat (dev.GetFormat texture))))
        ∧ desc.get? depthStencilFormatSubobject
            = some (.depthStencilFormat (dev.GetDXGIFormat (dev.GetFormat depth)))
        ∧ beginRasters (Execute fw run frame).commands
            = [(3, [color, normal, motion].map (fun texture =>
                    services.RequestRasterView texture .Texture2D),
                services.RequestRasterView depth .Texture2D)] := by
  obtain ⟨-, hdesc⟩ := InitWorkGraphProgram_description dev textured m hprogram
  obtain ⟨hv, hd, -, -, -, -⟩ := InitWorkGraphProgram_gbuffer dev textured m hprogram
  have ht : textured.m_pGBufferColorOutput = services.GetRenderTexture "GBufferColorTarget"
      ∧ textured.m_pGBufferNormalOutput = services.GetRenderTexture "GBufferNormalTarget"
      ∧ textured.m_pGBufferMotionOutput = services.GetRenderTexture "GBufferMotionVectorTarget"
      ∧ textured.m_pGBufferDepthOutput = services.GetRenderTexture "GBufferDepthTarget"
      ∧ textured.m_pGBufferRasterViews
          = { v0 := services.RequestRasterView
                (services.GetRenderTexture "GBufferColorTarget") .Texture2D
              v1 := services.RequestRasterView
                (services.GetRenderTexture "GBufferNormalTarget") .Texture2D
              v2 := services.RequestRasterView
                (services.GetRenderTexture "GBufferMotionVectorTarget") .Texture2D }
      ∧ textured.m_pGBufferDepthRasterView
          = services.RequestRasterView (services.GetRenderTexture "GBufferDepthTarget")
              .Texture2D := by
    unfold InitTextures at htextures
    split at htextures
    · simp [CauldronCritical] at htextures
    · simp only [Except.ok.injEq] at htextures
      subst htextures
      exact ⟨rfl, rfl, rfl, rfl, rfl, rfl⟩
  obtain ⟨hc, hn, hm, hdp, hrv, hdv⟩ := ht
  refine ⟨_, _, _, _, _, rfl, rfl, rfl, rfl, hdesc, ?_, ?_, ?_⟩
  · simp [renderTargetFormatSubobject, initialSubobjects, hc, hn, hm]
  · simp [depthStencilFormatSubobject, initialSubobjects, hdp]
  · rw [Execute_beginRasters, hviews, hdepth, hv, hd, hrv, hdv]
    rfl

/-- C21, for the sample texture services and the sample device. -/
theorem target_formats_match_bound_targets_witness :
    InitTextures sampleTextureServices {} = .ok sampleModule
      ∧ (InitWorkGraphProgram sampleDevice sampleModule).result = .ok sampleProgram
      ∧ ∃ desc : List Subobject,
          stateObjectDescs (InitWorkGraphProgram sampleDevice sampleModule).trace = [desc]
            ∧ desc.get? renderTargetFormatSubobject = some (.renderTargetFormats 3 [701, 702, 703])
            ∧ desc.get? depthStencilFormatSubobject = some (.depthStencilFormat 704)
            ∧ beginRasters (Execute sampleFramework sampleProgram sampleFrame).commands
                = [(3, [11, 12, 13], 14)] :=
  ⟨rfl, rfl,
    match target_formats_match_bound_targets sampleTextureServices sampleDevice sampleFramework
        {} sampleModule sampleProgram sampleProgram sampleFrame rfl rfl rfl rfl with
    | ⟨desc, _, _, _, _, hc, hn, hm, hd, hdesc, hformats, hdepth, hbound⟩ =>
      ⟨desc, hdesc, by rw [hformats, hc, hn, hm]; rfl, by rw [hdepth, hd]; rfl,
        by rw [hbound, hc, hn, hm, hd]; rfl⟩⟩


/-! ## The single-precision product -/

/-- The bit length never exceeds the binary size. -/
theorem F64.bitLength_le_size (m : Nat) : F64.bitLength m ≤ Nat.size m := by
  unfold F64.bitLength
  have hp : (fun n => decide (2 ^ n ≤ m)) = (fun n => decide (n < Nat.size m)) := by
    funext n
    simp only [Nat.lt_size]
  rw [hp, countP_lt_range]
  exact Nat.min_le_left _ _

/-- Rounding to nearest moves a significand by at most half a unit of the
bits dropped. -/
theorem F64.roundNearestEven_error (m s : Nat) :
    |(F64.roundNearestEven m s : ℚ) * (2 : ℚ) ^ s - (m : ℚ)| ≤ (2 : ℚ) ^ s / 2 := by
  have hdm : 2 ^ s * (m / 2 ^ s) + m % 2 ^ s = m := Nat.div_add_mod m (2 ^ s)
  have hlt : m % 2 ^ s < 2 ^ s := Nat.mod_lt _ (Nat.two_pow_pos s)
  have hdmq : (2 : ℚ) ^ s * ((m / 2 ^ s : Nat) : ℚ) + ((m % 2 ^ s : Nat) : ℚ) = (m : ℚ) := by
    exact_mod_cast hdm
  have hltq : ((m % 2 ^ s : Nat) : ℚ) < (2 : ℚ) ^ s := by exact_mod_cast hlt
  have hr0 : (0 : ℚ) ≤ ((m % 2 ^ s : Nat) : ℚ) := Nat.cast_nonneg _
  unfold F64.roundNearestEven
  simp only
  by_cases h1 : 2 * (m % 2 ^ s) > 2 ^ s
  · rw [if_pos h1]
    have h1q : (2 : ℚ) ^ s < 2 * ((m % 2 ^ s : Nat) : ℚ) := by exact_mod_cast h1
    rw [abs_le]
    push_cast
    constructor <;> nlinarith
  · rw [if_neg h1]
    by_cases h2 : 2 * (m % 2 ^ s) = 2 ^ s
    · rw [if_pos h2]
      have h2q : 2 * ((m % 2 ^ s : Nat) : ℚ) = (2 : ℚ) ^ s := by exact_mod_cast h2
      have hpar : (m / 2 ^ s) % 2 = 0 ∨ (m / 2 ^ s) % 2 = 1 := Nat.mod_two_eq_zero_or_one _
      rw [abs_le]
      rcases hpar with hpar | hpar
      · rw [hpar]
        push_cast
        constructor <;> nlinarith
      · rw [hpar]
        push_cast
        constructor <;> nlinarith
    · rw [if_neg h2]
      have h3 : 2 * (m % 2 ^ s) < 2 ^ s := by omega
      have h3q : 2 * ((m % 2 ^ s : Nat) : ℚ) < (2 : ℚ) ^ s := by exact_mod_cast h3
      rw [abs_le]
      constructor <;> nlinarith

/-- The value of a finite float product: the rounded significand at the
shifted exponent. -/
theorem F32.mul_value (x y p : F32) (h : F32.mul x y = some p) :
    p.toRat
      = (if xor x.sign y.sign then -1 else 1)
        * (F64.roundNearestEven (x.mant * y.mant)
            (Max.max (F64.bitLength (x.mant * y.mant) - 24) (-149 - (x.exp + y.exp)).toNat) : ℚ)
        * (2 : ℚ) ^ (x.exp + y.exp
            + (Max.max (F64.bitLength (x.mant * y.mant) - 24) (-149 - (x.exp + y.exp)).toNat : Nat)) := by
  unfold F32.mul at h
  simp only at h
  generalize F64.roundNearestEven (x.mant * y.mant)
    (Max.max (F64.bitLength (x.mant * y.mant) - 24) (-149 - (x.exp + y.exp)).toNat) = m1 at h ⊢
  generalize (x.exp + y.exp
    + (Max.max (F64.bitLength (x.mant * y.mant) - 24) (-149 - (x.exp + y.exp)).toNat : Nat)) = e1 at h ⊢
  have two : (2 : ℚ) ≠ 0 := by norm_num
  by_cases hm : m1 = 2 ^ 24
  · simp only [hm, if_true] at h ⊢
    split_ifs at h with h1 h2
    · simp only [Option.some.injEq] at h
      subst h
      simp only [F32.toRat]
      rw [zpow_add₀ two]
      push_cast
      ring
    · simp only [Option.some.injEq] at h
      subst h
      simp only [F32.toRat]
      have he : e1 = ((e1 + 1 - 104).toNat : Int) + 104 - 1 := by omega
      conv_rhs => rw [he]
      rw [zpow_sub₀ two, zpow_add₀ two]
      push_cast
      simp only [zpow_natCast]
      ring
  · simp only [hm, if_false] at h
    split_ifs at h with h1 h2
    · simp only [Option.some.injEq] at h
      subst h
      rfl
    · simp only [Option.some.injEq] at h
      subst h
      simp only [F32.toRat]
      have he : e1 = ((e1 - 104).toNat : Int) + 104 := by omega
      conv_rhs => rw [he]
      rw [zpow_add₀ two]
      push_cast
      simp only [zpow_natCast]
      ring

/-- The exact product of two floats. -/
theorem F32.toRat_mul_toRat (x y : F32) :
    x.toRat * y.toRat
      = (if xor x.sign y.sign then -1 else 1) * ((x.mant * y.mant : Nat) : ℚ)
          * (2 : ℚ) ^ (x.exp + y.exp) := by
  unfold F32.toRat
  rw [zpow_add₀ (by norm_num : (2 : ℚ) ≠ 0)]
  push_cast
  cases x.sign <;> cases y.sign <;> simp <;> ring

/-- A float product of floats is a float: the product keeps 24 bits of
significand and an exponent of the float range. -/
theorem F32.mul_wf (x y p : F32) (hx : x.wf) (hy : y.wf) (h : F32.mul x y = some p) : p.wf := by
  obtain ⟨hxm, -, -⟩ := hx
  obtain ⟨hym, -, -⟩ := hy
  have hm : x.mant * y.mant < 2 ^ 107 := by
    calc x.mant * y.mant ≤ x.mant * 2 ^ 24 := Nat.mul_le_mul_left _ hym.le
      _ ≤ 2 ^ 24 * 2 ^ 24 := Nat.mul_le_mul_right _ hxm.le
      _ < 2 ^ 107 := by norm_num
  have hsize := Nat.lt_size_self (x.mant * y.mant)
  have hq : ∀ s : Nat, Nat.size (x.mant * y.mant) - 24 ≤ s → x.mant * y.mant / 2 ^ s < 2 ^ 24 := by
    intro s hs
    rw [Nat.div_lt_iff_lt_mul (Nat.two_pow_pos s), ← pow_add]
    exact lt_of_lt_of_le hsize (Nat.pow_le_pow_right (by norm_num) (by omega))
  unfold F32.mul at h
  simp only at h
  rw [F64.bitLength_eq_size _ hm] at h
  have hs1 : Nat.size (x.mant * y.mant) - 24
      ≤ Max.max (Nat.size (x.mant * y.mant) - 24) (-149 - (x.exp + y.exp)).toNat := le_max_left _ _
  have hs2 : (-149 - (x.exp + y.exp)).toNat
      ≤ Max.max (Nat.size (x.mant * y.mant) - 24) (-149 - (x.exp + y.exp)).toNat := le_max_right _ _
  generalize Max.max (Nat.size (x.mant * y.mant) - 24) (-149 - (x.exp + y.exp)).toNat = s at h hs1 hs2
  have hm1 := (F64.roundNearestEven_bounds (x.mant * y.mant) s).2
  have hqs := hq s hs1
  generalize F64.roundNearestEven (x.mant * y.mant) s = m1 at h hm1
  by_cases hcarry : m1 = 2 ^ 24
  · simp only [hcarry, if_true] at h
    split_ifs at h with h1 h2
    · simp only [Option.some.injEq] at h
      subst h
      exact ⟨by norm_num, by simp only; omega, h1⟩
    · simp only [Option.some.injEq] at h
      subst h
      exact ⟨h2, by norm_num, le_refl _⟩
  · simp only [hcarry, if_false] at h
    split_ifs at h with h1 h2
    · simp only [Option.some.injEq] at h
      subst h
      exact ⟨by simp only; omega, by simp only; omega, h1⟩
    · simp only [Option.some.injEq] at h
      subst h
      exact ⟨h2, by norm_num, le_refl _⟩

/-- The float maximum has the larger value. -/
theorem F32.max_toRat (a b : F32) : (F32.max a b).toRat = Max.max a.toRat b.toRat := by
  unfold F32.max
  by_cases h : a.toRat < b.toRat
  · rw [if_pos h, max_eq_right h.le]
  · rw [if_neg h, max_eq_left (not_lt.mp h)]

/-- The float minimum has the smaller value. -/
theorem F32.min_toRat (a b : F32) : (F32.min a b).toRat = Min.min a.toRat b.toRat := by
  unfold F32.min
  by_cases h : b.toRat < a.toRat
  · rw [if_pos h, min_eq_right h.le]
  · rw [if_neg h, min_eq_left (not_lt.mp h)]

theorem F32.max_wf (a b : F32) (ha : a.wf) (hb : b.wf) : (F32.max a b).wf := by
  unfold F32.max
  split_ifs
  · exact hb
  · exact ha

theorem F32.min_wf (a b : F32) (ha : a.wf) (hb : b.wf) : (F32.min a b).wf := by
  unfold F32.min
  split_ifs
  · exact hb
  · exact ha

/-- The constant `1.f / 1.5f` is the float nearest to the quotient: a float of
the binade of 2/3, less than half a unit in the last place (`2^-25`) from it. -/
theorem F32.oneOverOneAndHalf_nearest :
    F32.oneOverOneAndHalf.wf ∧ 2 ^ 23 ≤ F32.oneOverOneAndHalf.mant
      ∧ F32.oneOverOneAndHalf.exp = -24
      ∧ |F32.oneOverOneAndHalf.toRat - F32.one.toRat / F32.oneAndHalf.toRat| < 1 / 2 ^ 25
      ∧ F32.oneOverOneAndHalf.toRat - 1 / (3 / 2) = 1 / (3 * 2 ^ 24) := by
  refine ⟨by decide, by decide, rfl, ?_, ?_⟩
  · norm_num [F32.oneOverOneAndHalf, F32.one, F32.oneAndHalf, F32.toRat, abs_lt]
  · norm_num [F32.oneOverOneAndHalf, F32.toRat]

/-- A float product whose exact value is not zero and below `2^k` in magnitude
does not overflow, and it lies within `2^(k-25)`, half a unit in the last place
of that binade, of the exact product. -/
theorem F32.mul_error (x y : F32) (k : Int) (hk1 : -125 ≤ k) (hk2 : k ≤ 104)
    (hne : x.toRat * y.toRat ≠ 0) (hlt : |x.toRat * y.toRat| < (2 : ℚ) ^ k) :
    ∃ p : F32, F32.mul x y = some p ∧ |p.toRat - x.toRat * y.toRat| ≤ (2 : ℚ) ^ (k - 25) := by
  have two : (2 : ℚ) ≠ 0 := by norm_num
  have hexact := F32.toRat_mul_toRat x y
  have hsign : |(if xor x.sign y.sign then (-1 : ℚ) else 1)| = 1 := by
    split_ifs <;> simp
  have habs : |x.toRat * y.toRat| = ((x.mant * y.mant : Nat) : ℚ) * (2 : ℚ) ^ (x.exp + y.exp) := by
    rw [hexact, abs_mul, abs_mul, hsign, one_mul, abs_of_nonneg (Nat.cast_nonneg _),
      abs_of_pos (zpow_pos (by norm_num) _)]
  have hmpos : 0 < x.mant * y.mant := by
    rcases Nat.eq_zero_or_pos (x.mant * y.mant) with h0 | h0
    · exfalso
      apply hne
      rw [hexact, h0]
      simp
    · exact h0
  rw [habs] at hlt
  -- a power of two at or below the significand lies below `2^k` at the exponent
  have hpow : ∀ n : Nat, 2 ^ n ≤ x.mant * y.mant → (n : Int) + (x.exp + y.exp) < k := by
    intro n hn
    by_contra hcon
    have h1 : (2 : ℚ) ^ k ≤ (2 : ℚ) ^ ((n : Int) + (x.exp + y.exp)) :=
      zpow_le_zpow_right₀ (by norm_num) (by omega)
    have h2 : (2 : ℚ) ^ ((n : Int) + (x.exp + y.exp))
        ≤ ((x.mant * y.mant : Nat) : ℚ) * (2 : ℚ) ^ (x.exp + y.exp) := by
      rw [zpow_add₀ two, zpow_natCast]
      apply mul_le_mul_of_nonneg_right _ (zpow_pos (by norm_num) _).le
      exact_mod_cast hn
    linarith
  have he : x.exp + y.exp < k := by
    have := hpow 0 (by rw [pow_zero]; exact hmpos)
    simpa using this
  have hbl : F64.bitLength (x.mant * y.mant) ≠ 0 →
      ((F64.bitLength (x.mant * y.mant) : Nat) : Int) + (x.exp + y.exp) ≤ k := by
    intro hb
    have hle := F64.bitLength_le_size (x.mant * y.mant)
    have h1 : F64.bitLength (x.mant * y.mant) - 1 < Nat.size (x.mant * y.mant) := by omega
    have h2 := hpow _ (Nat.lt_size.mp h1)
    omega
  -- the exponent after the shift
  have hs : Max.max (F64.bitLength (x.mant * y.mant) - 24) (-149 - (x.exp + y.exp)).toNat = 0
      ∨ x.exp + y.exp
        + ((Max.max (F64.bitLength (x.mant * y.mant) - 24) (-149 - (x.exp + y.exp)).toNat : Nat) : Int)
          ≤ k - 24 := by
    rcases le_total (F64.bitLength (x.mant * y.mant) - 24) (-149 - (x.exp + y.exp)).toNat with hc | hc
    · rw [max_eq_right hc]
      rcases le_total (-149 - (x.exp + y.exp)) 0 with hz | hz
      · left
        exact Int.toNat_of_nonpos hz
      · right
        rw [Int.toNat_of_nonneg hz]
        omega
    · rw [max_eq_left hc]
      by_cases hb : F64.bitLength (x.mant * y.mant) ≤ 24
      · left
        exact Nat.sub_eq_zero_of_le hb
      · right
        have := hbl (by omega)
        omega
  have hp : ∃ p : F32, F32.mul x y = some p := by
    unfold F32.mul
    simp only
    generalize Max.max (F64.bitLength (x.mant * y.mant) - 24) (-149 - (x.exp + y.exp)).toNat = s at hs
    rw [if_pos]
    · exact ⟨_, rfl⟩
    · split_ifs <;> simp only <;> omega
  obtain ⟨p, hp⟩ := hp
  refine ⟨p, hp, ?_⟩
  rw [F32.mul_value x y p hp, hexact]
  generalize Max.max (F64.bitLength (x.mant * y.mant) - 24) (-149 - (x.exp + y.exp)).toNat = s at hs
  have hdiff : (if xor x.sign y.sign then (-1 : ℚ) else 1)
        * (F64.roundNearestEven (x.mant * y.mant) s : ℚ) * (2 : ℚ) ^ (x.exp + y.exp + (s : Int))
      - (if xor x.sign y.sign then (-1 : ℚ) else 1) * ((x.mant * y.mant : Nat) : ℚ)
          * (2 : ℚ) ^ (x.exp + y.exp)
      = (if xor x.sign y.sign then (-1 : ℚ) else 1)
        * (((F64.roundNearestEven (x.mant * y.mant) s : ℚ) * (2 : ℚ) ^ s
            - ((x.mant * y.mant : Nat) : ℚ)) * (2 : ℚ) ^ (x.exp + y.exp)) := by
    rw [zpow_add₀ two, zpow_natCast]
    ring
  have hpos : (0 : ℚ) < (2 : ℚ) ^ (x.exp + y.exp) := zpow_pos (by norm_num) _
  rw [hdiff, abs_mul, hsign, one_mul, abs_mul, abs_of_pos hpos]
  rcases hs with h0 | hle
  · rw [h0, F64.roundNearestEven_shift_zero]
    simp only [pow_zero, mul_one, sub_self, abs_zero, zero_mul]
    exact (zpow_pos (by norm_num) _).le
  · calc |(F64.roundNearestEven (x.mant * y.mant) s : ℚ) * (2 : ℚ) ^ s
            - ((x.mant * y.mant : Nat) : ℚ)| * (2 : ℚ) ^ (x.exp + y.exp)
        ≤ ((2 : ℚ) ^ s / 2) * (2 : ℚ) ^ (x.exp + y.exp) :=
          mul_le_mul_of_nonneg_right (F64.roundNearestEven_error _ s) (zpow_pos (by norm_num) _).le
      _ = (2 : ℚ) ^ (x.exp + y.exp + (s : Int) - 1) := by
          rw [zpow_sub₀ two, zpow_add₀ two (x.exp + y.exp) (s : Int), zpow_natCast, zpow_one]
          ring
      _ ≤ (2 : ℚ) ^ (k - 25) := zpow_le_zpow_right₀ (by norm_num) (by omega)

/-! ## The camera component -/

open MeshNodeSampleCameraComponent

/-- Clamping to [1, 200] brings two numbers no further apart. -/
theorem abs_clamp_sub_clamp_le (a b : ℚ) :
    |min (max a 1) 200 - min (max b 1) 200| ≤ |a - b| :=
  calc |min (max a 1) 200 - min (max b 1) 200|
      ≤ max |max a 1 - max b 1| |(200 : ℚ) - 200| := abs_min_sub_min_le_max _ _ _ _
    _ = |max a 1 - max b 1| := by rw [sub_self, abs_zero]; exact max_eq_left (abs_nonneg _)
    _ ≤ |a - b| := abs_max_sub_max_le_abs _ _ _

theorem MeshNodeSampleCameraComponent.rotate_speed (inputState : InputState)
    (self : MeshNodeSampleCameraComponent) :
    (rotate inputState self).1.m_Speed = self.m_Speed := by
  unfold rotate
  split_ifs <;> rfl

theorem MeshNodeSampleCameraComponent.updateJitter_speed (services : CameraServices)
    (self : MeshNodeSampleCameraComponent) :
    (updateJitter services self).m_Speed = self.m_Speed := by
  unfold updateJitter
  split
  · rfl
  · split_ifs <;> rfl

/-- The speed the wheel block leaves: the clamped float product, or the clamp
of an infinite product. -/
theorem MeshNodeSampleCameraComponent.scaleSpeed_speed (inputState : InputState)
    (self : MeshNodeSampleCameraComponent) :
    (scaleSpeed inputState self).m_Speed
      = if inputState.Mouse_Wheel ≠ 0 then
          match F32.mul self.m_Speed
              (if inputState.Mouse_Wheel > 0 then F32.oneAndHalf else F32.oneOverOneAndHalf) with
          | some product => F32.min (F32.max product F32.one) F32.twoHundred
          | none => if self.m_Speed.sign then F32.one else F32.twoHundred
        else self.m_Speed := by
  unfold scaleSpeed
  by_cases hwheel : inputState.Mouse_Wheel ≠ 0
  · rw [if_pos hwheel, if_pos hwheel]
    split <;> rfl
  · rw [if_neg hwheel, if_neg hwheel]

/-- With base class methods that leave the speed alone, the speed after
`Update` is the speed after the wheel block for the current camera, and the
speed on entry for any other camera. -/
theorem MeshNodeSampleCameraComponent.Update_speed (services : CameraServices) (deltaTime : ℚ)
    (self : MeshNodeSampleCameraComponent)
    (hreset : KeepsSpeed services.ResetCamera) (hupdate : KeepsSpeed services.UpdateMatrices)
    (hlook : ∀ eyePos lookAt, KeepsSpeed (services.LookAt eyePos lookAt)) :
    (Update services deltaTime self).m_Speed
      = if services.isCurrentCamera then (scaleSpeed services.inputState self).m_Speed
        else self.m_Speed := by
  have hscale : (scaleSpeed services.inputState (updateTemporalInformation self)).m_Speed
      = (scaleSpeed services.inputState self).m_Speed := by
    rw [scaleSpeed_speed, scaleSpeed_speed]
    rfl
  unfold Update
  simp only
  by_cases hcurrent : services.isCurrentCamera = true
  · rw [if_pos hcurrent, if_pos hcurrent]
    by_cases hkey : services.inputState.Key_R = true ∨ services.inputState.Pad_Back = true
    · rw [if_pos hkey, hupdate, hreset, rotate_speed, hscale]
    · rw [if_neg hkey, hupdate, hlook, updateJitter_speed, rotate_speed, hscale]
  · rw [if_neg hcurrent, if_neg hcurrent]
    rfl

/-- The wheel block keeps a float in [1, 200] a float in [1, 200]. -/
theorem MeshNodeSampleCameraComponent.scaleSpeed_range (inputState : InputState)
    (self : MeshNodeSampleCameraComponent) (hwf : self.m_Speed.wf)
    (hlo : 1 ≤ self.m_Speed.toRat) (hhi : self.m_Speed.toRat ≤ 200) :
    (scaleSpeed inputState self).m_Speed.wf
      ∧ 1 ≤ (scaleSpeed inputState self).m_Speed.toRat
      ∧ (scaleSpeed inputState self).m_Speed.toRat ≤ 200 := by
  have hone : F32.one.toRat = 1 := by norm_num [F32.one, F32.toRat]
  have htwo : F32.twoHundred.toRat = 200 := by norm_num [F32.twoHundred, F32.toRat]
  rw [scaleSpeed_speed]
  by_cases hwheel : inputState.Mouse_Wheel ≠ 0
  · rw [if_pos hwheel]
    cases hmul : F32.mul self.m_Speed
        (if inputState.Mouse_Wheel > 0 then F32.oneAndHalf else F32.oneOverOneAndHalf) with
    | none =>
      simp only
      split_ifs
      · exact ⟨by decide, by rw [hone], by rw [hone]; norm_num⟩
      · exact ⟨by decide, by rw [htwo]; norm_num, by rw [htwo]⟩
    | some product =>
      simp only
      have hfactor : (if inputState.Mouse_Wheel > 0 then F32.oneAndHalf
          else F32.oneOverOneAndHalf).wf := by
        split_ifs <;> decide
      refine ⟨F32.min_wf _ _ (F32.max_wf _ _ (F32.mul_wf _ _ _ hwf hfactor hmul) (by decide))
        (by decide), ?_, ?_⟩
      · rw [F32.min_toRat, F32.max_toRat, hone, htwo]
        exact le_min (le_max_right _ _) (by norm_num)
      · rw [F32.min_toRat, htwo]
        exact min_le_right _ _
  · rw [if_neg hwheel]
    exact ⟨hwf, hlo, hhi⟩

/-- The wheel block on a speed in [1, 200]: the float product is finite and
within `2^-16` of the exact product with 1.5 or with 1/1.5, and the speed left
is that float product clamped. -/
theorem MeshNodeSampleCameraComponent.scaleSpeed_product (inputState : InputState)
    (self : MeshNodeSampleCameraComponent) (hwheel : inputState.Mouse_Wheel ≠ 0)
    (hlo : 1 ≤ self.m_Speed.toRat) (hhi : self.m_Speed.toRat ≤ 200) :
    ∃ product : F32,
      F32.mul self.m_Speed
          (if inputState.Mouse_Wheel > 0 then F32.oneAndHalf else F32.oneOverOneAndHalf)
        = some product
        ∧ |product.toRat
            - self.m_Speed.toRat * (if inputState.Mouse_Wheel > 0 then 3 / 2 else 1 / (3 / 2))|
          ≤ 1 / 2 ^ 16
        ∧ (scaleSpeed inputState self).m_Speed = F32.min (F32.max product F32.one) F32.twoHundred
        ∧ (scaleSpeed inputState self).m_Speed.toRat = min (max product.toRat 1) 200 := by
  have hone : F32.one.toRat = 1 := by norm_num [F32.one, F32.toRat]
  have htwo : F32.twoHundred.toRat = 200 := by norm_num [F32.twoHundred, F32.toRat]
  have hhalf : F32.oneAndHalf.toRat = 3 / 2 := by norm_num [F32.oneAndHalf, F32.toRat]
  have hthird : F32.oneOverOneAndHalf.toRat = 11184811 / 16777216 := by
    norm_num [F32.oneOverOneAndHalf, F32.toRat]
  by_cases hpos : inputState.Mouse_Wheel > 0
  · simp only [if_pos hpos]
    obtain ⟨product, hmul, herr⟩ := F32.mul_error self.m_Speed F32.oneAndHalf 9 (by norm_num)
      (by norm_num) (by rw [hhalf]; nlinarith)
      (by rw [hhalf, abs_of_nonneg (by nlinarith)]; norm_num; nlinarith)
    have hspeed : (scaleSpeed inputState self).m_Speed
        = F32.min (F32.max product F32.one) F32.twoHundred := by
      rw [scaleSpeed_speed, if_pos hwheel, if_pos hpos, hmul]
    refine ⟨product, hmul, ?_, hspeed, ?_⟩
    · rw [hhalf] at herr
      exact le_trans herr (by norm_num)
    · rw [hspeed, F32.min_toRat, F32.max_toRat, hone, htwo]
  · simp only [if_neg hpos]
    obtain ⟨product, hmul, herr⟩ := F32.mul_error self.m_Speed F32.oneOverOneAndHalf 8
      (by norm_num) (by norm_num) (by rw [hthird]; nlinarith)
      (by rw [hthird, abs_of_nonneg (by nlinarith)]; norm_num; nlinarith)
    have hspeed : (scaleSpeed inputState self).m_Speed
        = F32.min (F32.max product F32.one) F32.twoHundred := by
      rw [scaleSpeed_speed, if_pos hwheel, if_neg hpos, hmul]
    refine ⟨product, hmul, ?_, hspeed, ?_⟩
    · rw [hthird] at herr
      have hsplit : product.toRat - self.m_Speed.toRat * (1 / (3 / 2))
          = (product.toRat - self.m_Speed.toRat * (11184811 / 16777216))
            + self.m_Speed.toRat * (1 / 50331648) := by ring
      rw [hsplit]
      have h1 := abs_add (product.toRat - self.m_Speed.toRat * (11184811 / 16777216))
        (self.m_Speed.toRat * (1 / 50331648))
      have h2 : |self.m_Speed.toRat * (1 / 50331648)| ≤ 200 / 50331648 := by
        rw [abs_of_nonneg (by nlinarith)]
        nlinarith
      have h3 : (2 : ℚ) ^ ((8 : Int) - 25) = 1 / 131072 := by norm_num
      rw [h3] at herr
      calc |product.toRat - self.m_Speed.toRat * (11184811 / 16777216)
              + self.m_Speed.toRat * (1 / 50331648)|
          ≤ 1 / 131072 + 200 / 50331648 := le_trans h1 (add_le_add herr h2)
        _ ≤ 1 / 2 ^ 16 := by norm_num
    · rw [hspeed, F32.min_toRat, F32.max_toRat, hone, htwo]

/-- The speed after a run of `Update` calls, under the same condition on the
base class methods. -/
theorem MeshNodeSampleCameraComponent.Update_run_range
    (updates : List (CameraServices × ℚ))
    (hbase : ∀ u ∈ updates, KeepsSpeed u.1.ResetCamera ∧ KeepsSpeed u.1.UpdateMatrices
      ∧ ∀ eyePos lookAt, KeepsSpeed (u.1.LookAt eyePos lookAt)) :
    ∀ camera : MeshNodeSampleCameraComponent, camera.m_Speed.wf → 1 ≤ camera.m_Speed.toRat →
      camera.m_Speed.toRat ≤ 200 →
      (updates.foldl (fun c u => Update u.1 u.2 c) camera).m_Speed.wf
        ∧ 1 ≤ (updates.foldl (fun c u => Update u.1 u.2 c) camera).m_Speed.toRat
        ∧ (updates.foldl (fun c u => Update u.1 u.2 c) camera).m_Speed.toRat ≤ 200 := by
  induction updates with
  | nil => intro camera hwf hlo hhi; exact ⟨hwf, hlo, hhi⟩
  | cons u us ih =>
    intro camera hwf hlo hhi
    obtain ⟨h1, h2, h3⟩ := hbase u (List.mem_cons_self _ _)
    have hstep : (Update u.1 u.2 camera).m_Speed.wf ∧ 1 ≤ (Update u.1 u.2 camera).m_Speed.toRat
        ∧ (Update u.1 u.2 camera).m_Speed.toRat ≤ 200 := by
      rw [Update_speed u.1 u.2 camera h1 h2 h3]
      split_ifs
      · exact scaleSpeed_range _ _ hwf hlo hhi
      · exact ⟨hwf, hlo, hhi⟩
    exact ih (fun v hv => hbase v (List.mem_cons_of_mem _ hv)) _ hstep.1 hstep.2.1 hstep.2.2

/-- The float product of the constructed speed 50 and the constant
`1.f / 1.5f`: `8738134 * 2^-18`. -/
theorem F32.mul_fifty_oneOverOneAndHalf :
    F32.mul F32.fifty F32.oneOverOneAndHalf = some ⟨false, 8738134, -18⟩ := by
  decide

/-- The sample camera after one `Update` with the wheel turned back. -/
theorem MeshNodeSampleCameraComponent.Update_wheel_back :
    (Update { sampleCameraServices with inputState := { Mouse_Wheel := -1 } } (1 / 60)
        sampleCameraComponent).m_Speed = ⟨false, 8738134, -18⟩ := by
  rw [Update_speed _ _ _ (fun _ => rfl) (fun _ => rfl) (fun _ _ _ => rfl)]
  simp only [sampleCameraServices, if_true]
  rw [scaleSpeed_speed]
  have hmul : F32.mul sampleCameraComponent.m_Speed F32.oneOverOneAndHalf
      = some ⟨false, 8738134, -18⟩ := F32.mul_fifty_oneOverOneAndHalf
  norm_num [hmul, F32.max, F32.min, F32.toRat, F32.one, F32.twoHundred]

/-- C26 (as stated, refuted). On the constructed camera the speed is 50, and one
`Update` of the current camera with the wheel turned back leaves the float
4369067/131072 (the float product of 50 and the float `1.f / 1.5f`, inside
[1, 200]), not 50 times 1/1.5 clamped, which is 100/3. -/
theorem camera_speed_differs_from_exact_quotient :
    sampleCameraComponent.m_Speed.toRat = 50
      ∧ (Update { sampleCameraServices with inputState := { Mouse_Wheel := -1 } } (1 / 60)
          sampleCameraComponent).m_Speed.toRat = 4369067 / 131072
      ∧ (Update { sampleCameraServices with inputState := { Mouse_Wheel := -1 } } (1 / 60)
          sampleCameraComponent).m_Speed.toRat
        ≠ min (max (sampleCameraComponent.m_Speed.toRat * (1 / (3 / 2))) 1) 200 := by
  have h50 : sampleCameraComponent.m_Speed.toRat = 50 := by
    norm_num [sampleCameraComponent, MeshNodeSampleCameraComponent.new, F32.fifty, F32.toRat]
  have hback : (Update { sampleCameraServices with inputState := { Mouse_Wheel := -1 } } (1 / 60)
      sampleCameraComponent).m_Speed.toRat = 4369067 / 131072 := by
    rw [Update_wheel_back]
    norm_num [F32.toRat]
  refine ⟨h50, hback, ?_⟩
  rw [hback, h50]
  norm_num

/-- C26 as amended. The constructor sets the speed to the float 50. For base
class methods (`ResetCamera`, `UpdateMatrices`, `LookAt`) that leave the speed
alone, after any run of `Update` calls on the constructed camera the speed is a
float in [1, 200]; and in each `Update` of the run, from any camera: without
wheel movement, or for a camera that is not the current one, the speed stays as
it is; for the current camera with a speed in [1, 200] a wheel movement makes
it the single-precision product with `1.5f` (positive wheel) or with the float
`1.f / 1.5f` (negative wheel), clamped to [1, 200], where that product is
finite and within `2^-16` of the speed times 1.5, respectively times 1/1.5, so
the speed left is within `2^-16` of the exact product clamped. -/
theorem camera_speed_stays_in_range (base : MeshNodeSampleCameraComponent)
    (updates : List (CameraServices × ℚ))
    (hbase : ∀ u ∈ updates, KeepsSpeed u.1.ResetCamera ∧ KeepsSpeed u.1.UpdateMatrices
      ∧ ∀ eyePos lookAt, KeepsSpeed (u.1.LookAt eyePos lookAt)) :
    (MeshNodeSampleCameraComponent.new base).m_Speed.toRat = 50
      ∧ (updates.foldl (fun c u => Update u.1 u.2 c)
            (MeshNodeSampleCameraComponent.new base)).m_Speed.wf
      ∧ 1 ≤ (updates.foldl (fun c u => Update u.1 u.2 c)
              (MeshNodeSampleCameraComponent.new base)).m_Speed.toRat
      ∧ (updates.foldl (fun c u => Update u.1 u.2 c)
            (MeshNodeSampleCameraComponent.new base)).m_Speed.toRat ≤ 200
      ∧ ∀ u ∈ updates, ∀ camera : MeshNodeSampleCameraComponent,
          (u.1.inputState.Mouse_Wheel = 0 ∨ u.1.isCurrentCamera = false →
              (Update u.1 u.2 camera).m_Speed = camera.m_Speed)
            ∧ (u.1.isCurrentCamera = true → u.1.inputState.Mouse_Wheel ≠ 0 →
                1 ≤ camera.m_Speed.toRat → camera.m_Speed.toRat ≤ 200 →
                ∃ product : F32,
                  F32.mul camera.m_Speed
                      (if u.1.inputState.Mouse_Wheel > 0 then F32.oneAndHalf
                        else F32.oneOverOneAndHalf) = some product
                    ∧ |product.toRat - camera.m_Speed.toRat
                          * (if u.1.inputState.Mouse_Wheel > 0 then 3 / 2 else 1 / (3 / 2))|
                        ≤ 1 / 2 ^ 16
                    ∧ (Update u.1 u.2 camera).m_Speed
                        = F32.min (F32.max product F32.one) F32.twoHundred
                    ∧ (Update u.1 u.2 camera).m_Speed.toRat = min (max product.toRat 1) 200
                    ∧ |(Update u.1 u.2 camera).m_Speed.toRat
                          - min (max (camera.m_Speed.toRat
                              * (if u.1.inputState.Mouse_Wheel > 0 then 3 / 2 else 1 / (3 / 2)))
                              1) 200|
                        ≤ 1 / 2 ^ 16) := by
  have h50 : (MeshNodeSampleCameraComponent.new base).m_Speed.toRat = 50 := by
    norm_num [MeshNodeSampleCameraComponent.new, F32.fifty, F32.toRat]
  have hrange := Update_run_range updates hbase (MeshNodeSampleCameraComponent.new base)
    (by show F32.fifty.wf; decide) (by rw [h50]; norm_num) (by rw [h50]; norm_num)
  refine ⟨h50, hrange.1, hrange.2.1, hrange.2.2, ?_⟩
  intro u hu camera
  obtain ⟨h1, h2, h3⟩ := hbase u hu
  rw [Update_speed u.1 u.2 camera h1 h2 h3]
  refine ⟨?_, ?_⟩
  · rintro (hwheel | hcurrent)
    · split_ifs
      · rw [scaleSpeed_speed, if_neg (not_not.mpr hwheel)]
      · rfl
    · simp [hcurrent]
  · intro hcurrent hwheel hlo hhi
    obtain ⟨product, hmul, herr, hspeed, hvalue⟩ :=
      scaleSpeed_product u.1.inputState camera hwheel hlo hhi
    rw [if_pos hcurrent]
    refine ⟨product, hmul, herr, hspeed, hvalue, ?_⟩
    rw [hvalue]
    exact le_trans (abs_clamp_sub_clamp_le _ _) herr

/-- C26 (amended), for the constructed sample camera and one `Update` of the
current camera with the wheel turned back: the speed left is the float
4369067/131072, within `2^-16` of 100/3. -/
theorem camera_speed_stays_in_range_witness :
    (MeshNodeSampleCameraComponent.new { m_ViewMatrix := { col3 := ⟨1, 2, 3, 1⟩ } }).m_Speed.toRat
        = 50
      ∧ ([(({ sampleCameraServices with inputState := { Mouse_Wheel := -1 } }
              : CameraServices), (1 / 60 : ℚ))].foldl
            (fun c u => Update u.1 u.2 c)
            (MeshNodeSampleCameraComponent.new
              { m_ViewMatrix := { col3 := ⟨1, 2, 3, 1⟩ } })).m_Speed.toRat = 4369067 / 131072
      ∧ 1 ≤ ([(({ sampleCameraServices with inputState := { Mouse_Wheel := -1 } }
                : CameraServices), (1 / 60 : ℚ))].foldl
              (fun c u => Update u.1 u.2 c)
              (MeshNodeSampleCameraComponent.new
                { m_ViewMatrix := { col3 := ⟨1, 2, 3, 1⟩ } })).m_Speed.toRat
      ∧ ([(({ sampleCameraServices with inputState := { Mouse_Wheel := -1 } }
              : CameraServices), (1 / 60 : ℚ))].foldl
            (fun c u => Update u.1 u.2 c)
            (MeshNodeSampleCameraComponent.new
              { m_ViewMatrix := { col3 := ⟨1, 2, 3, 1⟩ } })).m_Speed.toRat ≤ 200 :=
  have h := camera_speed_stays_in_range { m_ViewMatrix := { col3 := ⟨1, 2, 3, 1⟩ } }
    [(({ sampleCameraServices with inputState := { Mouse_Wheel := -1 } } : CameraServices),
      (1 / 60 : ℚ))]
    (fun u hu => by
      rw [List.mem_singleton.mp hu]
      exact ⟨fun _ => rfl, fun _ => rfl, fun _ _ _ => rfl⟩)
  ⟨h.1,
    by
      show (Update { sampleCameraServices with inputState := { Mouse_Wheel := -1 } } (1 / 60)
        sampleCameraComponent).m_Speed.toRat = 4369067 / 131072
      rw [Update_wheel_back]
      norm_num [F32.toRat],
    h.2.2.1, h.2.2.2.1⟩

theorem MeshNodeSampleCameraComponent.scaleSpeed_previous (inputState : InputState)
    (self : MeshNodeSampleCameraComponent) :
    (scaleSpeed inputState self).m_PrevViewMatrix = self.m_PrevViewMatrix
      ∧ (scaleSpeed inputState self).m_PrevViewProjectionMatrix = self.m_PrevViewProjectionMatrix
      ∧ (scaleSpeed inputState self).m_PrevProjJittered = self.m_PrevProjJittered := by
  unfold scaleSpeed
  by_cases hwheel : inputState.Mouse_Wheel ≠ 0
  · rw [if_pos hwheel]
    split <;> exact ⟨rfl, rfl, rfl⟩
  · rw [if_neg hwheel]; exact ⟨rfl, rfl, rfl⟩

theorem MeshNodeSampleCameraComponent.rotate_previous (inputState : InputState)
    (self : MeshNodeSampleCameraComponent) :
    (rotate inputState self).1.m_PrevViewMatrix = self.m_PrevViewMatrix
      ∧ (rotate inputState self).1.m_PrevViewProjectionMatrix = self.m_PrevViewProjectionMatrix
      ∧ (rotate inputState self).1.m_PrevProjJittered = self.m_PrevProjJittered := by
  unfold rotate
  split_ifs <;> exact ⟨rfl, rfl, rfl⟩

theorem MeshNodeSampleCameraComponent.updateJitter_previous (services : CameraServices)
    (self : MeshNodeSampleCameraComponent) :
    (updateJitter services self).m_PrevViewMatrix = self.m_PrevViewMatrix
      ∧ (updateJitter services self).m_PrevViewProjectionMatrix = self.m_PrevViewProjectionMatrix
      ∧ (updateJitter services self).m_PrevProjJittered = self.m_PrevProjJittered := by
  unfold updateJitter
  split
  · exact ⟨rfl, rfl, rfl⟩
  · split_ifs <;> exact ⟨rfl, rfl, rfl⟩

/-- The camera the base class methods are called on in `Update`, or that
`Update` leaves when it calls none: its previous matrices are the current
matrices on entry. -/
theorem MeshNodeSampleCameraComponent.Update_shape (services : CameraServices) (deltaTime : ℚ)
    (self : MeshNodeSampleCameraComponent) :
    ∃ camera : MeshNodeSampleCameraComponent,
      camera.m_PrevViewMatrix = self.m_ViewMatrix
        ∧ camera.m_PrevViewProjectionMatrix = self.m_ViewProjectionMatrix
        ∧ camera.m_PrevProjJittered = self.m_ProjJittered
        ∧ ((services.isCurrentCamera = false ∧ Update services deltaTime self = camera)
          ∨ (services.isCurrentCamera = true
              ∧ (services.inputState.Key_R = true ∨ services.inputState.Pad_Back = true)
              ∧ Update services deltaTime self
                  = services.UpdateMatrices (services.ResetCamera camera))
          ∨ (services.isCurrentCamera = true
              ∧ ¬ (services.inputState.Key_R = true ∨ services.inputState.Pad_Back = true)
              ∧ ∃ eyePos lookAt, Update services deltaTime self
                  = services.UpdateMatrices (services.LookAt eyePos lookAt camera))) := by
  obtain ⟨s1, s2, s3⟩ := scaleSpeed_previous services.inputState (updateTemporalInformation self)
  obtain ⟨r1, r2, r3⟩ := rotate_previous services.inputState
    (scaleSpeed services.inputState (updateTemporalInformation self))
  by_cases hcurrent : services.isCurrentCamera = true
  · by_cases hkey : services.inputState.Key_R = true ∨ services.inputState.Pad_Back = true
    · refine ⟨(rotate services.inputState
          (scaleSpeed services.inputState (updateTemporalInformation self))).1,
        by rw [r1, s1]; rfl, by rw [r2, s2]; rfl, by rw [r3, s3]; rfl, Or.inr (Or.inl ⟨hcurrent, hkey, ?_⟩)⟩
      unfold Update
      simp only
      rw [if_pos hcurrent, if_pos hkey]
    · obtain ⟨j1, j2, j3⟩ := updateJitter_previous services (rotate services.inputState
        (scaleSpeed services.inputState (updateTemporalInformation self))).1
      refine ⟨updateJitter services (rotate services.inputState
          (scaleSpeed services.inputState (updateTemporalInformation self))).1,
        by rw [j1, r1, s1]; rfl, by rw [j2, r2, s2]; rfl, by rw [j3, r3, s3]; rfl,
        Or.inr (Or.inr ⟨hcurrent, hkey, ?_⟩)⟩
      unfold Update
      simp only
      rw [if_pos hcurrent, if_neg hkey]
      exact ⟨_, _, rfl⟩
  · refine ⟨updateTemporalInformation self, rfl, rfl, rfl, Or.inl ⟨by simpa using hcurrent, ?_⟩⟩
    unfold Update
    simp only
    rw [if_neg hcurrent]

/-- C27. Every `Update` sets the previous view, previous view-projection and
previous jittered-projection matrix to the values the current ones have on
entry, before anything else: for a camera that is not the current one the
result is the camera on entry with exactly these three members replaced; for
the current camera the base class methods (`ResetCamera` and `UpdateMatrices`
on the early return after a reset, `LookAt` and `UpdateMatrices` at the end)
are called on a camera that already holds the three values, so the camera
`Update` leaves holds them too whenever these methods leave the previous
matrices alone. -/
theorem update_sets_previous_matrices (services : CameraServices) (deltaTime : ℚ)
    (self : MeshNodeSampleCameraComponent) :
    (services.isCurrentCamera = false →
        Update services deltaTime self
          = { self with
              m_PrevViewMatrix := self.m_ViewMatrix
              m_PrevViewProjectionMatrix := self.m_ViewProjectionMatrix
              m_PrevProjJittered := self.m_ProjJittered })
      ∧ (∃ camera : MeshNodeSampleCameraComponent,
          camera.m_PrevViewMatrix = self.m_ViewMatrix
            ∧ camera.m_PrevViewProjectionMatrix = self.m_ViewProjectionMatrix
            ∧ camera.m_PrevProjJittered = self.m_ProjJittered
            ∧ ((services.isCurrentCamera = false ∧ Update services deltaTime self = camera)
              ∨ (services.isCurrentCamera = true
                  ∧ (services.inputState.Key_R = true ∨ services.inputState.Pad_Back = true)
                  ∧ Update services deltaTime self
                      = services.UpdateMatrices (services.ResetCamera camera))
              ∨ (services.isCurrentCamera = true
                  ∧ ¬ (services.inputState.Key_R = true ∨ services.inputState.Pad_Back = true)
                  ∧ ∃ eyePos lookAt, Update services deltaTime self
                      = services.UpdateMatrices (services.LookAt eyePos lookAt camera))))
      ∧ (KeepsPrevious services.ResetCamera → KeepsPrevious services.UpdateMatrices →
          (∀ eyePos lookAt, KeepsPrevious (services.LookAt eyePos lookAt)) →
          (Update services deltaTime self).m_PrevViewMatrix = self.m_ViewMatrix
            ∧ (Update services deltaTime self).m_PrevViewProjectionMatrix
                = self.m_ViewProjectionMatrix
            ∧ (Update services deltaTime self).m_PrevProjJittered = self.m_ProjJittered) := by
  refine ⟨?_, Update_shape services deltaTime self, ?_⟩
  · intro hcurrent
    unfold Update
    simp only [hcurrent, Bool.false_eq_true, if_false]
    rfl
  · intro hreset hupdate hlook
    obtain ⟨camera, c1, c2, c3, ⟨-, heq⟩ | ⟨-, -, heq⟩ | ⟨-, -, eyePos, lookAt, heq⟩⟩ :=
      Update_shape services deltaTime self
    · rw [heq]; exact ⟨c1, c2, c3⟩
    · obtain ⟨u1, u2, u3⟩ := hupdate (services.ResetCamera camera)
      obtain ⟨v1, v2, v3⟩ := hreset camera
      rw [heq, u1, u2, u3, v1, v2, v3]
      exact ⟨c1, c2, c3⟩
    · obtain ⟨u1, u2, u3⟩ := hupdate (services.LookAt eyePos lookAt camera)
      obtain ⟨v1, v2, v3⟩ := hlook eyePos lookAt camera
      rw [heq, u1, u2, u3, v1, v2, v3]
      exact ⟨c1, c2, c3⟩

/-- C27, for the sample camera: when it is the current one and the key R is
down, and when it is not the current one. -/
theorem update_sets_previous_matrices_witness :
    (Update { sampleCameraServices with inputState := { Key_R := true } } (1 / 60)
        sampleCameraComponent).m_PrevViewMatrix = sampleCameraComponent.m_ViewMatrix
      ∧ Update { sampleCameraServices with isCurrentCamera := false } (1 / 60)
          sampleCameraComponent
        = { sampleCameraComponent with
            m_PrevViewMatrix := sampleCameraComponent.m_ViewMatrix
            m_PrevViewProjectionMatrix := sampleCameraComponent.m_ViewProjectionMatrix
            m_PrevProjJittered := sampleCameraComponent.m_ProjJittered } :=
  ⟨((update_sets_previous_matrices { sampleCameraServices with inputState := { Key_R := true } }
      (1 / 60) sampleCameraComponent).2.2
      (fun _ => ⟨rfl, rfl, rfl⟩) (fun _ => ⟨rfl, rfl, rfl⟩) (fun _ _ _ => ⟨rfl, rfl, rfl⟩)).1,
    (update_sets_previous_matrices { sampleCameraServices with isCurrentCamera := false }
      (1 / 60) sampleCameraComponent).1 rfl⟩


/-! ## The shader time over a run -/

end MeshNodeSample
